import Mathlib

/-!
# Windows composition presenter (native-glass/win)

A shallow embedding of `CompositionLayer.cpp` / `CompositionLayer.h` and of the JNI entry
points that wrap it.  The C++ member functions become actions of a small state-and-abort
monad `M`: the state is the `CompositionLayer` object together with the chronological log of
the platform calls made so far; an action either finishes, throws an `RoException`, or
dereferences a null `ComPtr`.

The Windows platform is a parameter: a `Platform` gives the `HRESULT` of every platform call, so
a statement quantified over all `Platform` covers every behaviour of the operating system.

`Compositor.cpp` and `GraphicsEffect.cpp` are embedded in the same namespace `Glass`.  The
routines of `xmlsave.c` (libxml) are embedded in the namespace `Libxml`: the output array is
the log of the stores made into it.
-/

namespace Glass

/-! ## Platform values -/

/-- The Windows status code, a signed 32-bit value. -/
abbrev HRESULT := Int

/-- Success status `S_OK`. -/
def S_OK : HRESULT := 0

/-- Generic failure status `E_FAIL` (0x80004005 as a signed 32-bit value). -/
def E_FAIL : HRESULT := -2147467259

/-- The Windows SDK test `FAILED(hr)`, which is `hr < 0`. -/
def FAILED (hr : HRESULT) : Bool := decide (hr < 0)

/-- A live `ID3D11Device` (the pointee of a non-null `ID3D11Device*`), identified by its
address.  `present` dereferences its `device` argument unconditionally, so callers hand in
a live device; a nullable `ComPtr<ID3D11Device>` is an `Option Device`. -/
structure Device where
  addr : Nat
  deriving DecidableEq, Repr

/-- A Win32 `HANDLE` value (here: the shared handle of a texture). -/
abbrev HANDLE := Nat

/-- The platform drawing surface reached through `drawingSurfaceInterop_`: the device whose
composition graphics device created it and its current pixel size.  It is created 0x0 by
`CreateDrawingSurface` and its size is changed only by a successful `Resize`. -/
structure Surface where
  device : Device
  width : Int
  height : Int
  deriving DecidableEq, Repr

/-- The composition brushes the layer handles. -/
inductive Brush
  /-- the backdrop (blur and saturation) brush shared by all layers of one compositor -/
  | backdrop
  /-- a colour brush made by `CreateColorBrushWithColor` with the given A, R, G, B bytes -/
  | color (a r g b : Nat)
  /-- a surface brush made by `CreateSurfaceBrushWithSurface` over a drawing surface -/
  | surface (s : Surface)
  deriving DecidableEq, Repr

/-- The part of an `ISpriteVisual` the layer changes: the brush bound by `put_Brush` and the
size given by `IVisual::put_Size` (the integers that the code converts to `float`). -/
structure SpriteVisual where
  brush : Option Brush
  size : Option (Int × Int)
  deriving DecidableEq, Repr

/-- The platform calls made by `CompositionLayer` member functions, with the arguments that
matter.  The order of the constructors is the order of first use in the source file. -/
inductive Call
  | backgroundVisual_put_Brush (b : Brush)
  | CreateColorBrushWithColor (a r g b : Nat)
  | ColorBrush_QueryInterface_ICompositionBrush
  | GetImmediateContext (device : Device)
  | Compositor_QueryInterface_ICompositorInterop
  | Compositor_QueryInterface_ICompositorDesktopInterop
  | CreateGraphicsDevice (device : Device)
  | CreateDrawingSurface (width height : Int)
  | DrawingSurface_QueryInterface_ICompositionSurface
  | DrawingSurface_QueryInterface_ICompositionDrawingSurfaceInterop
  | CreateSurfaceBrushWithSurface
  | SurfaceBrush_QueryInterface_ICompositionBrush
  | contentVisual_put_Brush (b : Brush)
  | contentVisual_QueryInterface_IVisual
  | put_Size (width height : Int)
  | Resize (width height : Int)
  | BeginDraw
  | OpenSharedResource (device : Device) (textureSharedHandle : HANDLE)
  | Resource_QueryInterface_ID3D11Texture2D
  | CopySubresourceRegion
  | EndDraw
  deriving DecidableEq, Repr

/-- The qualified name (interface, then method) of the platform operation behind a call. -/
def Call.name : Call → String
  | .backgroundVisual_put_Brush _ => "ISpriteVisual::put_Brush"
  | .CreateColorBrushWithColor _ _ _ _ => "ICompositor::CreateColorBrushWithColor"
  | .ColorBrush_QueryInterface_ICompositionBrush =>
      "ICompositionColorBrush::QueryInterface<ICompositionBrush>"
  | .GetImmediateContext _ => "ID3D11Device::GetImmediateContext"
  | .Compositor_QueryInterface_ICompositorInterop =>
      "ICompositor::QueryInterface<ICompositorInterop>"
  | .Compositor_QueryInterface_ICompositorDesktopInterop =>
      "ICompositor::QueryInterface<ICompositorDesktopInterop>"
  | .CreateGraphicsDevice _ => "ICompositorInterop::CreateGraphicsDevice"
  | .CreateDrawingSurface _ _ => "ICompositionGraphicsDevice::CreateDrawingSurface"
  | .DrawingSurface_QueryInterface_ICompositionSurface =>
      "ICompositionDrawingSurface::QueryInterface<ICompositionSurface>"
  | .DrawingSurface_QueryInterface_ICompositionDrawingSurfaceInterop =>
      "ICompositionDrawingSurface::QueryInterface<ICompositionDrawingSurfaceInterop>"
  | .CreateSurfaceBrushWithSurface => "ICompositor::CreateSurfaceBrushWithSurface"
  | .SurfaceBrush_QueryInterface_ICompositionBrush =>
      "ICompositionSurfaceBrush::QueryInterface<ICompositionBrush>"
  | .contentVisual_put_Brush _ => "ISpriteVisual::put_Brush"
  | .contentVisual_QueryInterface_IVisual => "ISpriteVisual::QueryInterface<IVisual>"
  | .put_Size _ _ => "IVisual::put_Size"
  | .Resize _ _ => "ICompositionDrawingSurfaceInterop::Resize"
  | .BeginDraw => "ICompositionDrawingSurfaceInterop::BeginDraw"
  | .OpenSharedResource _ _ => "ID3D11Device::OpenSharedResource"
  | .Resource_QueryInterface_ID3D11Texture2D =>
      "ID3D11Resource::QueryInterface<ID3D11Texture2D>"
  | .CopySubresourceRegion => "ID3D11DeviceContext::CopySubresourceRegion"
  | .EndDraw => "ICompositionDrawingSurfaceInterop::EndDraw"

/-- The behaviour of the platform during one member-function call: the status each platform
call returns.  Within one call of `present` or `setBlurBehind` every platform call is made
at most once, so a function of the call is fully general. -/
abbrev Platform := Call → HRESULT

/-- The platform on which every call succeeds. -/
def Platform.allOk : Platform := fun _ => S_OK

/-- The platform on which exactly the call `c` fails, with `E_FAIL`. -/
def Platform.failing (c : Call) : Platform := fun c' => if c' = c then E_FAIL else S_OK

/-- One entry of the log of platform calls: the call, the status it returned (`none` for a
`void` method) and whether the call site wraps it in `RO_CHECKED`. -/
structure Event where
  call : Call
  status : Option HRESULT
  checked : Bool
  deriving DecidableEq, Repr

/-! ## The C++ object and the execution monad -/

/-- The exception thrown for a failed platform call: the text given at the throw site and
the failing status.  `RoException::message()` is what the JNI layer passes on. -/
structure RoException where
  message : String
  hresult : HRESULT
  deriving DecidableEq, Repr

/-- The data members of `class CompositionLayer` (CompositionLayer.h).  The three `ComPtr`
members that are assigned after construction are `Option`s (`none` is a null `ComPtr`);
`compositor_`, `desktopWindowTarget_` and `compositionTarget_` are never reassigned or
inspected and are left out; the two visuals carry the platform state behind the pointer. -/
structure CompositionLayer where
  blurBehind_ : Bool
  width_ : Int
  height_ : Int
  device_ : Option Device
  deviceContext_ : Option Device
  drawingSurfaceInterop_ : Option Surface
  backgroundBrush_ : Brush
  backgroundVisual_ : SpriteVisual
  contentVisual_ : SpriteVisual
  deriving DecidableEq, Repr

/-- How a member function stops before its end. -/
inductive Abort
  /-- a C++ exception propagates out of the function -/
  | threw (ex : RoException)
  /-- `operator->` on a null `ComPtr` member: undefined behaviour, the program is lost -/
  | nullDeref
  deriving DecidableEq, Repr

/-- The object and the log of platform calls made since the member function was entered. -/
structure Run where
  layer : CompositionLayer
  trace : List Event
  deriving DecidableEq, Repr

/-- A member-function body: from the state before to a value or an abort, and the state at
that point (an abort keeps every assignment made before it). -/
def M (α : Type) : Type := Run → Except Abort α × Run

/-- Sequencing in `M`: the second action runs only if the first one finished. -/
def M.bind {α β : Type} (m : M α) (f : α → M β) : M β := fun r =>
  match m r with
  | (Except.ok a, r') => f a r'
  | (Except.error e, r') => (Except.error e, r')

instance : Monad M where
  pure a := fun r => (Except.ok a, r)
  bind := M.bind

/-- Read the object. -/
def getLayer : M CompositionLayer := fun r => (Except.ok r.layer, r)

/-- Assign to data members. -/
def modifyLayer (f : CompositionLayer → CompositionLayer) : M Unit := fun r =>
  (Except.ok (), { r with layer := f r.layer })

/-- Make a platform call that returns an `HRESULT` and log it. -/
def invoke (os : Platform) (c : Call) (checked : Bool) : M HRESULT := fun r =>
  (Except.ok (os c), { r with trace := r.trace ++ [⟨c, some (os c), checked⟩] })

/-- Make a platform call of a `void` method and log it. -/
def invokeVoid (c : Call) : M Unit := fun r =>
  (Except.ok (), { r with trace := r.trace ++ [⟨c, none, false⟩] })

/-- The C++ `throw`. -/
def throwRo {α : Type} (ex : RoException) : M α := fun r => (Except.error (Abort.threw ex), r)

/-- The `operator->` of a `ComPtr` member: the pointee, or undefined behaviour on null. -/
def deref {α : Type} : Option α → M α
  | some a => pure a
  | none => fun r => (Except.error Abort.nullDeref, r)

/-- Modelled from the spec: the macro `RO_CHECKED(NAME, FUNC)` of RoActivationSupport.h,
which is not among the sources.  It evaluates the platform call `FUNC` once and, when the
status has `FAILED`, throws an `RoException` that carries the operation name `NAME` and the
status ("fails with `PlatformServiceError` carrying the failing operation's name"). -/
def RO_CHECKED (os : Platform) (NAME : String) (FUNC : Call) : M Unit := do
  let res ← invoke os FUNC true
  if FAILED res then throwRo ⟨NAME, res⟩ else pure ()

/-- A platform call whose returned `HRESULT` the call site discards. -/
def unchecked (os : Platform) (c : Call) : M HRESULT := invoke os c false

/-- What a finished or aborted member function leaves behind. -/
inductive Outcome
  | returned
  | threw (ex : RoException)
  | nullDeref
  deriving DecidableEq, Repr

/-- The observable result of one member-function call. -/
structure Result where
  outcome : Outcome
  layer : CompositionLayer
  trace : List Event
  deriving DecidableEq, Repr

/-- How the function ended, from the exit value of its body. -/
def exitOutcome : Except Abort Unit → Outcome
  | Except.ok _ => Outcome.returned
  | Except.error (Abort.threw ex) => Outcome.threw ex
  | Except.error Abort.nullDeref => Outcome.nullDeref

/-- Run a member function on an object, with an empty log. -/
def M.run (m : M Unit) (this : CompositionLayer) : Result :=
  ⟨exitOutcome (m ⟨this, []⟩).1, (m ⟨this, []⟩).2.layer, (m ⟨this, []⟩).2.trace⟩

/-! ## CompositionLayer.cpp -/

/-- The constructor `CompositionLayer::CompositionLayer` (lines 49-65): flag false, cached
size 0x0, no device.  The two visuals arrive from `Compositor::createCompositionLayer`,
which has put an opaque white colour brush on the background visual. -/
def CompositionLayer.create (backgroundBrush : Brush) (backgroundVisual contentVisual : SpriteVisual) :
    CompositionLayer :=
  { blurBehind_ := false
    width_ := 0
    height_ := 0
    device_ := none
    deviceContext_ := none
    drawingSurfaceInterop_ := none
    backgroundBrush_ := backgroundBrush
    backgroundVisual_ := backgroundVisual
    contentVisual_ := contentVisual }

/-- A layer as `Compositor::createCompositionLayer` returns it (Compositor.cpp 231-252):
shared backdrop brush kept in `backgroundBrush_`, white colour brush on the background
visual, nothing yet on the content visual. -/
def CompositionLayer.fresh : CompositionLayer :=
  CompositionLayer.create Brush.backdrop ⟨some (Brush.color 255 255 255 255), none⟩ ⟨none, none⟩

/-- The call `backgroundVisual_->put_Brush(b)`; the returned status is discarded.  On the
platform a successful call binds the brush, a failed call changes nothing. -/
def backgroundVisual_put_Brush (os : Platform) (b : Brush) : M Unit := do
  let res ← unchecked os (Call.backgroundVisual_put_Brush b)
  modifyLayer fun l => { l with backgroundVisual_ :=
    { l.backgroundVisual_ with brush := bif FAILED res then l.backgroundVisual_.brush else some b } }

/-- The call `contentVisual_->put_Brush(b)`; the returned status is discarded. -/
def contentVisual_put_Brush (os : Platform) (b : Brush) : M Unit := do
  let res ← unchecked os (Call.contentVisual_put_Brush b)
  modifyLayer fun l => { l with contentVisual_ :=
    { l.contentVisual_ with brush := bif FAILED res then l.contentVisual_.brush else some b } }

/-- The call `visual->put_Size(...)` on the content visual; the status is discarded. -/
def contentVisual_put_Size (os : Platform) (width height : Int) : M Unit := do
  let res ← unchecked os (Call.put_Size width height)
  modifyLayer fun l => { l with contentVisual_ :=
    { l.contentVisual_ with
      size := bif FAILED res then l.contentVisual_.size else some (width, height) } }

/-- `CompositionLayer::setBlurBehind` (lines 67-83). -/
def CompositionLayer.setBlurBehind (os : Platform) (enabled : Bool) : M Unit := do
  let this ← getLayer
  if enabled && !this.blurBehind_ then
    backgroundVisual_put_Brush os this.backgroundBrush_
  else if !enabled && this.blurBehind_ then
    RO_CHECKED os "ICompositor::CreateColorBrushWithColor"
      (Call.CreateColorBrushWithColor 255 255 255 255)
    RO_CHECKED os "ICompositionColorBrush::QueryInterface<ICompositionBrush>"
      Call.ColorBrush_QueryInterface_ICompositionBrush
    backgroundVisual_put_Brush os (Brush.color 255 255 255 255)
  else
    pure ()
  modifyLayer fun l => { l with blurBehind_ := enabled }

/-- `CompositionLayer::ensureDevice` (lines 85-129).  Nothing happens when the given device
is the bound one.  Otherwise `device_` is overwritten first, then the context, then each
resource is created in turn; `drawingSurfaceInterop_` is overwritten by the sixth checked
call, and the new surface brush is put on the content visual at the end. -/
def CompositionLayer.ensureDevice (os : Platform) (device : Device) : M Unit := do
  if (← getLayer).device_ = some device then
    pure ()
  else
    modifyLayer fun l => { l with device_ := some device }
    invokeVoid (Call.GetImmediateContext device)
    modifyLayer fun l => { l with deviceContext_ := some device }
    RO_CHECKED os "ICompositor::QueryInterface<ICompositorInterop>"
      Call.Compositor_QueryInterface_ICompositorInterop
    RO_CHECKED os "ICompositor::QueryInterface<ICompositorDesktopInterop>"
      Call.Compositor_QueryInterface_ICompositorDesktopInterop
    RO_CHECKED os "ICompositorInterop::CreateGraphicsDevice" (Call.CreateGraphicsDevice device)
    RO_CHECKED os "ICompositionGraphicsDevice::CreateDrawingSurface" (Call.CreateDrawingSurface 0 0)
    let drawingSurface : Surface := ⟨device, 0, 0⟩
    RO_CHECKED os "ICompositionDrawingSurface::QueryInterface<ICompositionSurface>"
      Call.DrawingSurface_QueryInterface_ICompositionSurface
    RO_CHECKED os "ICompositionDrawingSurface::QueryInterface<ICompositionDrawingSurfaceInterop>"
      Call.DrawingSurface_QueryInterface_ICompositionDrawingSurfaceInterop
    modifyLayer fun l => { l with drawingSurfaceInterop_ := some drawingSurface }
    RO_CHECKED os "ICompositor::CreateSurfaceBrushWithSurface" Call.CreateSurfaceBrushWithSurface
    RO_CHECKED os "ICompositionSurfaceBrush::QueryInterface<ICompositionBrush>"
      Call.SurfaceBrush_QueryInterface_ICompositionBrush
    contentVisual_put_Brush os (Brush.surface drawingSurface)

/-- `CompositionLayer::present` (lines 131-166).  A successful `Resize` gives the surface the
new size; `BeginDraw`, `Resize` and `EndDraw` go through `drawingSurfaceInterop_`, and
`CopySubresourceRegion` through `deviceContext_`. -/
def CompositionLayer.present (os : Platform) (device : Device) (textureSharedHandle : HANDLE)
    (width height : Int) : M Unit := do
  CompositionLayer.ensureDevice os device
  if (← getLayer).width_ ≠ width ∨ (← getLayer).height_ ≠ height then
    modifyLayer fun l => { l with width_ := width, height_ := height }
    RO_CHECKED os "ISpriteVisual::QueryInterface<IVisual>" Call.contentVisual_QueryInterface_IVisual
    contentVisual_put_Size os width height
    let surface ← deref (← getLayer).drawingSurfaceInterop_
    RO_CHECKED os "ICompositionDrawingSurfaceInterop::Resize" (Call.Resize width height)
    modifyLayer fun l =>
      { l with drawingSurfaceInterop_ := some { surface with width := width, height := height } }
  let _ ← deref (← getLayer).drawingSurfaceInterop_
  RO_CHECKED os "ICompositionDrawingSurfaceInterop::BeginDraw" Call.BeginDraw
  RO_CHECKED os "ID3D11Device::OpenSharedResource"
    (Call.OpenSharedResource device textureSharedHandle)
  RO_CHECKED os "ID3D11Resource::QueryInterface<ID3D11Texture2D>"
    Call.Resource_QueryInterface_ID3D11Texture2D
  let _ ← deref (← getLayer).deviceContext_
  invokeVoid Call.CopySubresourceRegion
  let _ ← deref (← getLayer).drawingSurfaceInterop_
  RO_CHECKED os "ICompositionDrawingSurfaceInterop::EndDraw" Call.EndDraw

/-! ## The JNI entry points of CompositionLayer.cpp -/

/-- A Java exception raised through `JNIEnv::ThrowNew`. -/
structure JavaThrowable where
  className : String
  message : String
  deriving DecidableEq, Repr

/-- What a native method leaves behind: how the C++ function ended (`Outcome.threw` is a
C++ exception that left the native method), the Java exception pending in the `JNIEnv`, the
object and the platform calls made. -/
structure JniResult where
  outcome : Outcome
  pending : Option JavaThrowable
  layer : CompositionLayer
  trace : List Event
  deriving DecidableEq, Repr

/-- `Java_com_sun_glass_ui_win_WinCompositionLayer__1present` (lines 28-36): the call is in
a `try` block whose handler turns an `RoException` into a `RuntimeException`. -/
def Java_com_sun_glass_ui_win_WinCompositionLayer__1present (os : Platform)
    (handle : CompositionLayer) (d3d11Device : Device) (textureSharedHandle : HANDLE)
    (width height : Int) : JniResult :=
  match M.run (CompositionLayer.present os d3d11Device textureSharedHandle width height) handle with
  | ⟨Outcome.threw ex, layer, trace⟩ =>
      ⟨Outcome.returned, some ⟨"java/lang/RuntimeException", ex.message⟩, layer, trace⟩
  | ⟨outcome, layer, trace⟩ => ⟨outcome, none, layer, trace⟩

/-- `Java_com_sun_glass_ui_win_WinCompositionLayer__1setBlurBehind` (lines 42-47): the call
is made directly, with no `try` block around it. -/
def Java_com_sun_glass_ui_win_WinCompositionLayer__1setBlurBehind (os : Platform)
    (handle : CompositionLayer) (enabled : Bool) : JniResult :=
  match M.run (CompositionLayer.setBlurBehind os enabled) handle with
  | ⟨outcome, layer, trace⟩ => ⟨outcome, none, layer, trace⟩

/-! ## Sequences of calls and views of the log -/

/-- The arguments of one `present` call, with the platform behaviour during that call. -/
structure PresentArgs where
  os : Platform
  device : Device
  textureSharedHandle : HANDLE
  width : Int
  height : Int

/-- One `present` call on an object. -/
def CompositionLayer.presentCall (this : CompositionLayer) (a : PresentArgs) : Result :=
  M.run (CompositionLayer.present a.os a.device a.textureSharedHandle a.width a.height) this

/-- The results of successive `present` calls on one layer, each on the object the previous
one left.  Nothing follows a call that dereferenced a null pointer. -/
def presentAll : CompositionLayer → List PresentArgs → List Result
  | _, [] => []
  | this, a :: rest =>
      let r := this.presentCall a
      r :: (if r.outcome = Outcome.nullDeref then [] else presentAll r.layer rest)

/-- The platform calls of a log, in order. -/
def calls (t : List Event) : List Call := t.map Event.call

/-- A call site wrapped in `RO_CHECKED` whose platform call returned a failure status. -/
def Event.failedCheck (e : Event) : Bool :=
  e.checked && (match e.status with
    | some hr => FAILED hr
    | none => false)

/-- The ten platform calls of the device rebuild in `ensureDevice`. -/
def Call.isRebuildCall : Call → Bool
  | .backgroundVisual_put_Brush _ => false
  | .CreateColorBrushWithColor _ _ _ _ => false
  | .ColorBrush_QueryInterface_ICompositionBrush => false
  | .GetImmediateContext _ => true
  | .Compositor_QueryInterface_ICompositorInterop => true
  | .Compositor_QueryInterface_ICompositorDesktopInterop => true
  | .CreateGraphicsDevice _ => true
  | .CreateDrawingSurface _ _ => true
  | .DrawingSurface_QueryInterface_ICompositionSurface => true
  | .DrawingSurface_QueryInterface_ICompositionDrawingSurfaceInterop => true
  | .CreateSurfaceBrushWithSurface => true
  | .SurfaceBrush_QueryInterface_ICompositionBrush => true
  | .contentVisual_put_Brush _ => true
  | .contentVisual_QueryInterface_IVisual => false
  | .put_Size _ _ => false
  | .Resize _ _ => false
  | .BeginDraw => false
  | .OpenSharedResource _ _ => false
  | .Resource_QueryInterface_ID3D11Texture2D => false
  | .CopySubresourceRegion => false
  | .EndDraw => false

/-- The rebuild calls of a log. -/
def rebuildCalls (t : List Event) : List Call := (calls t).filter Call.isRebuildCall

/-- The complete rebuild for a device: immediate context, composition graphics device,
0x0 drawing surface, its two interfaces, surface brush, brush on the content visual. -/
def fullRebuild (device : Device) : List Call :=
  [ Call.GetImmediateContext device,
    Call.Compositor_QueryInterface_ICompositorInterop,
    Call.Compositor_QueryInterface_ICompositorDesktopInterop,
    Call.CreateGraphicsDevice device,
    Call.CreateDrawingSurface 0 0,
    Call.DrawingSurface_QueryInterface_ICompositionSurface,
    Call.DrawingSurface_QueryInterface_ICompositionDrawingSurfaceInterop,
    Call.CreateSurfaceBrushWithSurface,
    Call.SurfaceBrush_QueryInterface_ICompositionBrush,
    Call.contentVisual_put_Brush (Brush.surface ⟨device, 0, 0⟩) ]

/-- The two resizing calls: `IVisual::put_Size` and the drawing-surface `Resize`. -/
def Call.isResizeCall : Call → Bool
  | .backgroundVisual_put_Brush _ => false
  | .CreateColorBrushWithColor _ _ _ _ => false
  | .ColorBrush_QueryInterface_ICompositionBrush => false
  | .GetImmediateContext _ => false
  | .Compositor_QueryInterface_ICompositorInterop => false
  | .Compositor_QueryInterface_ICompositorDesktopInterop => false
  | .CreateGraphicsDevice _ => false
  | .CreateDrawingSurface _ _ => false
  | .DrawingSurface_QueryInterface_ICompositionSurface => false
  | .DrawingSurface_QueryInterface_ICompositionDrawingSurfaceInterop => false
  | .CreateSurfaceBrushWithSurface => false
  | .SurfaceBrush_QueryInterface_ICompositionBrush => false
  | .contentVisual_put_Brush _ => false
  | .contentVisual_QueryInterface_IVisual => false
  | .put_Size _ _ => true
  | .Resize _ _ => true
  | .BeginDraw => false
  | .OpenSharedResource _ _ => false
  | .Resource_QueryInterface_ID3D11Texture2D => false
  | .CopySubresourceRegion => false
  | .EndDraw => false

/-- The resizing calls of a log. -/
def resizeCalls (t : List Event) : List Call := (calls t).filter Call.isResizeCall

/-- The calls of the draw session: begin, open the shared texture, copy, end. -/
def Call.isDrawCall : Call → Bool
  | .backgroundVisual_put_Brush _ => false
  | .CreateColorBrushWithColor _ _ _ _ => false
  | .ColorBrush_QueryInterface_ICompositionBrush => false
  | .GetImmediateContext _ => false
  | .Compositor_QueryInterface_ICompositorInterop => false
  | .Compositor_QueryInterface_ICompositorDesktopInterop => false
  | .CreateGraphicsDevice _ => false
  | .CreateDrawingSurface _ _ => false
  | .DrawingSurface_QueryInterface_ICompositionSurface => false
  | .DrawingSurface_QueryInterface_ICompositionDrawingSurfaceInterop => false
  | .CreateSurfaceBrushWithSurface => false
  | .SurfaceBrush_QueryInterface_ICompositionBrush => false
  | .contentVisual_put_Brush _ => false
  | .contentVisual_QueryInterface_IVisual => false
  | .put_Size _ _ => false
  | .Resize _ _ => false
  | .BeginDraw => true
  | .OpenSharedResource _ _ => true
  | .Resource_QueryInterface_ID3D11Texture2D => false
  | .CopySubresourceRegion => true
  | .EndDraw => true

/-- The draw-session calls of a log. -/
def drawCalls (t : List Event) : List Call := (calls t).filter Call.isDrawCall

/-- The pixel size of the layer's current drawing surface, when it has one. -/
def CompositionLayer.surfaceSize (this : CompositionLayer) : Option (Int × Int) :=
  this.drawingSurfaceInterop_.map fun s => (s.width, s.height)

/-- The device-dependent members are all absent, or all present and of one device. -/
def CompositionLayer.deviceConsistent (this : CompositionLayer) : Bool :=
  match this.device_, this.deviceContext_, this.drawingSurfaceInterop_ with
  | none, none, none => true
  | some d, some c, some s => decide (c = d) && decide (s.device = d)
  | _, _, _ => false

/-- Two devices and a texture handle for concrete runs. -/
def deviceA : Device := ⟨1⟩

/-- A second device, different from `deviceA`. -/
def deviceB : Device := ⟨2⟩

/-- A shared texture handle. -/
def texA : HANDLE := 7

/-- A `present` call on device A at 800x600 on a platform where every call succeeds. -/
def argA : PresentArgs := ⟨Platform.allOk, deviceA, texA, 800, 600⟩

/-- A `present` call on device B at the same size, every platform call succeeding. -/
def argB : PresentArgs := ⟨Platform.allOk, deviceB, texA, 800, 600⟩

/-- The platform on which opening the shared texture `texA` on device A fails. -/
def osOpenFails : Platform := Platform.failing (Call.OpenSharedResource deviceA texA)

/-- A layer on which blur-behind has been switched on. -/
def blurredLayer : CompositionLayer :=
  (M.run (CompositionLayer.setBlurBehind Platform.allOk true) CompositionLayer.fresh).layer

/-- Calls whose status the call site discards: the brush and size setters of a visual. -/
def Call.isSetter : Call → Bool
  | .backgroundVisual_put_Brush _ => true
  | .CreateColorBrushWithColor _ _ _ _ => false
  | .ColorBrush_QueryInterface_ICompositionBrush => false
  | .GetImmediateContext _ => false
  | .Compositor_QueryInterface_ICompositorInterop => false
  | .Compositor_QueryInterface_ICompositorDesktopInterop => false
  | .CreateGraphicsDevice _ => false
  | .CreateDrawingSurface _ _ => false
  | .DrawingSurface_QueryInterface_ICompositionSurface => false
  | .DrawingSurface_QueryInterface_ICompositionDrawingSurfaceInterop => false
  | .CreateSurfaceBrushWithSurface => false
  | .SurfaceBrush_QueryInterface_ICompositionBrush => false
  | .contentVisual_put_Brush _ => true
  | .contentVisual_QueryInterface_IVisual => false
  | .put_Size _ _ => true
  | .Resize _ _ => false
  | .BeginDraw => false
  | .OpenSharedResource _ _ => false
  | .Resource_QueryInterface_ID3D11Texture2D => false
  | .CopySubresourceRegion => false
  | .EndDraw => false

/-- The platform on which putting the backdrop brush on the background visual fails. -/
def osPutBrushFails : Platform :=
  Platform.failing (Call.backgroundVisual_put_Brush Brush.backdrop)

/-- The platform on which creating the white colour brush fails. -/
def osColorBrushFails : Platform :=
  Platform.failing (Call.CreateColorBrushWithColor 255 255 255 255)

/-! ## Compositor.cpp: the platform objects of a compositor -/

/-- A native window handle. -/
abbrev HWND := Nat

/-- The identity of a visual: its number in the order of creation. -/
abbrev VisualId := Nat

/-- A visual of the composition service, as far as `createCompositionLayer` shapes it: made
by `CreateContainerVisual` or by `CreateSpriteVisual`, the brush put on it, its relative size
adjustment, and its child collection, topmost child first. -/
structure Visual where
  container : Bool
  brush : Option Brush
  relativeSizeAdjustment : Option (Int × Int)
  children : List VisualId
  deriving DecidableEq, Repr

/-- The composition-service objects behind one `ICompositor`: the visuals made so far, the
windows that have a desktop window target and the root visual of each target, and the
requested commits that have not completed yet, each with the mark whether a completion
handler has been put on it. -/
structure Composition where
  visuals : VisualId → Option Visual
  visualCount : Nat
  hasTarget : HWND → Bool
  root : HWND → Option VisualId
  pendingCommits : List Bool

/-- The composition of a compositor that has made nothing yet. -/
def Composition.empty : Composition :=
  ⟨fun _ => none, 0, fun _ => false, fun _ => none, []⟩

/-- The effect of a successful `CreateSpriteVisual` or `CreateContainerVisual`. -/
def Composition.addVisual (c : Composition) (container : Bool) : Composition :=
  { c with
    visuals := fun j => if j = c.visualCount then some ⟨container, none, none, []⟩ else c.visuals j
    visualCount := c.visualCount + 1 }

/-- Change one visual. -/
def Composition.updateVisual (c : Composition) (v : VisualId) (f : Visual → Visual) :
    Composition :=
  { c with visuals := fun j => if j = v then (c.visuals j).map f else c.visuals j }

/-- The platform calls made by `Compositor` member functions.  A call that makes a visual
carries the number the new visual gets, a call on a visual the number of that visual. -/
inductive CompositorCall
  | Compositor_QueryInterface_ICompositorDesktopInterop
  | CreateDesktopWindowTarget (hwnd : HWND)
  | DesktopWindowTarget_QueryInterface_ICompositionTarget
  | CreateSpriteVisual (v : VisualId)
  | SpriteVisual_QueryInterface_IVisual (v : VisualId)
  | SpriteVisual_QueryInterface_IVisual2 (v : VisualId)
  | CreateContainerVisual (v : VisualId)
  | ContainerVisual_QueryInterface_IVisual (v : VisualId)
  | ContainerVisual_QueryInterface_IVisual2 (v : VisualId)
  | CreateColorBrushWithColor (a r g b : Nat)
  | ColorBrush_QueryInterface_ICompositionBrush
  | put_Brush (v : VisualId) (b : Brush)
  | put_RelativeSizeAdjustment (v : VisualId) (x y : Int)
  | get_Children (v : VisualId)
  | InsertAtTop (parent child : VisualId)
  | InsertAtBottom (parent child : VisualId)
  | put_Root (hwnd : HWND) (v : VisualId)
  | Compositor_QueryInterface_ICompositor5
  | RequestCommitAsync
  | put_Completed
  | CallVoidMethod_onTick
  deriving DecidableEq, Repr

/-- The qualified name of the platform operation behind a call. -/
def CompositorCall.name : CompositorCall → String
  | .Compositor_QueryInterface_ICompositorDesktopInterop =>
      "ICompositor::QueryInterface<ICompositorDesktopInterop>"
  | .CreateDesktopWindowTarget _ => "ICompositorDesktopInterop::CreateDesktopWindowTarget"
  | .DesktopWindowTarget_QueryInterface_ICompositionTarget =>
      "IDesktopWindowTarget::QueryInterface<ICompositionTarget>"
  | .CreateSpriteVisual _ => "ICompositor::CreateSpriteVisual"
  | .SpriteVisual_QueryInterface_IVisual _ => "ISpriteVisual::QueryInterface<IVisual>"
  | .SpriteVisual_QueryInterface_IVisual2 _ => "ISpriteVisual::QueryInterface<IVisual2>"
  | .CreateContainerVisual _ => "ICompositor::CreateContainerVisual"
  | .ContainerVisual_QueryInterface_IVisual _ => "IContainerVisual::QueryInterface<IVisual>"
  | .ContainerVisual_QueryInterface_IVisual2 _ => "IContainerVisual::QueryInterface<IVisual2>"
  | .CreateColorBrushWithColor _ _ _ _ => "ICompositor::CreateColorBrushWithColor"
  | .ColorBrush_QueryInterface_ICompositionBrush =>
      "ICompositionColorBrush::QueryInterface<ICompositionBrush>"
  | .put_Brush _ _ => "ISpriteVisual::put_Brush"
  | .put_RelativeSizeAdjustment _ _ _ => "IVisual2::put_RelativeSizeAdjustment"
  | .get_Children _ => "IContainerVisual::get_Children"
  | .InsertAtTop _ _ => "IVisualCollection::InsertAtTop"
  | .InsertAtBottom _ _ => "IVisualCollection::InsertAtBottom"
  | .put_Root _ _ => "ICompositionTarget::put_Root"
  | .Compositor_QueryInterface_ICompositor5 => "ICompositor::QueryInterface<ICompositor5>"
  | .RequestCommitAsync => "ICompositor5::RequestCommitAsync"
  | .put_Completed => "IAsyncAction::put_Completed"
  | .CallVoidMethod_onTick => "JNIEnv::CallVoidMethod"

/-- The behaviour of the platform during one `Compositor` member-function call. -/
abbrev CompositorPlatform := CompositorCall → HRESULT

/-- The platform on which every call succeeds. -/
def CompositorPlatform.allOk : CompositorPlatform := fun _ => S_OK

/-- The platform on which exactly the call `c` fails, with `E_FAIL`. -/
def CompositorPlatform.failing (c : CompositorCall) : CompositorPlatform :=
  fun c' => if c' = c then E_FAIL else S_OK

/-- One entry of the log of a `Compositor` member function. -/
structure CompositorEvent where
  call : CompositorCall
  status : Option HRESULT
  checked : Bool
  deriving DecidableEq, Repr

/-- A call site wrapped in `RO_CHECKED` whose platform call returned a failure status. -/
def CompositorEvent.failedCheck (e : CompositorEvent) : Bool :=
  e.checked && (match e.status with
    | some hr => FAILED hr
    | none => false)

/-- The data members of `class Compositor` (Compositor.h) that the member functions read:
the shutdown flag and the shared backdrop brush.  (`compositor_` and
`dispatcherQueueController_` are handles that are never reassigned.) -/
structure Compositor where
  shutdownRequested_ : Bool
  backgroundBrush_ : Brush
  deriving DecidableEq, Repr

/-- The `CompositionLayer` object made by `Make<CompositionLayer>`: its data members, and
the identity of what its handles point to (the window of its target, its two visuals). -/
structure LayerObject where
  members : CompositionLayer
  window : HWND
  backgroundVisual : VisualId
  contentVisual : VisualId
  deriving DecidableEq, Repr

/-- The state of a sprite visual as a `CompositionLayer` sees it. -/
def Composition.spriteVisual (c : Composition) (v : VisualId) : SpriteVisual :=
  ⟨(c.visuals v).bind Visual.brush, none⟩

/-- `Make<CompositionLayer>(compositor_, desktopWindowTarget, target, backgroundBrush,
backgroundVisual, contentVisual)`: the constructor (CompositionLayer.cpp 49-65) stores its
fourth, fifth and sixth argument in `backgroundBrush_`, `backgroundVisual_`,
`contentVisual_`. -/
def Make_CompositionLayer (c : Composition) (desktopWindowTarget : HWND) (backgroundBrush : Brush)
    (backgroundVisual contentVisual : VisualId) : LayerObject :=
  { members := CompositionLayer.create backgroundBrush (c.spriteVisual backgroundVisual)
      (c.spriteVisual contentVisual)
    window := desktopWindowTarget
    backgroundVisual := backgroundVisual
    contentVisual := contentVisual }

/-- The composition and the log of platform calls of a running `Compositor` function. -/
structure CompositorRun where
  composition : Composition
  trace : List CompositorEvent

/-- A `Compositor` member-function body. -/
def MC (α : Type) : Type := CompositorRun → Except Abort α × CompositorRun

/-- Sequencing in `MC`: the second action runs only if the first one finished. -/
def MC.bind {α β : Type} (m : MC α) (f : α → MC β) : MC β := fun r =>
  match m r with
  | (Except.ok a, r') => f a r'
  | (Except.error e, r') => (Except.error e, r')

instance : Monad MC where
  pure a := fun r => (Except.ok a, r)
  bind := MC.bind

/-- What a `Compositor` member function leaves behind. -/
structure CompositorResult (α : Type) where
  outcome : Outcome
  value : Option α
  composition : Composition
  trace : List CompositorEvent

/-- How the function ended, from the exit value of its body. -/
def exitOutcomeOf {α : Type} : Except Abort α → Outcome
  | Except.ok _ => Outcome.returned
  | Except.error (Abort.threw ex) => Outcome.threw ex
  | Except.error Abort.nullDeref => Outcome.nullDeref

/-- The value the function returned, if it returned. -/
def exitValue {α : Type} : Except Abort α → Option α
  | Except.ok a => some a
  | Except.error _ => none

/-- Run a `Compositor` member function on a composition, with an empty log. -/
def MC.run {α : Type} (m : MC α) (c : Composition) : CompositorResult α :=
  ⟨exitOutcomeOf (m ⟨c, []⟩).1, exitValue (m ⟨c, []⟩).1, (m ⟨c, []⟩).2.composition,
    (m ⟨c, []⟩).2.trace⟩

namespace Compositor

/-- Read the composition. -/
def getComposition : MC Composition := fun r => (Except.ok r.composition, r)

/-- The effect of a platform call on the composition. -/
def modifyComposition (f : Composition → Composition) : MC Unit := fun r =>
  (Except.ok (), { r with composition := f r.composition })

/-- Make a platform call that returns an `HRESULT` and log it. -/
def invoke (os : CompositorPlatform) (c : CompositorCall) (checked : Bool) : MC HRESULT :=
  fun r => (Except.ok (os c), { r with trace := r.trace ++ [⟨c, some (os c), checked⟩] })

/-- Make a call that returns nothing and log it. -/
def invokeVoid (c : CompositorCall) : MC Unit := fun r =>
  (Except.ok (), { r with trace := r.trace ++ [⟨c, none, false⟩] })

/-- The C++ `throw`. -/
def throwRo {α : Type} (ex : RoException) : MC α := fun r =>
  (Except.error (Abort.threw ex), r)

/-- The `operator->` of a `ComPtr`: the pointee, or undefined behaviour on null. -/
def deref {α : Type} : Option α → MC α
  | some a => pure a
  | none => fun r => (Except.error Abort.nullDeref, r)

/-- Modelled from the spec: the macro `RO_CHECKED(NAME, FUNC)` of RoActivationSupport.h, as
for `CompositionLayer`: the call is made once and a failure status is thrown as an
`RoException` carrying the operation name `NAME`. -/
def RO_CHECKED (os : CompositorPlatform) (NAME : String) (FUNC : CompositorCall) : MC Unit := do
  let res ← invoke os FUNC true
  if FAILED res then throwRo ⟨NAME, res⟩ else pure ()

/-- The call `visual->put_Brush(b)`; the returned status is discarded. -/
def put_Brush (os : CompositorPlatform) (v : VisualId) (b : Brush) : MC Unit := do
  let res ← invoke os (CompositorCall.put_Brush v b) false
  modifyComposition fun c => c.updateVisual v fun x =>
    { x with brush := bif FAILED res then x.brush else some b }

/-- The call `visual2->put_RelativeSizeAdjustment(...)`; the status is discarded. -/
def put_RelativeSizeAdjustment (os : CompositorPlatform) (v : VisualId) (x y : Int) :
    MC Unit := do
  let res ← invoke os (CompositorCall.put_RelativeSizeAdjustment v x y) false
  modifyComposition fun c => c.updateVisual v fun vis =>
    { vis with
      relativeSizeAdjustment := bif FAILED res then vis.relativeSizeAdjustment else some (x, y) }

/-- The call `containerVisual->get_Children(children.GetAddressOf())`; the status is
discarded, and `children` stays null when the call fails. -/
def get_Children (os : CompositorPlatform) (v : VisualId) : MC (Option VisualId) := do
  let res ← invoke os (CompositorCall.get_Children v) false
  if FAILED res then pure none else pure (some v)

/-- The call `children->InsertAtTop(child)`; the status is discarded. -/
def InsertAtTop (os : CompositorPlatform) (parent child : VisualId) : MC Unit := do
  let res ← invoke os (CompositorCall.InsertAtTop parent child) false
  modifyComposition fun c => c.updateVisual parent fun x =>
    { x with children := bif FAILED res then x.children else child :: x.children }

/-- The call `children->InsertAtBottom(child)`; the status is discarded. -/
def InsertAtBottom (os : CompositorPlatform) (parent child : VisualId) : MC Unit := do
  let res ← invoke os (CompositorCall.InsertAtBottom parent child) false
  modifyComposition fun c => c.updateVisual parent fun x =>
    { x with children := bif FAILED res then x.children else x.children ++ [child] }

/-- The call `target->put_Root(visual)`; the status is discarded. -/
def put_Root (os : CompositorPlatform) (hwnd : HWND) (v : VisualId) : MC Unit := do
  let res ← invoke os (CompositorCall.put_Root hwnd v) false
  modifyComposition fun c =>
    { c with root := fun w => if w = hwnd then (bif FAILED res then c.root w else some v)
                              else c.root w }

/-- The call `handler->put_Completed(completedHandler)`; the status is discarded.  On
success the commit requested last carries the completion handler. -/
def put_Completed (os : CompositorPlatform) : MC Unit := do
  let res ← invoke os CompositorCall.put_Completed false
  modifyComposition fun c =>
    { c with pendingCommits := bif FAILED res then c.pendingCommits
                               else c.pendingCommits.dropLast ++ [true] }

/-- `Compositor::createCompositionLayer` (Compositor.cpp 179-256). -/
def createCompositionLayer (this : Compositor) (os : CompositorPlatform) (hwnd : HWND) :
    MC LayerObject := do
  RO_CHECKED os "ICompositor::QueryInterface<ICompositorDesktopInterop>"
    CompositorCall.Compositor_QueryInterface_ICompositorDesktopInterop
  RO_CHECKED os "ICompositorDesktopInterop::CreateDesktopWindowTarget"
    (CompositorCall.CreateDesktopWindowTarget hwnd)
  modifyComposition fun c => { c with hasTarget := fun w => if w = hwnd then true else c.hasTarget w }
  RO_CHECKED os "IDesktopWindowTarget::QueryInterface<ICompositionTarget>"
    CompositorCall.DesktopWindowTarget_QueryInterface_ICompositionTarget
  let contentVisual := (← getComposition).visualCount
  RO_CHECKED os "ICompositor::CreateSpriteVisual" (CompositorCall.CreateSpriteVisual contentVisual)
  modifyComposition fun c => c.addVisual false
  RO_CHECKED os "ISpriteVisual::QueryInterface<IVisual>"
    (CompositorCall.SpriteVisual_QueryInterface_IVisual contentVisual)
  RO_CHECKED os "ISpriteVisual::QueryInterface<IVisual2>"
    (CompositorCall.SpriteVisual_QueryInterface_IVisual2 contentVisual)
  let containerVisual := (← getComposition).visualCount
  RO_CHECKED os "ICompositor::CreateContainerVisual"
    (CompositorCall.CreateContainerVisual containerVisual)
  modifyComposition fun c => c.addVisual true
  RO_CHECKED os "IContainerVisual::QueryInterface<IVisual>"
    (CompositorCall.ContainerVisual_QueryInterface_IVisual containerVisual)
  RO_CHECKED os "IContainerVisual::QueryInterface<IVisual2>"
    (CompositorCall.ContainerVisual_QueryInterface_IVisual2 containerVisual)
  let backgroundVisual := (← getComposition).visualCount
  RO_CHECKED os "ICompositor::CreateSpriteVisual"
    (CompositorCall.CreateSpriteVisual backgroundVisual)
  modifyComposition fun c => c.addVisual false
  RO_CHECKED os "ISpriteVisual::QueryInterface<IVisual>"
    (CompositorCall.SpriteVisual_QueryInterface_IVisual backgroundVisual)
  RO_CHECKED os "ISpriteVisual::QueryInterface<IVisual2>"
    (CompositorCall.SpriteVisual_QueryInterface_IVisual2 backgroundVisual)
  RO_CHECKED os "ICompositor::CreateColorBrushWithColor"
    (CompositorCall.CreateColorBrushWithColor 255 255 255 255)
  let brush : Brush := Brush.color 255 255 255 255
  RO_CHECKED os "ICompositionColorBrush::QueryInterface<ICompositionBrush>"
    CompositorCall.ColorBrush_QueryInterface_ICompositionBrush
  put_Brush os backgroundVisual brush
  put_RelativeSizeAdjustment os backgroundVisual 1 1
  put_RelativeSizeAdjustment os containerVisual 1 1
  let children ← get_Children os containerVisual
  InsertAtTop os (← deref children) contentVisual
  InsertAtBottom os (← deref children) backgroundVisual
  put_Root os hwnd containerVisual
  pure (Make_CompositionLayer (← getComposition) hwnd this.backgroundBrush_ backgroundVisual
    contentVisual)

/-- `Compositor::tick` (Compositor.cpp 279-299), called by `Handler::Invoke` when a commit
has completed.  `this.shutdownRequested_` is the value the function reads on entry.  A
successful `RequestCommitAsync` leaves one more requested commit. -/
def tick (this : Compositor) (os : CompositorPlatform) : MC Unit := do
  if this.shutdownRequested_ then
    pure ()
  else
    RO_CHECKED os "ICompositor::QueryInterface<ICompositor5>"
      CompositorCall.Compositor_QueryInterface_ICompositor5
    RO_CHECKED os "ICompositor5::RequestCommitAsync" CompositorCall.RequestCommitAsync
    modifyComposition fun c => { c with pendingCommits := c.pendingCommits ++ [false] }
    put_Completed os
    invokeVoid CompositorCall.CallVoidMethod_onTick

/-- A message of the thread's queue. -/
abbrev MSG := Nat

/-- How the message loop of `run` stops. -/
inductive LoopExit
  /-- the loop test read the shutdown flag as set -/
  | returned
  /-- `GetMessage` waits for a message that never arrives -/
  | blocked
  /-- the loop was still going when the given number of iterations was used up -/
  | unfinished
  deriving DecidableEq, Repr

/-- The outcome of the message loop and the messages it dispatched, in order. -/
structure LoopResult where
  exit : LoopExit
  dispatched : List MSG
  deriving DecidableEq, Repr

/-- The loop of `Compositor::run` (Compositor.cpp 272-276), from its `i`-th test on.
`observe i` is the value of the volatile `shutdownRequested_` read by the `i`-th test (it
may have been set by any thread or by a dispatched message); `getMessage i` is the `i`-th
`GetMessage` call: `none` when no message ever arrives, else the returned `BOOL` and the
message.  The returned `BOOL` is not looked at, and every retrieved message is handed to
`DispatchMessage`. -/
def messageLoop (observe : Nat → Bool) (getMessage : Nat → Option (Int × MSG)) :
    Nat → Nat → List MSG → LoopResult
  | 0, _, acc => ⟨LoopExit.unfinished, acc⟩
  | fuel + 1, i, acc =>
    if observe i then ⟨LoopExit.returned, acc⟩
    else match getMessage i with
      | none => ⟨LoopExit.blocked, acc⟩
      | some (_, msg) => messageLoop observe getMessage fuel (i + 1) (acc ++ [msg])

/-- `Compositor::run` (Compositor.cpp 258-277): request the first commit, put the
completion handler on it, then loop over the messages of the thread.  What the platform
does while a message is dispatched (a completed commit runs `tick`) is the step relation
`CompositorStep`. -/
def run (os : CompositorPlatform) (observe : Nat → Bool)
    (getMessage : Nat → Option (Int × MSG)) (fuel : Nat) : MC LoopResult := do
  RO_CHECKED os "ICompositor::QueryInterface<ICompositor5>"
    CompositorCall.Compositor_QueryInterface_ICompositor5
  RO_CHECKED os "ICompositor5::RequestCommitAsync" CompositorCall.RequestCommitAsync
  modifyComposition fun c => { c with pendingCommits := c.pendingCommits ++ [false] }
  put_Completed os
  pure (messageLoop observe getMessage fuel 0 [])

end Compositor

/-- The completion of the `i`-th pending commit: it is no longer pending, and when a
completion handler was put on it, `Handler::Invoke` runs `tick`. -/
def Composition.complete (c : Composition) (this : Compositor) (os : CompositorPlatform)
    (i : Nat) : Composition :=
  if c.pendingCommits.getD i false then
    (MC.run (Compositor.tick this os) { c with pendingCommits := c.pendingCommits.eraseIdx i }).composition
  else
    { c with pendingCommits := c.pendingCommits.eraseIdx i }

/-- What can happen while `run` loops: another thread (or a callback) requests shutdown, or
one of the pending commits completes, on any behaviour of the platform. -/
inductive CompositorStep : Compositor × Composition → Compositor × Composition → Prop
  | shutdown (this : Compositor) (c : Composition) :
      CompositorStep (this, c) ({ this with shutdownRequested_ := true }, c)
  | completed (this : Compositor) (c : Composition) (os : CompositorPlatform) (i : Nat)
      (h : i < c.pendingCommits.length) :
      CompositorStep (this, c) (this, c.complete this os i)

/-- The states reached from a given one by any number of steps. -/
inductive CompositorReach (s0 : Compositor × Composition) : Compositor × Composition → Prop
  | start : CompositorReach s0 s0
  | step {s s' : Compositor × Composition} :
      CompositorReach s0 s → CompositorStep s s' → CompositorReach s0 s'

/-- The platform calls of a log, in order. -/
def compositorCalls (t : List CompositorEvent) : List CompositorCall := t.map CompositorEvent.call

/-- The result of the JNI entry point for `createCompositionLayer`: how the native method
ended, the returned `jlong` (`none` is 0, else the address of the layer object), the
pending Java exception, and the composition and log. -/
structure CreateLayerJniResult where
  outcome : Outcome
  handle : Option LayerObject
  pending : Option JavaThrowable
  composition : Composition
  trace : List CompositorEvent

/-- `Java_com_sun_glass_ui_win_WinCompositor__1createCompositionLayer` (Compositor.cpp
52-62): the call is in a `try` block; the handler raises a `RuntimeException` and the
function then returns 0. -/
def Java_com_sun_glass_ui_win_WinCompositor__1createCompositionLayer (os : CompositorPlatform)
    (compositor : Compositor) (c : Composition) (hwnd : HWND) : CreateLayerJniResult :=
  match MC.run (Compositor.createCompositionLayer compositor os hwnd) c with
  | ⟨Outcome.threw ex, _, composition, trace⟩ =>
      ⟨Outcome.returned, none, some ⟨"java/lang/RuntimeException", ex.message⟩, composition, trace⟩
  | ⟨outcome, value, composition, trace⟩ => ⟨outcome, value, none, composition, trace⟩

/-- A window handle for concrete runs. -/
def hwndA : HWND := 100

/-- A compositor that holds the shared backdrop brush and has not been asked to shut down. -/
def compositorA : Compositor := ⟨false, Brush.backdrop⟩


/-- A brush substitution on the background visual: a `put_Brush` call on it. -/
def Call.isBackgroundSubstitution : Call → Bool
  | .backgroundVisual_put_Brush _ => true
  | .CreateColorBrushWithColor _ _ _ _ => false
  | .ColorBrush_QueryInterface_ICompositionBrush => false
  | .GetImmediateContext _ => false
  | .Compositor_QueryInterface_ICompositorInterop => false
  | .Compositor_QueryInterface_ICompositorDesktopInterop => false
  | .CreateGraphicsDevice _ => false
  | .CreateDrawingSurface _ _ => false
  | .DrawingSurface_QueryInterface_ICompositionSurface => false
  | .DrawingSurface_QueryInterface_ICompositionDrawingSurfaceInterop => false
  | .CreateSurfaceBrushWithSurface => false
  | .SurfaceBrush_QueryInterface_ICompositionBrush => false
  | .contentVisual_put_Brush _ => false
  | .contentVisual_QueryInterface_IVisual => false
  | .put_Size _ _ => false
  | .Resize _ _ => false
  | .BeginDraw => false
  | .OpenSharedResource _ _ => false
  | .Resource_QueryInterface_ID3D11Texture2D => false
  | .CopySubresourceRegion => false
  | .EndDraw => false

/-- The construction of a brush: a colour brush or a surface brush. -/
def Call.isBrushConstruction : Call → Bool
  | .backgroundVisual_put_Brush _ => false
  | .CreateColorBrushWithColor _ _ _ _ => true
  | .ColorBrush_QueryInterface_ICompositionBrush => false
  | .GetImmediateContext _ => false
  | .Compositor_QueryInterface_ICompositorInterop => false
  | .Compositor_QueryInterface_ICompositorDesktopInterop => false
  | .CreateGraphicsDevice _ => false
  | .CreateDrawingSurface _ _ => false
  | .DrawingSurface_QueryInterface_ICompositionSurface => false
  | .DrawingSurface_QueryInterface_ICompositionDrawingSurfaceInterop => false
  | .CreateSurfaceBrushWithSurface => true
  | .SurfaceBrush_QueryInterface_ICompositionBrush => false
  | .contentVisual_put_Brush _ => false
  | .contentVisual_QueryInterface_IVisual => false
  | .put_Size _ _ => false
  | .Resize _ _ => false
  | .BeginDraw => false
  | .OpenSharedResource _ _ => false
  | .Resource_QueryInterface_ID3D11Texture2D => false
  | .CopySubresourceRegion => false
  | .EndDraw => false

/-- The number of brush substitutions on the background visual in a log. -/
def substitutions (t : List Event) : Nat :=
  ((calls t).filter Call.isBackgroundSubstitution).length

/-- The brush constructions of a log, in order. -/
def brushConstructions (t : List Event) : List Call :=
  (calls t).filter Call.isBrushConstruction

/-- Every platform call of the log that returned a status returned a success status. -/
def allSucceeded (t : List Event) : Bool :=
  t.all fun e => match e.status with
    | some hr => !FAILED hr
    | none => true

/-- Every platform call of a `Compositor` log that returned a status succeeded. -/
def compositorAllSucceeded (t : List CompositorEvent) : Bool :=
  t.all fun e => match e.status with
    | some hr => !FAILED hr
    | none => true


/-- The visuals on which a log calls `put_RelativeSizeAdjustment`, in order. -/
def sizeAdjusted (t : List CompositorEvent) : List VisualId :=
  (compositorCalls t).filterMap fun x =>
    match x with
    | .put_RelativeSizeAdjustment v _ _ => some v
    | _ => none

/-- The platform on which `get_Children` of the first container visual fails. -/
def osGetChildrenFails : CompositorPlatform :=
  CompositorPlatform.failing (CompositorCall.get_Children 1)

/-- The platform on which creating the first container visual fails. -/
def osContainerFails : CompositorPlatform :=
  CompositorPlatform.failing (CompositorCall.CreateContainerVisual 1)


/-- The platform on which requesting a commit fails. -/
def osCommitFails : CompositorPlatform :=
  CompositorPlatform.failing CompositorCall.RequestCommitAsync

/-- A message queue that delivers message `i` at the `i`-th `GetMessage` call, with the
result codes 1, 0 (a quit message) and -1 (an error) in turn. -/
def queueA : Nat → Option (Int × Compositor.MSG) := fun i =>
  some (if i % 3 = 0 then 1 else if i % 3 = 1 then 0 else -1, i)


/-! ## Histories of a compositor whose loop is running -/

/-- The platform calls made when the `i`-th pending commit completes: those of the `tick`
that `Handler::Invoke` runs when the completion handler is on the commit, none otherwise. -/
def Composition.completeLog (c : Composition) (this : Compositor) (os : CompositorPlatform)
    (i : Nat) : List CompositorEvent :=
  if c.pendingCommits.getD i false then
    (MC.run (Compositor.tick this os)
      { c with pendingCommits := c.pendingCommits.eraseIdx i }).trace
  else
    []

/-- The states reached from a given one by shutdown requests and commit completions, with
the log of all platform calls made by the `tick` calls on the way. -/
inductive CompositorHistory (s0 : Compositor × Composition) :
    Compositor × Composition → List CompositorEvent → Prop
  | start : CompositorHistory s0 s0 []
  | shutdown {this : Compositor} {c : Composition} {log : List CompositorEvent} :
      CompositorHistory s0 (this, c) log →
      CompositorHistory s0 ({ this with shutdownRequested_ := true }, c) log
  | completed {this : Compositor} {c : Composition} {log : List CompositorEvent}
      (os : CompositorPlatform) (i : Nat) (h : i < c.pendingCommits.length) :
      CompositorHistory s0 (this, c) log →
      CompositorHistory s0 (this, c.complete this os i) (log ++ c.completeLog this os i)

/-- The readings of the shutdown flag by the tests of the message loop when another thread
sets the flag after `j` tests have read it as clear: the flag is only ever set, never
cleared (Compositor.cpp 43), so every later test reads it as set. -/
def flagSetAfter (j : Nat) : Nat → Bool := fun k => decide (j ≤ k)

/-- The brush most recently put on the background visual by the calls of a log, if any. -/
def lastPut (t : List Event) : Option Brush :=
  t.foldl (fun acc e =>
    match e.call with
    | .backgroundVisual_put_Brush b => some b
    | _ => acc) none

/-- The brushes put on the visual `v` by the calls of a `Compositor` log, in order. -/
def brushesPut (v : VisualId) (t : List CompositorEvent) : List Brush :=
  (compositorCalls t).filterMap fun x =>
    match x with
    | .put_Brush w b => if w = v then some b else none
    | _ => none

/-- The platform on which creating the composition graphics device for device A fails. -/
def osGraphicsDeviceFails : Platform := Platform.failing (Call.CreateGraphicsDevice deviceA)

/-- The platform on which resizing the drawing surface to 800x600 fails. -/
def osResizeFails : Platform := Platform.failing (Call.Resize 800 600)

/-- The platform on which putting the white colour brush on the background visual fails. -/
def osWhiteBrushPutFails : Platform :=
  Platform.failing (Call.backgroundVisual_put_Brush (Brush.color 255 255 255 255))

/-! ## GraphicsEffect.cpp -/

/-- `E_INVALIDARG` (0x80070057) as a signed 32-bit value. -/
def E_INVALIDARG : HRESULT := -2147024809

/-- The objects behind an `IGraphicsEffectSource` pointer in this code: the effect source
parameter made by `ICompositionEffectSourceParameterFactory::Create` with its name, and the
two effect classes of GraphicsEffect.h, each with the source given to its constructor.  The
`source` members are non-null: both constructions (Compositor.cpp 152, 170) pass an object
that exists. -/
inductive IGraphicsEffectSource
  | parameter (name : String)
  | gaussianBlur (source : IGraphicsEffectSource)
  | saturation (source : IGraphicsEffectSource)
  deriving DecidableEq, Repr

/-- `PropertyValueImpl` (GraphicsEffect.cpp 28-209): made from a `FLOAT` (type Single) or
from a `UINT32`.  The `FLOAT` literals of the source are whole numbers (`30.0f`, `2.0f`) and
are kept as integers. -/
inductive PropertyValueImpl
  | single (flt : Int)
  | uint32 (value : Nat)
  deriving DecidableEq, Repr

/-- The constant `D2D1_GAUSSIANBLUR_OPTIMIZATION_BALANCED` (GraphicsEffect.cpp 10). -/
def D2D1_GAUSSIANBLUR_OPTIMIZATION_BALANCED : Nat := 1

/-- The constant `D2D1_BORDER_MODE_HARD` (GraphicsEffect.cpp 15). -/
def D2D1_BORDER_MODE_HARD : Nat := 1

/-- The constant `D2D1_GAUSSIANBLUR_PROP_STANDARD_DEVIATION` (GraphicsEffect.cpp 18). -/
def D2D1_GAUSSIANBLUR_PROP_STANDARD_DEVIATION : Nat := 0

/-- The constant `D2D1_GAUSSIANBLUR_PROP_OPTIMIZATION` (GraphicsEffect.cpp 19). -/
def D2D1_GAUSSIANBLUR_PROP_OPTIMIZATION : Nat := 1

/-- The constant `D2D1_GAUSSIANBLUR_PROP_BORDER_MODE` (GraphicsEffect.cpp 20). -/
def D2D1_GAUSSIANBLUR_PROP_BORDER_MODE : Nat := 2

/-- The constant `D2D1_SATURATION_PROP_SATURATION` (GraphicsEffect.cpp 23). -/
def D2D1_SATURATION_PROP_SATURATION : Nat := 0

/-- The data member of `class GaussianBlurEffect`. -/
structure GaussianBlurEffect where
  source : IGraphicsEffectSource
  deriving DecidableEq, Repr

/-- The data member of `class SaturationEffect`. -/
structure SaturationEffect where
  source : IGraphicsEffectSource
  deriving DecidableEq, Repr

/-- A `GaussianBlurEffect` seen through its `IGraphicsEffectSource` interface. -/
def GaussianBlurEffect.asSource (this : GaussianBlurEffect) : IGraphicsEffectSource :=
  IGraphicsEffectSource.gaussianBlur this.source

/-- A `SaturationEffect` seen through its `IGraphicsEffectSource` interface. -/
def SaturationEffect.asSource (this : SaturationEffect) : IGraphicsEffectSource :=
  IGraphicsEffectSource.saturation this.source

/-- `GaussianBlurEffect::GetPropertyCount` (lines 230-236).  `count` tells whether the output
pointer is non-null; the second component is what is stored through it. -/
def GaussianBlurEffect.GetPropertyCount (_this : GaussianBlurEffect) (count : Bool) :
    HRESULT × Option Nat :=
  (S_OK, if count then some 3 else none)

/-- `GaussianBlurEffect::GetProperty` (lines 238-264), for a non-null output pointer (the
code stores through it without a test); the `switch` is on the `UINT` index. -/
def GaussianBlurEffect.GetProperty (_this : GaussianBlurEffect) (index : Nat) :
    HRESULT × Option PropertyValueImpl :=
  if index = D2D1_GAUSSIANBLUR_PROP_STANDARD_DEVIATION then
    (S_OK, some (PropertyValueImpl.single 30))
  else if index = D2D1_GAUSSIANBLUR_PROP_OPTIMIZATION then
    (S_OK, some (PropertyValueImpl.uint32 D2D1_GAUSSIANBLUR_OPTIMIZATION_BALANCED))
  else if index = D2D1_GAUSSIANBLUR_PROP_BORDER_MODE then
    (S_OK, some (PropertyValueImpl.uint32 D2D1_BORDER_MODE_HARD))
  else
    (E_INVALIDARG, none)

/-- `GaussianBlurEffect::GetSource` (lines 266-277).  `source` tells whether the output
pointer is non-null. -/
def GaussianBlurEffect.GetSource (this : GaussianBlurEffect) (index : Nat) (source : Bool) :
    HRESULT × Option IGraphicsEffectSource :=
  if index ≥ 1 then (E_INVALIDARG, none)
  else (S_OK, if source then some this.source else none)

/-- `GaussianBlurEffect::GetSourceCount` (lines 279-285). -/
def GaussianBlurEffect.GetSourceCount (_this : GaussianBlurEffect) (count : Bool) :
    HRESULT × Option Nat :=
  (S_OK, if count then some 1 else none)

/-- `SaturationEffect::GetPropertyCount` (lines 310-316). -/
def SaturationEffect.GetPropertyCount (_this : SaturationEffect) (count : Bool) :
    HRESULT × Option Nat :=
  (S_OK, if count then some 1 else none)

/-- `SaturationEffect::GetProperty` (lines 318-330), for a non-null output pointer. -/
def SaturationEffect.GetProperty (_this : SaturationEffect) (index : Nat) :
    HRESULT × Option PropertyValueImpl :=
  if index = D2D1_SATURATION_PROP_SATURATION then
    (S_OK, some (PropertyValueImpl.single 2))
  else
    (E_INVALIDARG, none)

/-- `SaturationEffect::GetSource` (lines 332-343). -/
def SaturationEffect.GetSource (this : SaturationEffect) (index : Nat) (source : Bool) :
    HRESULT × Option IGraphicsEffectSource :=
  if index ≥ 1 then (E_INVALIDARG, none)
  else (S_OK, if source then some this.source else none)

/-- `SaturationEffect::GetSourceCount` (lines 345-351). -/
def SaturationEffect.GetSourceCount (_this : SaturationEffect) (count : Bool) :
    HRESULT × Option Nat :=
  (S_OK, if count then some 1 else none)

/-! ## Compositor.cpp: the constructor -/

/-- The platform calls of `Compositor::Compositor`, in the order of the source. -/
inductive ConstructorCall
  | CreateDispatcherQueueController
  | RoActivateInstance (activatableClassId : String)
  | RoGetActivationFactory (activatableClassId : String)
  | EffectSourceParameterFactory_Create (name : String)
  | Parameter_QueryInterface_IGraphicsEffectSource
  | CreateEffectFactory (graphicsEffect : IGraphicsEffectSource)
  | Compositor_QueryInterface_ICompositor2
  | CreateBackdropBrush
  | BackdropBrush_QueryInterface_ICompositionBrush
  | EffectFactory_CreateBrush (graphicsEffect : IGraphicsEffectSource)
  | SetSourceParameter (name : String)
  | EffectBrush_QueryInterface_ICompositionBrush
  deriving DecidableEq, Repr

/-- The behaviour of the platform during the constructor. -/
abbrev ConstructorPlatform := ConstructorCall → HRESULT

/-- The platform on which every call of the constructor succeeds. -/
def ConstructorPlatform.allOk : ConstructorPlatform := fun _ => S_OK

/-- The brush made by `ICompositor2::CreateBackdropBrush`. -/
inductive CompositionBackdropBrush
  | mk
  deriving DecidableEq, Repr

/-- An `ICompositionEffectBrush`: the effect whose factory made it and the brushes bound to
its named source parameters by `SetSourceParameter`. -/
structure CompositionEffectBrush where
  graphicsEffect : IGraphicsEffectSource
  sourceParameters : List (String × CompositionBackdropBrush)
  deriving DecidableEq, Repr

/-- What the constructor leaves: the data members of the new `Compositor` that the member
functions read (`backgroundBrush_` is the shared brush, which the layers know as
`Brush.backdrop`), the two effect objects, and the brush object behind `backgroundBrush_`. -/
structure ConstructedCompositor where
  object : Compositor
  blurEffect : GaussianBlurEffect
  saturationEffect : SaturationEffect
  backgroundBrush : CompositionEffectBrush
  deriving DecidableEq, Repr

/-- Modelled from the spec: the macro `RO_CHECKED(NAME, FUNC)` of RoActivationSupport.h in
the constructor: a failure status is thrown as an `RoException` carrying `NAME`. -/
def Compositor.createChecked (os : ConstructorPlatform) (NAME : String) (FUNC : ConstructorCall) :
    Except RoException Unit :=
  if FAILED (os FUNC) then Except.error ⟨NAME, os FUNC⟩ else Except.ok ()

/-- `Compositor::Compositor` (Compositor.cpp 129-177). -/
def Compositor.create (os : ConstructorPlatform) : Except RoException ConstructedCompositor := do
  Compositor.createChecked os "CreateDispatcherQueueController"
    ConstructorCall.CreateDispatcherQueueController
  Compositor.createChecked os "RoActivateInstance"
    (ConstructorCall.RoActivateInstance "Windows.UI.Composition.Compositor")
  Compositor.createChecked os "RoGetActivationFactory"
    (ConstructorCall.RoGetActivationFactory
      "Windows.UI.Composition.CompositionEffectSourceParameter")
  Compositor.createChecked os "ICompositionEffectSourceParameterFactory::Create"
    (ConstructorCall.EffectSourceParameterFactory_Create "backdrop")
  let parameter := IGraphicsEffectSource.parameter "backdrop"
  Compositor.createChecked os "ICompositionEffectSourceParameter<IGraphicsEffectSource>"
    ConstructorCall.Parameter_QueryInterface_IGraphicsEffectSource
  let effectSource := parameter
  let blurEffect : GaussianBlurEffect := ⟨effectSource⟩
  Compositor.createChecked os "ICompositor::CreateEffectFactory"
    (ConstructorCall.CreateEffectFactory blurEffect.asSource)
  Compositor.createChecked os "ICompositor::QueryInterface<ICompositor2>"
    ConstructorCall.Compositor_QueryInterface_ICompositor2
  Compositor.createChecked os "ICompositor2::CreateBackdropBrush"
    ConstructorCall.CreateBackdropBrush
  let backdropBrush := CompositionBackdropBrush.mk
  Compositor.createChecked os "ICompositionBackdropBrush::QueryInterface<ICompositionBrush>"
    ConstructorCall.BackdropBrush_QueryInterface_ICompositionBrush
  let saturationEffect : SaturationEffect := ⟨blurEffect.asSource⟩
  Compositor.createChecked os "ICompositor::CreateEffectFactory"
    (ConstructorCall.CreateEffectFactory saturationEffect.asSource)
  Compositor.createChecked os "ICompositionEffectFactory::CreateBrush"
    (ConstructorCall.EffectFactory_CreateBrush saturationEffect.asSource)
  let saturationBrush : CompositionEffectBrush := ⟨saturationEffect.asSource, []⟩
  Compositor.createChecked os "ICompositionEffectBrush::SetSourceParameter"
    (ConstructorCall.SetSourceParameter "backdrop")
  let saturationBrush : CompositionEffectBrush :=
    { saturationBrush with
      sourceParameters := ("backdrop", backdropBrush) :: saturationBrush.sourceParameters }
  Compositor.createChecked os "ICompositionEffectBrush::QueryInterface<ICompositionBrush>"
    ConstructorCall.EffectBrush_QueryInterface_ICompositionBrush
  pure ⟨⟨false, Brush.backdrop⟩, blurEffect, saturationEffect, saturationBrush⟩

end Glass

namespace Libxml

/-! ## xmlsave.c: the escaping routines -/

/-- A byte of a character array: a natural number below 256. -/
abbrev xmlChar := Nat

/-- The stores into the output array made by a routine, in the order they are made: the
position (an offset from the start of the array) and the byte stored. -/
abbrev Stores := List (Nat × Nat)

/-- The content of the output array after a sequence of stores: the byte stored last at the
position, or `none` where nothing was stored. -/
def memory : Stores → Nat → Option Nat
  | [], _ => none
  | (q, b) :: rest, p =>
    match memory rest p with
    | some v => some v
    | none => if q = p then some b else none

/-- The stores of a run of `*out++ = b` statements that starts at position `p`. -/
def storesFrom : Nat → List Nat → Stores
  | _, [] => []
  | p, b :: bs => (p, b) :: storesFrom (p + 1) bs

/-- The `switch (val & 0xF)` of `xmlSerializeHexCharRef` (lines 143-161): the character
stored for a value of the low four bits; 48 is '0', 65 is 'A'. -/
def hexDigit (d : Nat) : Nat :=
  match d with
  | 0 => 48
  | 1 => 49
  | 2 => 50
  | 3 => 51
  | 4 => 52
  | 5 => 53
  | 6 => 54
  | 7 => 55
  | 8 => 56
  | 9 => 57
  | 10 => 65
  | 11 => 66
  | 12 => 67
  | 13 => 68
  | 14 => 69
  | 15 => 70
  | _ => 48

/-- The loop `while (val > 0) { *ptr-- = digit(val & 0xF); val >>= 4; }` of
`xmlSerializeHexCharRef` (lines 142-163), on a positive `val`, with a bound on the number
of iterations.  It is run with the bound `val`, which it never reaches. -/
def hexDigitStores : Nat → Nat → Nat → Stores
  | 0, _, _ => []
  | fuel + 1, ptr, val =>
    if val > 0 then (ptr, hexDigit (val % 16)) :: hexDigitStores fuel (ptr - 1) (val / 16)
    else []

/-- `xmlSerializeHexCharRef` (lines 128-167): the stores it makes and the pointer it
returns, for `out` at the given position.  38 is '&', 35 is '#', 120 is 'x', 59 is ';'.
`val` is a C `int`; the loop does nothing when it is not positive. -/
def xmlSerializeHexCharRef (out : Nat) (val : Int) : Stores × Nat :=
  let out3 := out + 3
  let ptr :=
    if val < 0x10 then out3
    else if val < 0x100 then out3 + 1
    else if val < 0x1000 then out3 + 2
    else if val < 0x10000 then out3 + 3
    else if val < 0x100000 then out3 + 4
    else out3 + 5
  let out' := ptr + 1
  ([(out, 38), (out + 1, 35), (out + 2, 120)] ++ hexDigitStores val.toNat ptr val.toNat ++
    [(out', 59), (out' + 1, 0)], out' + 1)

/-- The functions of other files that `xmlEscapeEntities` calls on a byte of 0x80 or more:
`xmlGetUTF8Char` (the decoded value, negative on error, and the number of bytes used) and
the macro `IS_CHAR`.  Their code is not in this file; the routines below take them as
given. -/
structure Callees where
  xmlGetUTF8Char : List xmlChar → Int × Nat
  IS_CHAR : Int → Bool

/-- The variables of the loop of `xmlEscapeEntities`: the bytes from `in` to `inend`, the
number of bytes consumed (`in - base`), the output position (`out - outstart`) and the
stores made so far. -/
structure EscapeState where
  input : List xmlChar
  consumed : Nat
  out : Nat
  stores : Stores
  deriving DecidableEq, Repr

/-- A run of `*out++ = b` statements followed by `in++`. -/
def EscapeState.emit (s : EscapeState) (bytes : List Nat) (rest : List xmlChar) : EscapeState :=
  { input := rest
    consumed := s.consumed + 1
    out := s.out + bytes.length
    stores := s.stores ++ storesFrom s.out bytes }

/-- One pass through the body of the loop of `xmlEscapeEntities` (lines 196-262) with `*in`
equal to `b` and `rest` the bytes after it; `none` is a `break`.  60 is '<', 62 is '>',
38 is '&'. -/
def xmlEscapeEntities.body (ext : Callees) (outend : Nat) (s : EscapeState) (b : xmlChar)
    (rest : List xmlChar) : Option EscapeState :=
  if b = 60 then
    if outend - s.out < 4 then none
    else some (s.emit [38, 108, 116, 59] rest)
  else if b = 62 then
    if outend - s.out < 4 then none
    else some (s.emit [38, 103, 116, 59] rest)
  else if b = 38 then
    if outend - s.out < 5 then none
    else some (s.emit [38, 97, 109, 112, 59] rest)
  else if b = 0xD then
    if outend - s.out < 5 then none
    else some (s.emit [38, 35, 120, 68, 59] rest)
  else if (b ≥ 0x20 ∧ b < 0x80) ∨ b = 0xA ∨ b = 0x9 then
    some (s.emit [b] rest)
  else if b < 0x80 then
    if outend - s.out < 8 then none
    else
      some { input := rest
             consumed := s.consumed + 1
             out := (xmlSerializeHexCharRef s.out 0xFFFD).2
             stores := s.stores ++ (xmlSerializeHexCharRef s.out 0xFFFD).1 }
  else
    if outend - s.out < 11 then none
    else
      let got := ext.xmlGetUTF8Char (b :: rest)
      if got.1 < 0 then
        some { input := rest
               consumed := s.consumed + 1
               out := (xmlSerializeHexCharRef s.out 0xFFFD).2
               stores := s.stores ++ (xmlSerializeHexCharRef s.out 0xFFFD).1 }
      else
        let val := if ext.IS_CHAR got.1 then got.1 else 0xFFFD
        some { input := (b :: rest).drop got.2
               consumed := s.consumed + got.2
               out := (xmlSerializeHexCharRef s.out val).2
               stores := s.stores ++ (xmlSerializeHexCharRef s.out val).1 }

/-- The loop `while ((in < inend) && (out < outend))` of `xmlEscapeEntities`, with a bound
on the number of passes; `none` when the bound is used up with the loop still going. -/
def xmlEscapeEntities.loop (ext : Callees) (outend : Nat) : Nat → EscapeState → Option EscapeState
  | 0, s => if s.input ≠ [] ∧ s.out < outend then none else some s
  | fuel + 1, s =>
    match s.input with
    | [] => some s
    | b :: rest =>
      if s.out < outend then
        match xmlEscapeEntities.body ext outend s b rest with
        | none => some s
        | some s' => xmlEscapeEntities.loop ext outend fuel s'
      else some s

/-- What `xmlEscapeEntities` leaves: the returned value, the values stored in `*inlen` and
`*outlen`, and the stores made into the output array. -/
structure EscapeResult where
  ret : Int
  inlen : Nat
  outlen : Nat
  stores : Stores
  deriving DecidableEq, Repr

/-- `xmlEscapeEntities` (lines 184-267) on the `*inlen` bytes `input` and an output array of
`*outlen = outlen` bytes.  Every pass that does not leave the loop consumes at least one
byte (as long as `xmlGetUTF8Char` reports at least one with every value that is not
negative), so the loop is bounded by the number of input bytes; `none` can only arise when
`xmlGetUTF8Char` returns such a value and reports no byte used. -/
def xmlEscapeEntities (ext : Callees) (outlen : Nat) (input : List xmlChar) :
    Option EscapeResult :=
  (xmlEscapeEntities.loop ext outlen input.length ⟨input, 0, 0, []⟩).map fun s =>
    ⟨0, s.consumed, s.out, s.stores⟩

/-- The bytes of the output array at the positions below `*outlen` after the call. -/
def EscapeResult.produced (r : EscapeResult) : List (Option Nat) :=
  (List.range r.outlen).map (memory r.stores)

/-- Follows the claim's words: the escape of one byte below 0x80: "&lt;" for '<', "&gt;"
for '>', "&amp;" for '&', "&#xD;" for 0x0D, the byte itself for 0x09, 0x0A and 0x20 to
0x7F, and "&#xFFFD;" for every other control byte. -/
def escapeSpec (b : xmlChar) : List Nat :=
  if b = 60 then [38, 108, 116, 59]
  else if b = 62 then [38, 103, 116, 59]
  else if b = 38 then [38, 97, 109, 112, 59]
  else if b = 13 then [38, 35, 120, 68, 59]
  else if b = 9 ∨ b = 10 ∨ (32 ≤ b ∧ b ≤ 127) then [b]
  else [38, 35, 120, 70, 70, 70, 68, 59]

/-- The stores of a run of `*ptr-- = hexDigit d` statements that starts at position `p`,
for the given values of the low four bits. -/
def storesDown : Nat → List Nat → Stores
  | _, [] => []
  | p, d :: ds => (p, hexDigit d) :: storesDown (p - 1) ds

/-- Follows the claim's words: the uppercase hexadecimal digit for a value below 16. -/
def upperHexSpec (d : Nat) : Nat := if d < 10 then 48 + d else 55 + d

/-- The invariant of the loop of `xmlEscapeEntities` on bytes below 0x80: `pre` are the
bytes consumed, and the output array holds their escapes, up to the output position. -/
def EscapeInv (outend : Nat) (pre : List xmlChar) (s : EscapeState) : Prop :=
  s.consumed = pre.length ∧ s.out = (pre.flatMap escapeSpec).length ∧ s.out ≤ outend ∧
  (List.range s.out).map (memory s.stores) = (pre.flatMap escapeSpec).map some

/-- The functions of other files for concrete runs: every byte of 0x80 or more is reported
as an error by `xmlGetUTF8Char`. -/
def calleesA : Callees := ⟨fun _ => (-1, 1), fun _ => true⟩

/-- The functions of other files for concrete runs on bytes of 0x80 or more: a decoder of
two-byte sequences only (a byte 0xC0 to 0xDF followed by a byte 0x80 to 0xBF), which
reports an error, with no byte used, on everything else; every decoded value is a
character. -/
def calleesB : Callees :=
  ⟨fun l =>
      match l with
      | a :: b :: _ =>
        if 0xC0 ≤ a ∧ a < 0xE0 ∧ 0x80 ≤ b ∧ b < 0xC0 then
          (((a % 0x20) * 0x40 + b % 0x40 : Nat), 2)
        else (-1, 0)
      | _ => (-1, 0),
    fun _ => true⟩

end Libxml


namespace Libxml

/-! ## xmlsave.c: the save context and its indentation -/

/-- The constant `MAX_INDENT` (line 20). -/
def MAX_INDENT : Int := 60

/-- A call `xmlOutputBufferWrite(buf, len, str)`: the number of bytes to take and the
character array they are taken from. -/
structure WriteCall where
  len : Int
  str : List Nat
  deriving DecidableEq, Repr

/-- The function stored in the `escape` member. -/
inductive EscapeFunction
  | xmlEscapeEntities
  | other
  deriving DecidableEq, Repr

/-- The members of `struct _xmlSaveCtxt` (lines 34-50) that `xmlSaveCtxtInit` and
`xmlOutputBufferWriteWSNonSig` use.  `buf` is the output buffer, null or the calls of
`xmlOutputBufferWrite` made on it so far; `noEmpty` is the bit `XML_SAVE_NO_EMPTY` of
`options`; `indent` is the array of `MAX_INDENT + 1` bytes. -/
structure xmlSaveCtxt where
  encoding : Option (List Nat)
  buf : Option (List WriteCall)
  noEmpty : Bool
  level : Int
  indent : List Nat
  indent_nr : Int
  indent_size : Int
  escape : Option EscapeFunction
  deriving DecidableEq, Repr

/-- The global variables read by `xmlSaveCtxtInit`. -/
structure Globals where
  xmlTreeIndentString : Option (List Nat)
  xmlSaveNoEmptyTags : Bool
  deriving DecidableEq, Repr

/-- A context as `xmlNewSaveCtxt` has it when it calls `xmlSaveCtxtInit` without an
encoding: all bytes zero (`memset`, line 339). -/
def xmlSaveCtxt.zeroed : xmlSaveCtxt :=
  { encoding := none
    buf := none
    noEmpty := false
    level := 0
    indent := List.replicate 61 0
    indent_nr := 0
    indent_size := 0
    escape := none }

/-- The bytes of an array after its first bytes have been overwritten with `bytes`. -/
def overwrite (array bytes : List Nat) : List Nat :=
  bytes ++ array.drop bytes.length

/-- `xmlSaveCtxtInit` (lines 280-304) on a non-null context.  The length of the indent
string is the number of its bytes before the terminating zero, 0 for a null string. -/
def xmlSaveCtxtInit (g : Globals) (ctxt : xmlSaveCtxt) : xmlSaveCtxt :=
  let ctxt := if ctxt.encoding = none ∧ ctxt.escape = none
    then { ctxt with escape := some EscapeFunction.xmlEscapeEntities } else ctxt
  let len : Int := match g.xmlTreeIndentString with
    | none => 0
    | some str => str.length
  let ctxt :=
    if g.xmlTreeIndentString = none ∨ len = 0 then
      { ctxt with indent := overwrite ctxt.indent (List.replicate (MAX_INDENT + 1).toNat 0) }
    else
      let indent_size := len
      let indent_nr := MAX_INDENT / indent_size
      { ctxt with
        indent_size := indent_size
        indent_nr := indent_nr
        indent := overwrite ctxt.indent
          ((List.replicate indent_nr.toNat (g.xmlTreeIndentString.getD [])).flatten ++ [0]) }
  if g.xmlSaveNoEmptyTags then { ctxt with noEmpty := true } else ctxt

/-- The loop `for (i = 0; i < level + extra; i += indent_nr)` of
`xmlOutputBufferWriteWSNonSig` (lines 854-859), from the value `i` on, with a bound on the
number of passes; `none` when the bound is used up with the loop still going. -/
def xmlOutputBufferWriteWSNonSig.loop (ctxt : xmlSaveCtxt) (extra : Int) :
    Nat → Int → List WriteCall → Option (List WriteCall)
  | 0, i, buf => if i < ctxt.level + extra then none else some buf
  | fuel + 1, i, buf =>
    if i < ctxt.level + extra then
      xmlOutputBufferWriteWSNonSig.loop ctxt extra fuel (i + ctxt.indent_nr)
        (buf ++ [⟨ctxt.indent_size *
          (if ctxt.level + extra - i > ctxt.indent_nr then ctxt.indent_nr
           else ctxt.level + extra - i), ctxt.indent⟩])
    else some buf

/-- `xmlOutputBufferWriteWSNonSig` (lines 847-860) on a non-null context: the output buffer
after the call, or `none` when the loop is still going after `fuel` passes.  10 is the
newline. -/
def xmlOutputBufferWriteWSNonSig (ctxt : xmlSaveCtxt) (extra : Int) (fuel : Nat) :
    Option (Option (List WriteCall)) :=
  match ctxt.buf with
  | none => some none
  | some buf =>
    (xmlOutputBufferWriteWSNonSig.loop ctxt extra fuel 0 (buf ++ [⟨1, [10]⟩])).map some

/-- The number of bytes that the calls of a buffer were asked to write. -/
def written (buf : List WriteCall) : Int := (buf.map WriteCall.len).sum

/-- The global variables with an empty indent string. -/
def globalsEmptyIndent : Globals := ⟨some [], false⟩

/-- The global variables with the indent string of two spaces. -/
def globalsTwoSpaces : Globals := ⟨some [32, 32], false⟩

/-- A context made for an output buffer with the given globals, at nesting level 1. -/
def ctxtAt1 (g : Globals) : xmlSaveCtxt :=
  { xmlSaveCtxtInit g xmlSaveCtxt.zeroed with buf := some [], level := 1 }

end Libxml


namespace Glass

/-! ## Stepping through a member function -/

section exec
variable {α β : Type}

theorem M.pure_bind (a : α) (f : α → M β) : (pure a >>= f) = f a := by
  funext r; rfl

theorem M.bind_assoc {γ : Type} (m : M α) (f : α → M β) (g : β → M γ) :
    (m >>= f) >>= g = m >>= fun a => f a >>= g := by
  funext r
  show M.bind (M.bind m f) g r = M.bind m (fun a => M.bind (f a) g) r
  unfold M.bind
  rcases m r with ⟨x | a, r'⟩ <;> rfl

theorem M.ite_bind (c : Prop) [Decidable c] (a b : M α) (f : α → M β) :
    (if c then a else b) >>= f = if c then a >>= f else b >>= f := by
  split <;> rfl

theorem M.ite_apply (c : Prop) [Decidable c] (a b : M α) (r : Run) :
    (if c then a else b) r = if c then a r else b r := by
  split <;> rfl

theorem M.pure_apply (a : α) (r : Run) : (pure a : M α) r = (Except.ok a, r) := rfl

theorem getLayer_bind (f : CompositionLayer → M β) (r : Run) :
    (getLayer >>= f) r = f r.layer r := rfl

theorem modifyLayer_bind (g : CompositionLayer → CompositionLayer) (f : Unit → M β) (r : Run) :
    (modifyLayer g >>= f) r = f () { r with layer := g r.layer } := rfl

theorem modifyLayer_apply (g : CompositionLayer → CompositionLayer) (r : Run) :
    modifyLayer g r = (Except.ok (), { r with layer := g r.layer }) := rfl

theorem invokeVoid_bind (c : Call) (f : Unit → M β) (r : Run) :
    (invokeVoid c >>= f) r = f () { r with trace := r.trace ++ [⟨c, none, false⟩] } := rfl

theorem invoke_bind (os : Platform) (c : Call) (k : Bool) (f : HRESULT → M β) (r : Run) :
    (invoke os c k >>= f) r =
      f (os c) { r with trace := r.trace ++ [⟨c, some (os c), k⟩] } := rfl

theorem throwRo_apply (ex : RoException) (r : Run) :
    (throwRo ex : M α) r = (Except.error (Abort.threw ex), r) := rfl

theorem deref_some_bind (a : α) (f : α → M β) : (deref (some a) >>= f) = f a := by
  funext r; rfl

theorem deref_none_bind (f : α → M β) (r : Run) :
    (deref (none : Option α) >>= f) r = (Except.error Abort.nullDeref, r) := rfl

theorem RO_CHECKED_apply (os : Platform) (n : String) (c : Call) (r : Run) :
    RO_CHECKED os n c r =
      if FAILED (os c) = true then
        (Except.error (Abort.threw ⟨n, os c⟩),
          { r with trace := r.trace ++ [⟨c, some (os c), true⟩] })
      else (Except.ok (), { r with trace := r.trace ++ [⟨c, some (os c), true⟩] }) := by
  unfold RO_CHECKED
  rw [invoke_bind]
  split <;> rfl

theorem RO_CHECKED_bind (os : Platform) (n : String) (c : Call) (f : Unit → M β) (r : Run) :
    (RO_CHECKED os n c >>= f) r =
      if FAILED (os c) = true then
        (Except.error (Abort.threw ⟨n, os c⟩),
          { r with trace := r.trace ++ [⟨c, some (os c), true⟩] })
      else f () { r with trace := r.trace ++ [⟨c, some (os c), true⟩] } := by
  show M.bind (RO_CHECKED os n c) f r = _
  unfold M.bind
  rw [RO_CHECKED_apply]
  by_cases hc : FAILED (os c) = true <;> simp [hc]

end exec

/-- Case analysis on a conditional value through an equation, without rewriting the value. -/
theorem ite_imp {α : Type} {c : Prop} [Decidable c] {x y p : α} {G : Prop}
    (hx : c → x = p → G) (hy : ¬c → y = p → G) : (if c then x else y) = p → G := by
  intro h
  by_cases hc : c
  · rw [if_pos hc] at h; exact hx hc h
  · rw [if_neg hc] at h; exact hy hc h


open CompositionLayer

/-! ## One call of present -/

set_option maxHeartbeats 8000000 in
/-- After any `present` call the bound device is the one passed in; the call made rebuild
calls exactly when that device was not the bound one; and when none of its rebuild calls
failed a check, the rebuild calls are the complete rebuild for that device. -/
theorem present_rebuild_step (s : CompositionLayer) (os : Platform) (d : Device) (h : HANDLE)
    (w ht : Int) :
    (M.run (present os d h w ht) s).layer.device_ = some d ∧
    (rebuildCalls (M.run (present os d h w ht) s).trace ≠ [] ↔ s.device_ ≠ some d) ∧
    (rebuildCalls (M.run (present os d h w ht) s).trace ≠ [] →
      (∀ e ∈ (M.run (present os d h w ht) s).trace,
        e.call.isRebuildCall = true → e.failedCheck = false) →
      rebuildCalls (M.run (present os d h w ht) s).trace = fullRebuild d) := by
  unfold M.run
  generalize hp : present os d h w ht ⟨s, []⟩ = p
  by_cases hd : s.device_ = some d
  · rcases hI : s.drawingSurfaceInterop_ with _ | surf <;>
    rcases hC : s.deviceContext_ with _ | ctx <;>
    by_cases hs : s.width_ ≠ w ∨ s.height_ ≠ ht <;>
    simp only [present, ensureDevice, RO_CHECKED_bind, RO_CHECKED_apply, contentVisual_put_Brush,
      contentVisual_put_Size, unchecked, M.bind_assoc, M.pure_bind, M.ite_bind, M.ite_apply,
      M.pure_apply, getLayer_bind, modifyLayer_bind, modifyLayer_apply, invokeVoid_bind,
      invoke_bind, throwRo_apply, deref_some_bind, deref_none_bind, hI, hC, hd, hs, if_true, if_false] at hp <;>
    revert hp <;>
    (repeat' (apply ite_imp <;> intro _)) <;>
    intro hp <;>
    subst hp <;>
    simp [rebuildCalls, calls, Call.isRebuildCall, fullRebuild, Event.failedCheck, *]
  · by_cases hs : s.width_ ≠ w ∨ s.height_ ≠ ht <;>
    simp only [present, ensureDevice, RO_CHECKED_bind, RO_CHECKED_apply, contentVisual_put_Brush,
      contentVisual_put_Size, unchecked, M.bind_assoc, M.pure_bind, M.ite_bind, M.ite_apply,
      M.pure_apply, getLayer_bind, modifyLayer_bind, modifyLayer_apply, invokeVoid_bind,
      invoke_bind, throwRo_apply, deref_some_bind, deref_none_bind, hd, hs, if_true, if_false] at hp <;>
    revert hp <;>
    (repeat' (apply ite_imp <;> intro _)) <;>
    intro hp <;>
    subst hp <;>
    simp [rebuildCalls, calls, Call.isRebuildCall, fullRebuild, Event.failedCheck, *]

set_option maxHeartbeats 8000000 in
/-- A failed checked call ends `present`: it is the last call made, no check before it
failed, and the exception carries its name and status.  Conversely an exception leaves
`present` only after a failed check, and the setters of a visual are never checked. -/
theorem present_checked_failure (s : CompositionLayer) (os : Platform) (d : Device) (h : HANDLE)
    (w ht : Int) :
    (∀ e ∈ (M.run (present os d h w ht) s).trace, e.failedCheck = true →
      (M.run (present os d h w ht) s).trace.getLast? = some e ∧
      (∀ e' ∈ (M.run (present os d h w ht) s).trace.dropLast, e'.failedCheck = false) ∧
      ∃ hr, e.status = some hr ∧
        (M.run (present os d h w ht) s).outcome = Outcome.threw ⟨e.call.name, hr⟩) ∧
    (∀ ex, (M.run (present os d h w ht) s).outcome = Outcome.threw ex →
      ∃ e ∈ (M.run (present os d h w ht) s).trace, e.failedCheck = true) ∧
    (∀ e ∈ (M.run (present os d h w ht) s).trace, e.call.isSetter = true → e.checked = false) := by
  unfold M.run
  generalize hp : present os d h w ht ⟨s, []⟩ = p
  by_cases hd : s.device_ = some d
  · rcases hI : s.drawingSurfaceInterop_ with _ | surf <;>
    rcases hC : s.deviceContext_ with _ | ctx <;>
    by_cases hs : s.width_ ≠ w ∨ s.height_ ≠ ht <;>
    simp only [present, ensureDevice, RO_CHECKED_bind, RO_CHECKED_apply, contentVisual_put_Brush,
      contentVisual_put_Size, unchecked, M.bind_assoc, M.pure_bind, M.ite_bind, M.ite_apply,
      M.pure_apply, getLayer_bind, modifyLayer_bind, modifyLayer_apply, invokeVoid_bind,
      invoke_bind, throwRo_apply, deref_some_bind, deref_none_bind, hI, hC, hd, hs, if_true, if_false] at hp <;>
    revert hp <;>
    (repeat' (apply ite_imp <;> intro _)) <;>
    intro hp <;>
    subst hp <;>
    (simp [Event.failedCheck, exitOutcome, Call.name, Call.isSetter, *] <;> simp_all)
  · by_cases hs : s.width_ ≠ w ∨ s.height_ ≠ ht <;>
    simp only [present, ensureDevice, RO_CHECKED_bind, RO_CHECKED_apply, contentVisual_put_Brush,
      contentVisual_put_Size, unchecked, M.bind_assoc, M.pure_bind, M.ite_bind, M.ite_apply,
      M.pure_apply, getLayer_bind, modifyLayer_bind, modifyLayer_apply, invokeVoid_bind,
      invoke_bind, throwRo_apply, deref_some_bind, deref_none_bind, hd, hs, if_true, if_false] at hp <;>
    revert hp <;>
    (repeat' (apply ite_imp <;> intro _)) <;>
    intro hp <;>
    subst hp <;>
    (simp [Event.failedCheck, exitOutcome, Call.name, Call.isSetter, *] <;> simp_all)

set_option maxHeartbeats 8000000 in
/-- What a `present` call that returns normally has done: the cached size is the requested
one, the surface and context handles are there, the resizing calls were made exactly when
the requested size differed from the cached one, and the draw session ran in full. -/
theorem present_returned_step (s : CompositionLayer) (os : Platform) (d : Device) (h : HANDLE)
    (w ht : Int) (hret : (M.run (present os d h w ht) s).outcome = Outcome.returned) :
    (M.run (present os d h w ht) s).layer.width_ = w ∧
    (M.run (present os d h w ht) s).layer.height_ = ht ∧
    (M.run (present os d h w ht) s).layer.drawingSurfaceInterop_.isSome = true ∧
    (M.run (present os d h w ht) s).layer.deviceContext_.isSome = true ∧
    resizeCalls (M.run (present os d h w ht) s).trace =
      (if s.width_ ≠ w ∨ s.height_ ≠ ht then [Call.put_Size w ht, Call.Resize w ht] else []) ∧
    drawCalls (M.run (present os d h w ht) s).trace =
      [Call.BeginDraw, Call.OpenSharedResource d h, Call.CopySubresourceRegion, Call.EndDraw] := by
  revert hret
  unfold M.run
  generalize hp : present os d h w ht ⟨s, []⟩ = p
  by_cases hd : s.device_ = some d
  · rcases hI : s.drawingSurfaceInterop_ with _ | surf <;>
    rcases hC : s.deviceContext_ with _ | ctx <;>
    by_cases hs : s.width_ ≠ w ∨ s.height_ ≠ ht <;>
    simp only [present, ensureDevice, RO_CHECKED_bind, RO_CHECKED_apply, contentVisual_put_Brush,
      contentVisual_put_Size, unchecked, M.bind_assoc, M.pure_bind, M.ite_bind, M.ite_apply,
      M.pure_apply, getLayer_bind, modifyLayer_bind, modifyLayer_apply, invokeVoid_bind,
      invoke_bind, throwRo_apply, deref_some_bind, deref_none_bind, hI, hC, hd, hs, if_true, if_false] at hp <;>
    revert hp <;>
    (repeat' (apply ite_imp <;> intro _)) <;>
    intro hp <;>
    subst hp <;>
    (simp [resizeCalls, drawCalls, calls, Call.isResizeCall, Call.isDrawCall, exitOutcome, *] <;> simp_all)
  · by_cases hs : s.width_ ≠ w ∨ s.height_ ≠ ht <;>
    simp only [present, ensureDevice, RO_CHECKED_bind, RO_CHECKED_apply, contentVisual_put_Brush,
      contentVisual_put_Size, unchecked, M.bind_assoc, M.pure_bind, M.ite_bind, M.ite_apply,
      M.pure_apply, getLayer_bind, modifyLayer_bind, modifyLayer_apply, invokeVoid_bind,
      invoke_bind, throwRo_apply, deref_some_bind, deref_none_bind, hd, hs, if_true, if_false] at hp <;>
    revert hp <;>
    (repeat' (apply ite_imp <;> intro _)) <;>
    intro hp <;>
    subst hp <;>
    (simp [resizeCalls, drawCalls, calls, Call.isResizeCall, Call.isDrawCall, exitOutcome, *] <;> simp_all)

set_option maxHeartbeats 8000000 in
/-- When `present` reaches `OpenSharedResource` and the platform fails it, the exception
names that call, and by then the cached size and the bound device are the arguments. -/
theorem present_open_failure (s : CompositionLayer) (os : Platform) (d : Device) (h : HANDLE)
    (w ht : Int) (hf : FAILED (os (Call.OpenSharedResource d h)) = true)
    (hmem : Call.OpenSharedResource d h ∈ calls (M.run (present os d h w ht) s).trace) :
    (M.run (present os d h w ht) s).outcome =
      Outcome.threw ⟨"ID3D11Device::OpenSharedResource", os (Call.OpenSharedResource d h)⟩ ∧
    (M.run (present os d h w ht) s).layer.width_ = w ∧
    (M.run (present os d h w ht) s).layer.height_ = ht ∧
    (M.run (present os d h w ht) s).layer.device_ = some d := by
  revert hmem
  unfold M.run
  generalize hp : present os d h w ht ⟨s, []⟩ = p
  by_cases hd : s.device_ = some d
  · rcases hI : s.drawingSurfaceInterop_ with _ | surf <;>
    rcases hC : s.deviceContext_ with _ | ctx <;>
    by_cases hs : s.width_ ≠ w ∨ s.height_ ≠ ht <;>
    simp only [present, ensureDevice, RO_CHECKED_bind, RO_CHECKED_apply, contentVisual_put_Brush,
      contentVisual_put_Size, unchecked, M.bind_assoc, M.pure_bind, M.ite_bind, M.ite_apply,
      M.pure_apply, getLayer_bind, modifyLayer_bind, modifyLayer_apply, invokeVoid_bind,
      invoke_bind, throwRo_apply, deref_some_bind, deref_none_bind, hI, hC, hd, hs, if_true, if_false] at hp <;>
    revert hp <;>
    (repeat' (apply ite_imp <;> intro _)) <;>
    intro hp <;>
    subst hp <;>
    simp_all [calls, exitOutcome]
  · by_cases hs : s.width_ ≠ w ∨ s.height_ ≠ ht <;>
    simp only [present, ensureDevice, RO_CHECKED_bind, RO_CHECKED_apply, contentVisual_put_Brush,
      contentVisual_put_Size, unchecked, M.bind_assoc, M.pure_bind, M.ite_bind, M.ite_apply,
      M.pure_apply, getLayer_bind, modifyLayer_bind, modifyLayer_apply, invokeVoid_bind,
      invoke_bind, throwRo_apply, deref_some_bind, deref_none_bind, hd, hs, if_true, if_false] at hp <;>
    revert hp <;>
    (repeat' (apply ite_imp <;> intro _)) <;>
    intro hp <;>
    subst hp <;>
    simp_all [calls, exitOutcome]

set_option maxHeartbeats 8000000 in
/-- A `present` call at the cached size makes no resizing call, whatever else happens. -/
theorem present_same_size (s : CompositionLayer) (os : Platform) (d : Device) (h : HANDLE)
    (w ht : Int) (hw : s.width_ = w) (hh : s.height_ = ht) :
    resizeCalls (M.run (present os d h w ht) s).trace = [] := by
  have hs' : ¬ (s.width_ ≠ w ∨ s.height_ ≠ ht) := by simp [hw, hh]
  unfold M.run
  generalize hp : present os d h w ht ⟨s, []⟩ = p
  by_cases hd : s.device_ = some d
  · rcases hI : s.drawingSurfaceInterop_ with _ | surf <;>
    rcases hC : s.deviceContext_ with _ | ctx <;>
    by_cases hs : s.width_ ≠ w ∨ s.height_ ≠ ht <;>
    simp only [present, ensureDevice, RO_CHECKED_bind, RO_CHECKED_apply, contentVisual_put_Brush,
      contentVisual_put_Size, unchecked, M.bind_assoc, M.pure_bind, M.ite_bind, M.ite_apply,
      M.pure_apply, getLayer_bind, modifyLayer_bind, modifyLayer_apply, invokeVoid_bind,
      invoke_bind, throwRo_apply, deref_some_bind, deref_none_bind, hI, hC, hd, hs, if_true, if_false] at hp <;>
    revert hp <;>
    (repeat' (apply ite_imp <;> intro _)) <;>
    intro hp <;>
    subst hp <;>
    first | exact absurd hs hs' | simp [resizeCalls, calls, Call.isResizeCall, *]
  · by_cases hs : s.width_ ≠ w ∨ s.height_ ≠ ht <;>
    simp only [present, ensureDevice, RO_CHECKED_bind, RO_CHECKED_apply, contentVisual_put_Brush,
      contentVisual_put_Size, unchecked, M.bind_assoc, M.pure_bind, M.ite_bind, M.ite_apply,
      M.pure_apply, getLayer_bind, modifyLayer_bind, modifyLayer_apply, invokeVoid_bind,
      invoke_bind, throwRo_apply, deref_some_bind, deref_none_bind, hd, hs, if_true, if_false] at hp <;>
    revert hp <;>
    (repeat' (apply ite_imp <;> intro _)) <;>
    intro hp <;>
    subst hp <;>
    first | exact absurd hs hs' | simp [resizeCalls, calls, Call.isResizeCall, *]

set_option maxHeartbeats 8000000 in
/-- On a platform where no call fails, `present` returns normally on every layer whose
surface and context handles are there whenever the passed device is already bound. -/
theorem present_returns (s : CompositionLayer) (os : Platform) (d : Device) (h : HANDLE)
    (w ht : Int) (hok : ∀ c, FAILED (os c) = false)
    (hwf : s.device_ = some d →
      s.drawingSurfaceInterop_.isSome = true ∧ s.deviceContext_.isSome = true) :
    (M.run (present os d h w ht) s).outcome = Outcome.returned := by
  unfold M.run
  generalize hp : present os d h w ht ⟨s, []⟩ = p
  by_cases hd : s.device_ = some d
  · rcases hI : s.drawingSurfaceInterop_ with _ | surf <;>
    rcases hC : s.deviceContext_ with _ | ctx <;>
    by_cases hs : s.width_ ≠ w ∨ s.height_ ≠ ht <;>
    simp only [present, ensureDevice, RO_CHECKED_bind, RO_CHECKED_apply, contentVisual_put_Brush,
      contentVisual_put_Size, unchecked, M.bind_assoc, M.pure_bind, M.ite_bind, M.ite_apply,
      M.pure_apply, getLayer_bind, modifyLayer_bind, modifyLayer_apply, invokeVoid_bind,
      invoke_bind, throwRo_apply, deref_some_bind, deref_none_bind, hI, hC, hd, hs, if_true, if_false] at hp <;>
    revert hp <;>
    (repeat' (apply ite_imp <;> intro _)) <;>
    intro hp <;>
    subst hp <;>
    simp_all [exitOutcome]
  · by_cases hs : s.width_ ≠ w ∨ s.height_ ≠ ht <;>
    simp only [present, ensureDevice, RO_CHECKED_bind, RO_CHECKED_apply, contentVisual_put_Brush,
      contentVisual_put_Size, unchecked, M.bind_assoc, M.pure_bind, M.ite_bind, M.ite_apply,
      M.pure_apply, getLayer_bind, modifyLayer_bind, modifyLayer_apply, invokeVoid_bind,
      invoke_bind, throwRo_apply, deref_some_bind, deref_none_bind, hd, hs, if_true, if_false] at hp <;>
    revert hp <;>
    (repeat' (apply ite_imp <;> intro _)) <;>
    intro hp <;>
    subst hp <;>
    simp_all [exitOutcome]

/-! ## One call of setBlurBehind -/

set_option maxHeartbeats 2000000 in
/-- The checks of `setBlurBehind`: a failed checked call is the last call made, its name
and status are in the exception and the object is as before the call; when no check
fails the call returns with the flag set to the argument; `put_Brush` is not checked. -/
theorem setBlurBehind_checks (s : CompositionLayer) (os : Platform) (enabled : Bool) :
    (∀ e ∈ (M.run (setBlurBehind os enabled) s).trace, e.failedCheck = true →
      (M.run (setBlurBehind os enabled) s).trace.getLast? = some e ∧
      (∀ e' ∈ (M.run (setBlurBehind os enabled) s).trace.dropLast, e'.failedCheck = false) ∧
      (∃ hr, e.status = some hr ∧
        (M.run (setBlurBehind os enabled) s).outcome = Outcome.threw ⟨e.call.name, hr⟩) ∧
      (M.run (setBlurBehind os enabled) s).layer = s) ∧
    ((∀ e ∈ (M.run (setBlurBehind os enabled) s).trace, e.failedCheck = false) →
      (M.run (setBlurBehind os enabled) s).outcome = Outcome.returned ∧
      (M.run (setBlurBehind os enabled) s).layer.blurBehind_ = enabled) ∧
    (∀ e ∈ (M.run (setBlurBehind os enabled) s).trace,
      e.call.isSetter = true → e.checked = false) := by
  unfold M.run
  generalize hp : setBlurBehind os enabled ⟨s, []⟩ = p
  cases enabled <;>
  rcases hb : s.blurBehind_ <;>
  simp only [setBlurBehind, backgroundVisual_put_Brush, RO_CHECKED_bind, RO_CHECKED_apply,
    unchecked, M.bind_assoc, M.pure_bind, M.ite_bind, M.ite_apply, M.pure_apply, getLayer_bind,
    modifyLayer_bind, modifyLayer_apply, invoke_bind, throwRo_apply, hb, Bool.and_self,
    Bool.not_true, Bool.not_false, Bool.and_true, Bool.and_false, Bool.true_and, Bool.false_and,
    Bool.false_eq_true, if_true, if_false] at hp <;>
  revert hp <;>
  (repeat' (apply ite_imp <;> intro _)) <;>
  intro hp <;>
  subst hp <;>
  (simp [Event.failedCheck, exitOutcome, Call.name, Call.isSetter, *] <;> simp_all)

/-! ## Sequences of present calls -/

/-- C1 (fails on the code): `present` on device A at 800x600 and then on device B at the
same size, both calls returning normally.  After the second call the current drawing
surface, created 0x0 for B, is still 0x0 although the cached size is 800x600: the size
test compares against the cached size, so `Resize` is skipped for the new surface. -/
theorem present_device_switch_leaves_surface_0x0 :
    (presentAll CompositionLayer.fresh [argA, argB]).map
        (fun r => (r.outcome, r.layer.surfaceSize, r.layer.width_, r.layer.height_,
          resizeCalls r.trace)) =
      [ (Outcome.returned, some (800, 600), 800, 600,
          [Call.put_Size 800 600, Call.Resize 800 600]),
        (Outcome.returned, some (0, 0), 800, 600, []) ] := by
  decide

/-- C3 (fails on the code as stated): on a fresh layer, a `present` call in which
`OpenSharedResource` fails raises the error naming that call, but the cached width, the
cached height and the bound device are no longer what they were before the call. -/
theorem present_open_failure_changes_state :
    (M.run (present osOpenFails deviceA texA 800 600) CompositionLayer.fresh).outcome =
      Outcome.threw ⟨"ID3D11Device::OpenSharedResource", E_FAIL⟩ ∧
    (M.run (present osOpenFails deviceA texA 800 600) CompositionLayer.fresh).layer.width_ ≠
      CompositionLayer.fresh.width_ ∧
    (M.run (present osOpenFails deviceA texA 800 600) CompositionLayer.fresh).layer.height_ ≠
      CompositionLayer.fresh.height_ ∧
    (M.run (present osOpenFails deviceA texA 800 600) CompositionLayer.fresh).layer.device_ ≠
      CompositionLayer.fresh.device_ := by
  decide

/-- C3 (amended): a `present(device, handle, w, h)` call that reaches `OpenSharedResource`
and has it fail raises the error naming "ID3D11Device::OpenSharedResource", and after the
call the cached width and height are `w` and `h` and the bound device is `device`. -/
theorem present_open_failure_state (s : CompositionLayer) (os : Platform) (d : Device)
    (h : HANDLE) (w ht : Int) (hf : FAILED (os (Call.OpenSharedResource d h)) = true)
    (hmem : Call.OpenSharedResource d h ∈ calls (M.run (present os d h w ht) s).trace) :
    (M.run (present os d h w ht) s).outcome =
      Outcome.threw ⟨"ID3D11Device::OpenSharedResource", os (Call.OpenSharedResource d h)⟩ ∧
    (M.run (present os d h w ht) s).layer.width_ = w ∧
    (M.run (present os d h w ht) s).layer.height_ = ht ∧
    (M.run (present os d h w ht) s).layer.device_ = some d :=
  present_open_failure s os d h w ht hf hmem

/-- C3 (amended), witness: the failing open on a fresh layer. -/
theorem present_open_failure_state_witness :
    FAILED (osOpenFails (Call.OpenSharedResource deviceA texA)) = true ∧
    Call.OpenSharedResource deviceA texA ∈
      calls (M.run (present osOpenFails deviceA texA 800 600) CompositionLayer.fresh).trace ∧
    ((M.run (present osOpenFails deviceA texA 800 600) CompositionLayer.fresh).outcome =
        Outcome.threw ⟨"ID3D11Device::OpenSharedResource",
          osOpenFails (Call.OpenSharedResource deviceA texA)⟩ ∧
      (M.run (present osOpenFails deviceA texA 800 600) CompositionLayer.fresh).layer.width_ = 800 ∧
      (M.run (present osOpenFails deviceA texA 800 600) CompositionLayer.fresh).layer.height_ = 600 ∧
      (M.run (present osOpenFails deviceA texA 800 600) CompositionLayer.fresh).layer.device_ =
        some deviceA) :=
  ⟨by decide, by decide,
    present_open_failure_state CompositionLayer.fresh osOpenFails deviceA texA 800 600
      (by decide) (by decide)⟩

/-- C4 (fails on the code): on a fresh layer, when `BeginDraw` succeeds and
`OpenSharedResource` then fails, `present` raises with one `BeginDraw` made and no
`EndDraw`: the draw session is left open. -/
theorem present_open_failure_leaves_session_open :
    (M.run (present osOpenFails deviceA texA 800 600) CompositionLayer.fresh).outcome =
      Outcome.threw ⟨"ID3D11Device::OpenSharedResource", E_FAIL⟩ ∧
    ⟨Call.BeginDraw, some S_OK, true⟩ ∈
      (M.run (present osOpenFails deviceA texA 800 600) CompositionLayer.fresh).trace ∧
    (calls (M.run (present osOpenFails deviceA texA 800 600) CompositionLayer.fresh).trace).count
      Call.BeginDraw = 1 ∧
    (calls (M.run (present osOpenFails deviceA texA 800 600) CompositionLayer.fresh).trace).count
      Call.EndDraw = 0 := by
  decide

/-- C5 (fails on the code): when `CreateGraphicsDevice` fails in the rebuild, the bound
device and the context are already those of the new device while the drawing-surface
handle is absent (fresh layer) or still the surface of the previous device (layer that
presented on device A before); a following `present` on the same device then skips the
rebuild and dereferences the null handle. -/
theorem ensureDevice_failure_leaves_mixed_state :
    (M.run (present (Platform.failing (Call.CreateGraphicsDevice deviceA)) deviceA texA 800 600)
        CompositionLayer.fresh) =
      ⟨Outcome.threw ⟨"ICompositorInterop::CreateGraphicsDevice", E_FAIL⟩,
        { CompositionLayer.fresh with device_ := some deviceA, deviceContext_ := some deviceA },
        [ ⟨Call.GetImmediateContext deviceA, none, false⟩,
          ⟨Call.Compositor_QueryInterface_ICompositorInterop, some S_OK, true⟩,
          ⟨Call.Compositor_QueryInterface_ICompositorDesktopInterop, some S_OK, true⟩,
          ⟨Call.CreateGraphicsDevice deviceA, some E_FAIL, true⟩ ]⟩ ∧
    (M.run (present (Platform.failing (Call.CreateGraphicsDevice deviceA)) deviceA texA 800 600)
        CompositionLayer.fresh).layer.deviceConsistent = false ∧
    ((M.run (present (Platform.failing (Call.CreateGraphicsDevice deviceB)) deviceB texA 800 600)
        (CompositionLayer.fresh.presentCall argA).layer).layer.device_ = some deviceB ∧
      (M.run (present (Platform.failing (Call.CreateGraphicsDevice deviceB)) deviceB texA 800 600)
        (CompositionLayer.fresh.presentCall argA).layer).layer.drawingSurfaceInterop_ =
          some ⟨deviceA, 800, 600⟩) ∧
    (M.run (present Platform.allOk deviceA texA 800 600)
      (M.run (present (Platform.failing (Call.CreateGraphicsDevice deviceA)) deviceA texA 800 600)
        CompositionLayer.fresh).layer).outcome = Outcome.nullDeref := by
  decide

/-- C6: a `present(device, handle, w, h)` call that returns normally has made the two
resizing calls (content-visual `put_Size`, drawing-surface `Resize`, both with `w`, `h`)
exactly when `(w, h)` differs from the cached size, and none otherwise; afterwards the
cached size is `(w, h)`, so that any further call at that size makes no resizing call.  A
newly constructed layer has cached size `(0, 0)`. -/
theorem present_resizes_iff_size_differs (s : CompositionLayer) (os : Platform) (d : Device)
    (h : HANDLE) (w ht : Int)
    (hret : (M.run (present os d h w ht) s).outcome = Outcome.returned) :
    (resizeCalls (M.run (present os d h w ht) s).trace =
      if s.width_ ≠ w ∨ s.height_ ≠ ht then [Call.put_Size w ht, Call.Resize w ht] else []) ∧
    (M.run (present os d h w ht) s).layer.width_ = w ∧
    (M.run (present os d h w ht) s).layer.height_ = ht ∧
    (∀ (os2 : Platform) (d2 : Device) (h2 : HANDLE),
      resizeCalls (M.run (present os2 d2 h2 w ht) (M.run (present os d h w ht) s).layer).trace =
        []) ∧
    (∀ (bb : Brush) (bv cv : SpriteVisual),
      (CompositionLayer.create bb bv cv).width_ = 0 ∧
        (CompositionLayer.create bb bv cv).height_ = 0) := by
  have st := present_returned_step s os d h w ht hret
  refine ⟨st.2.2.2.2.1, st.1, st.2.1, ?_, fun _ _ _ => ⟨rfl, rfl⟩⟩
  intro os2 d2 h2
  exact present_same_size _ os2 d2 h2 w ht st.1 st.2.1

/-- C6, witness: the first `present` on a fresh layer, 800x600. -/
theorem present_resizes_iff_size_differs_witness :
    (M.run (present Platform.allOk deviceA texA 800 600) CompositionLayer.fresh).outcome =
      Outcome.returned ∧
    resizeCalls (M.run (present Platform.allOk deviceA texA 800 600)
      CompositionLayer.fresh).trace = [Call.put_Size 800 600, Call.Resize 800 600] :=
  ⟨by decide,
    (present_resizes_iff_size_differs CompositionLayer.fresh Platform.allOk deviceA texA 800 600
      (by decide)).1.trans (by decide)⟩

/-- The draw session of a `present` call that returns normally (used for C7): such a call
has made exactly the draw-session calls
`BeginDraw`, `OpenSharedResource` on the device and handle passed to it,
`CopySubresourceRegion`, `EndDraw`, in that order.  A second call with the same device and
size, on a platform where no call fails, returns normally, makes no rebuild call and no
resizing call, and makes the same four calls again.  On such a platform the first call on
a newly constructed layer returns normally as well. -/
theorem present_draw_sequence (s : CompositionLayer) (os os2 : Platform) (d : Device)
    (h : HANDLE) (w ht : Int)
    (hret : (M.run (present os d h w ht) s).outcome = Outcome.returned)
    (hok : ∀ c, FAILED (os2 c) = false) :
    drawCalls (M.run (present os d h w ht) s).trace =
      [Call.BeginDraw, Call.OpenSharedResource d h, Call.CopySubresourceRegion, Call.EndDraw] ∧
    (M.run (present os2 d h w ht) (M.run (present os d h w ht) s).layer).outcome =
      Outcome.returned ∧
    rebuildCalls (M.run (present os2 d h w ht) (M.run (present os d h w ht) s).layer).trace =
      [] ∧
    resizeCalls (M.run (present os2 d h w ht) (M.run (present os d h w ht) s).layer).trace =
      [] ∧
    drawCalls (M.run (present os2 d h w ht) (M.run (present os d h w ht) s).layer).trace =
      [Call.BeginDraw, Call.OpenSharedResource d h, Call.CopySubresourceRegion, Call.EndDraw] ∧
    (∀ (bb : Brush) (bv cv : SpriteVisual),
      (M.run (present os2 d h w ht) (CompositionLayer.create bb bv cv)).outcome =
        Outcome.returned) := by
  have st := present_returned_step s os d h w ht hret
  have dev := (present_rebuild_step s os d h w ht).1
  have hret2 : (M.run (present os2 d h w ht) (M.run (present os d h w ht) s).layer).outcome =
      Outcome.returned :=
    present_returns _ os2 d h w ht hok (fun _ => ⟨st.2.2.1, st.2.2.2.1⟩)
  have st2 := present_returned_step _ os2 d h w ht hret2
  refine ⟨st.2.2.2.2.2, hret2, ?_, present_same_size _ os2 d h w ht st.1 st.2.1,
    st2.2.2.2.2.2, ?_⟩
  · have hiff := (present_rebuild_step (M.run (present os d h w ht) s).layer os2 d h w ht).2.1
    by_contra hne
    exact (hiff.mp hne) dev
  · intro bb bv cv
    exact present_returns _ os2 d h w ht hok (fun hd => by simp [CompositionLayer.create] at hd)

/-- The lemma `present_draw_sequence` at `present(deviceA, texA, 800, 600)` twice on a fresh
layer. -/
theorem present_draw_sequence_witness :
    (M.run (present Platform.allOk deviceA texA 800 600) CompositionLayer.fresh).outcome =
      Outcome.returned ∧
    (∀ c, FAILED (Platform.allOk c) = false) ∧
    drawCalls (M.run (present Platform.allOk deviceA texA 800 600)
        (M.run (present Platform.allOk deviceA texA 800 600) CompositionLayer.fresh).layer).trace =
      [Call.BeginDraw, Call.OpenSharedResource deviceA texA, Call.CopySubresourceRegion,
        Call.EndDraw] :=
  ⟨by decide, fun _ => rfl,
    (present_draw_sequence CompositionLayer.fresh Platform.allOk Platform.allOk deviceA texA
      800 600 (by decide) (fun _ => rfl)).2.2.2.2.1⟩

/-- C8: in every `present` call, a checked platform call that returns a failure status is
the last platform call of that call (nothing is invoked after it), no checked call before
it failed (it is the first failing one), and `present` raises the error that carries the
name of that operation and its status. -/
theorem present_first_failed_check (s : CompositionLayer) (os : Platform) (d : Device)
    (h : HANDLE) (w ht : Int) (e : Event)
    (he : e ∈ (M.run (present os d h w ht) s).trace) (hf : e.failedCheck = true) :
    ∃ before hr, (M.run (present os d h w ht) s).trace = before ++ [e] ∧
      (∀ e' ∈ before, e'.failedCheck = false) ∧
      e.checked = true ∧ e.status = some hr ∧ FAILED hr = true ∧
      (M.run (present os d h w ht) s).outcome = Outcome.threw ⟨e.call.name, hr⟩ := by
  obtain ⟨hlast, hbefore, hr, hst, hout⟩ := (present_checked_failure s os d h w ht).1 e he hf
  refine ⟨(M.run (present os d h w ht) s).trace.dropLast, hr, ?_, hbefore, ?_, hst, ?_, hout⟩
  · exact (List.dropLast_append_getLast? e hlast).symm
  · simp only [Event.failedCheck, Bool.and_eq_true] at hf
    exact hf.1
  · simp only [Event.failedCheck, hst, Bool.and_eq_true] at hf
    exact hf.2

/-- C8, witness: `OpenSharedResource` failing in the first `present` on a fresh layer. -/
theorem present_first_failed_check_witness :
    (⟨Call.OpenSharedResource deviceA texA, some E_FAIL, true⟩ : Event) ∈
      (M.run (present osOpenFails deviceA texA 800 600) CompositionLayer.fresh).trace ∧
    Event.failedCheck ⟨Call.OpenSharedResource deviceA texA, some E_FAIL, true⟩ = true ∧
    ∃ before hr,
      (M.run (present osOpenFails deviceA texA 800 600) CompositionLayer.fresh).trace =
        before ++ [⟨Call.OpenSharedResource deviceA texA, some E_FAIL, true⟩] ∧
      (∀ e' ∈ before, e'.failedCheck = false) ∧
      (⟨Call.OpenSharedResource deviceA texA, some E_FAIL, true⟩ : Event).checked = true ∧
      (⟨Call.OpenSharedResource deviceA texA, some E_FAIL, true⟩ : Event).status = some hr ∧
      FAILED hr = true ∧
      (M.run (present osOpenFails deviceA texA 800 600) CompositionLayer.fresh).outcome =
        Outcome.threw
          ⟨(⟨Call.OpenSharedResource deviceA texA, some E_FAIL, true⟩ : Event).call.name, hr⟩ :=
  ⟨by decide, by decide,
    present_first_failed_check CompositionLayer.fresh osOpenFails deviceA texA 800 600
      ⟨Call.OpenSharedResource deviceA texA, some E_FAIL, true⟩ (by decide) (by decide)⟩

/-- C9 (fails on the code as stated): `setBlurBehind(true)` on a fresh layer with
`ISpriteVisual::put_Brush` failing on the background visual returns normally and sets the
flag, the brush of the visual being unchanged; and a `present` in which `IVisual::put_Size`
fails goes on to `Resize` and the draw session and returns normally. -/
theorem put_failures_are_not_checked :
    M.run (setBlurBehind osPutBrushFails true) CompositionLayer.fresh =
      ⟨Outcome.returned, { CompositionLayer.fresh with blurBehind_ := true },
        [⟨Call.backgroundVisual_put_Brush Brush.backdrop, some E_FAIL, false⟩]⟩ ∧
    (M.run (present (Platform.failing (Call.put_Size 800 600)) deviceA texA 800 600)
      CompositionLayer.fresh).outcome = Outcome.returned ∧
    (⟨Call.put_Size 800 600, some E_FAIL, false⟩ : Event) ∈
      (M.run (present (Platform.failing (Call.put_Size 800 600)) deviceA texA 800 600)
        CompositionLayer.fresh).trace ∧
    calls ((M.run (present (Platform.failing (Call.put_Size 800 600)) deviceA texA 800 600)
        CompositionLayer.fresh).trace.drop 11) =
      [ Call.put_Size 800 600, Call.Resize 800 600, Call.BeginDraw,
        Call.OpenSharedResource deviceA texA, Call.Resource_QueryInterface_ID3D11Texture2D,
        Call.CopySubresourceRegion, Call.EndDraw ] := by
  decide

/-- C9 (amended): in `setBlurBehind` and in `present`, a platform call wrapped in
`RO_CHECKED` that fails is the last call made and the function raises the error with its
name; in `setBlurBehind` the object, the blur-behind flag included, is then as before the
call.  The brush and size setters of the visuals are never wrapped in `RO_CHECKED`; when
no wrapped call fails, `setBlurBehind` returns normally with the flag set to its argument
and `present` raises no error, whatever status the setters returned. -/
theorem only_checked_calls_abort (s : CompositionLayer) (os : Platform) (d : Device)
    (h : HANDLE) (w ht : Int) (enabled : Bool) :
    ((∀ e ∈ (M.run (setBlurBehind os enabled) s).trace, e.failedCheck = true →
        (M.run (setBlurBehind os enabled) s).trace.getLast? = some e ∧
        (∃ hr, e.status = some hr ∧
          (M.run (setBlurBehind os enabled) s).outcome = Outcome.threw ⟨e.call.name, hr⟩) ∧
        (M.run (setBlurBehind os enabled) s).layer = s) ∧
      ((∀ e ∈ (M.run (setBlurBehind os enabled) s).trace, e.failedCheck = false) →
        (M.run (setBlurBehind os enabled) s).outcome = Outcome.returned ∧
        (M.run (setBlurBehind os enabled) s).layer.blurBehind_ = enabled) ∧
      (∀ e ∈ (M.run (setBlurBehind os enabled) s).trace,
        e.call.isSetter = true → e.checked = false)) ∧
    ((∀ e ∈ (M.run (present os d h w ht) s).trace, e.failedCheck = true →
        (M.run (present os d h w ht) s).trace.getLast? = some e ∧
        ∃ hr, e.status = some hr ∧
          (M.run (present os d h w ht) s).outcome = Outcome.threw ⟨e.call.name, hr⟩) ∧
      ((∀ e ∈ (M.run (present os d h w ht) s).trace, e.failedCheck = false) →
        ∀ ex, (M.run (present os d h w ht) s).outcome ≠ Outcome.threw ex) ∧
      (∀ e ∈ (M.run (present os d h w ht) s).trace,
        e.call.isSetter = true → e.checked = false)) := by
  have hb := setBlurBehind_checks s os enabled
  have hp := present_checked_failure s os d h w ht
  refine ⟨⟨?_, hb.2.1, hb.2.2⟩, ?_, ?_, hp.2.2⟩
  · intro e he hf
    obtain ⟨h1, _, h3, h4⟩ := hb.1 e he hf
    exact ⟨h1, h3, h4⟩
  · intro e he hf
    obtain ⟨h1, _, h3⟩ := hp.1 e he hf
    exact ⟨h1, h3⟩
  · intro hall ex hex
    obtain ⟨e, he, hf⟩ := hp.2.1 ex hex
    rw [hall e he] at hf
    exact Bool.false_ne_true hf

/-- C9 (amended), witness: with `put_Brush` failing, no checked call of
`setBlurBehind(true)` fails, and the call returns with the flag set. -/
theorem only_checked_calls_abort_witness :
    (∀ e ∈ (M.run (setBlurBehind osPutBrushFails true) CompositionLayer.fresh).trace,
      e.failedCheck = false) ∧
    (M.run (setBlurBehind osPutBrushFails true) CompositionLayer.fresh).outcome =
      Outcome.returned ∧
    (M.run (setBlurBehind osPutBrushFails true) CompositionLayer.fresh).layer.blurBehind_ =
      true :=
  ⟨by decide,
    (only_checked_calls_abort CompositionLayer.fresh osPutBrushFails deviceA texA 800 600
      true).1.2.1 (by decide)⟩

/-- C10 (fails on the code): the entry point `_1setBlurBehind` has no handler, so the
`RoException` raised when the colour brush cannot be created leaves the native method and
no Java exception is raised; the entry point `_1present` turns the exception of a failed
`OpenSharedResource` into one pending `RuntimeException` with its message. -/
theorem setBlurBehind_entry_lets_exception_escape :
    Java_com_sun_glass_ui_win_WinCompositionLayer__1setBlurBehind osColorBrushFails
        blurredLayer false =
      ⟨Outcome.threw ⟨"ICompositor::CreateColorBrushWithColor", E_FAIL⟩, none, blurredLayer,
        [⟨Call.CreateColorBrushWithColor 255 255 255 255, some E_FAIL, true⟩]⟩ ∧
    blurredLayer.blurBehind_ = true ∧
    (Java_com_sun_glass_ui_win_WinCompositionLayer__1present osOpenFails CompositionLayer.fresh
        deviceA texA 800 600).outcome = Outcome.returned ∧
    (Java_com_sun_glass_ui_win_WinCompositionLayer__1present osOpenFails CompositionLayer.fresh
        deviceA texA 800 600).pending =
      some ⟨"java/lang/RuntimeException", "ID3D11Device::OpenSharedResource"⟩ := by
  decide


/-! ## Stepping through a Compositor member function -/

namespace Compositor

section compositorExec
variable {α β : Type}

theorem mc_pure_bind (a : α) (f : α → MC β) : (pure a >>= f) = f a := by
  funext r; rfl

theorem mc_bind_assoc {γ : Type} (m : MC α) (f : α → MC β) (g : β → MC γ) :
    (m >>= f) >>= g = m >>= fun a => f a >>= g := by
  funext r
  show MC.bind (MC.bind m f) g r = MC.bind m (fun a => MC.bind (f a) g) r
  unfold MC.bind
  rcases m r with ⟨x | a, r'⟩ <;> rfl

theorem mc_ite_bind (c : Prop) [Decidable c] (a b : MC α) (f : α → MC β) :
    (if c then a else b) >>= f = if c then a >>= f else b >>= f := by
  split <;> rfl

theorem mc_ite_apply (c : Prop) [Decidable c] (a b : MC α) (r : CompositorRun) :
    (if c then a else b) r = if c then a r else b r := by
  split <;> rfl

theorem mc_pure_apply (a : α) (r : CompositorRun) : (pure a : MC α) r = (Except.ok a, r) := rfl

theorem mc_getComposition_bind (f : Composition → MC β) (r : CompositorRun) :
    (getComposition >>= f) r = f r.composition r := rfl

theorem mc_modifyComposition_bind (g : Composition → Composition) (f : Unit → MC β)
    (r : CompositorRun) :
    (modifyComposition g >>= f) r = f () { r with composition := g r.composition } := rfl

theorem mc_modifyComposition_apply (g : Composition → Composition) (r : CompositorRun) :
    modifyComposition g r = (Except.ok (), { r with composition := g r.composition }) := rfl

theorem mc_invokeVoid_bind (c : CompositorCall) (f : Unit → MC β) (r : CompositorRun) :
    (invokeVoid c >>= f) r = f () { r with trace := r.trace ++ [⟨c, none, false⟩] } := rfl

theorem mc_invokeVoid_apply (c : CompositorCall) (r : CompositorRun) :
    invokeVoid c r = (Except.ok (), { r with trace := r.trace ++ [⟨c, none, false⟩] }) := rfl

theorem mc_invoke_bind (os : CompositorPlatform) (c : CompositorCall) (k : Bool)
    (f : HRESULT → MC β) (r : CompositorRun) :
    (invoke os c k >>= f) r =
      f (os c) { r with trace := r.trace ++ [⟨c, some (os c), k⟩] } := rfl

theorem mc_throwRo_apply (ex : RoException) (r : CompositorRun) :
    (throwRo ex : MC α) r = (Except.error (Abort.threw ex), r) := rfl

theorem mc_deref_some_bind (a : α) (f : α → MC β) : (deref (some a) >>= f) = f a := by
  funext r; rfl

theorem mc_deref_none_bind (f : α → MC β) (r : CompositorRun) :
    (deref (none : Option α) >>= f) r = (Except.error Abort.nullDeref, r) := rfl

theorem mc_RO_CHECKED_apply (os : CompositorPlatform) (n : String) (c : CompositorCall)
    (r : CompositorRun) :
    RO_CHECKED os n c r =
      if FAILED (os c) = true then
        (Except.error (Abort.threw ⟨n, os c⟩),
          { r with trace := r.trace ++ [⟨c, some (os c), true⟩] })
      else (Except.ok (), { r with trace := r.trace ++ [⟨c, some (os c), true⟩] }) := by
  unfold RO_CHECKED
  rw [mc_invoke_bind]
  split <;> rfl

theorem mc_RO_CHECKED_bind (os : CompositorPlatform) (n : String) (c : CompositorCall)
    (f : Unit → MC β) (r : CompositorRun) :
    (RO_CHECKED os n c >>= f) r =
      if FAILED (os c) = true then
        (Except.error (Abort.threw ⟨n, os c⟩),
          { r with trace := r.trace ++ [⟨c, some (os c), true⟩] })
      else f () { r with trace := r.trace ++ [⟨c, some (os c), true⟩] } := by
  show MC.bind (RO_CHECKED os n c) f r = _
  unfold MC.bind
  rw [mc_RO_CHECKED_apply]
  by_cases hc : FAILED (os c) = true <;> simp [hc]

end compositorExec

end Compositor

/-! ## The three cases of setBlurBehind -/

/-- Requested state equal to the current one: no platform call, object unchanged. -/
theorem setBlurBehind_same (s : CompositionLayer) (os : Platform) (e : Bool)
    (h : s.blurBehind_ = e) :
    M.run (setBlurBehind os e) s = ⟨Outcome.returned, s, []⟩ := by
  subst h
  unfold M.run
  cases s with
  | mk b w ht d dc ds bb bv cv =>
    cases b <;> rfl

/-- Enabling: one unchecked `put_Brush` of the shared backdrop brush, then the flag. -/
theorem setBlurBehind_enable (s : CompositionLayer) (os : Platform)
    (h : s.blurBehind_ = false) :
    M.run (setBlurBehind os true) s =
      ⟨Outcome.returned,
        { s with
          blurBehind_ := true
          backgroundVisual_ := { s.backgroundVisual_ with
            brush := bif FAILED (os (Call.backgroundVisual_put_Brush s.backgroundBrush_))
              then s.backgroundVisual_.brush else some s.backgroundBrush_ } },
        [⟨Call.backgroundVisual_put_Brush s.backgroundBrush_,
          some (os (Call.backgroundVisual_put_Brush s.backgroundBrush_)), false⟩]⟩ := by
  unfold M.run
  cases s with
  | mk b w ht d dc ds bb bv cv =>
    cases h
    rfl

/-- Disabling: a checked colour-brush construction, a checked interface query, one
unchecked `put_Brush` of the new brush, then the flag. -/
theorem setBlurBehind_disable (s : CompositionLayer) (os : Platform)
    (h : s.blurBehind_ = true) :
    M.run (setBlurBehind os false) s =
      if FAILED (os (Call.CreateColorBrushWithColor 255 255 255 255)) = true then
        ⟨Outcome.threw ⟨"ICompositor::CreateColorBrushWithColor",
            os (Call.CreateColorBrushWithColor 255 255 255 255)⟩, s,
          [⟨Call.CreateColorBrushWithColor 255 255 255 255,
            some (os (Call.CreateColorBrushWithColor 255 255 255 255)), true⟩]⟩
      else if FAILED (os Call.ColorBrush_QueryInterface_ICompositionBrush) = true then
        ⟨Outcome.threw ⟨"ICompositionColorBrush::QueryInterface<ICompositionBrush>",
            os Call.ColorBrush_QueryInterface_ICompositionBrush⟩, s,
          [⟨Call.CreateColorBrushWithColor 255 255 255 255,
            some (os (Call.CreateColorBrushWithColor 255 255 255 255)), true⟩,
           ⟨Call.ColorBrush_QueryInterface_ICompositionBrush,
            some (os Call.ColorBrush_QueryInterface_ICompositionBrush), true⟩]⟩
      else
        ⟨Outcome.returned,
          { s with
            blurBehind_ := false
            backgroundVisual_ := { s.backgroundVisual_ with
              brush := bif FAILED (os (Call.backgroundVisual_put_Brush (Brush.color 255 255 255 255)))
                then s.backgroundVisual_.brush else some (Brush.color 255 255 255 255) } },
          [⟨Call.CreateColorBrushWithColor 255 255 255 255,
            some (os (Call.CreateColorBrushWithColor 255 255 255 255)), true⟩,
           ⟨Call.ColorBrush_QueryInterface_ICompositionBrush,
            some (os Call.ColorBrush_QueryInterface_ICompositionBrush), true⟩,
           ⟨Call.backgroundVisual_put_Brush (Brush.color 255 255 255 255),
            some (os (Call.backgroundVisual_put_Brush (Brush.color 255 255 255 255))), false⟩]⟩ := by
  unfold M.run
  simp only [setBlurBehind, backgroundVisual_put_Brush, RO_CHECKED_bind, RO_CHECKED_apply,
    unchecked, M.bind_assoc, M.pure_bind, M.ite_bind, M.ite_apply, M.pure_apply, getLayer_bind,
    modifyLayer_bind, modifyLayer_apply, invoke_bind, throwRo_apply, h, Bool.and_self,
    Bool.not_true, Bool.not_false, Bool.and_true, Bool.and_false, Bool.true_and, Bool.false_and,
    Bool.false_eq_true, if_true, if_false]
  by_cases h1 : FAILED (os (Call.CreateColorBrushWithColor 255 255 255 255)) = true
  · simp [h1, exitOutcome]
  · by_cases h2 : FAILED (os Call.ColorBrush_QueryInterface_ICompositionBrush) = true
    · simp [h1, h2, exitOutcome]
    · simp [h1, h2, exitOutcome]


set_option maxHeartbeats 8000000 in
/-- Frame of `present`: whatever the platform does, the call leaves the reference to the
shared backdrop brush, the blur flag and the background visual as they were. -/
theorem present_frame (s : CompositionLayer) (os : Platform) (d : Device) (h : HANDLE)
    (w ht : Int) :
    (M.run (present os d h w ht) s).layer.backgroundBrush_ = s.backgroundBrush_ ∧
    (M.run (present os d h w ht) s).layer.backgroundVisual_ = s.backgroundVisual_ ∧
    (M.run (present os d h w ht) s).layer.blurBehind_ = s.blurBehind_ := by
  unfold M.run
  generalize hp : present os d h w ht ⟨s, []⟩ = p
  by_cases hd : s.device_ = some d
  · rcases hI : s.drawingSurfaceInterop_ with _ | surf <;>
    rcases hC : s.deviceContext_ with _ | ctx <;>
    by_cases hs : s.width_ ≠ w ∨ s.height_ ≠ ht <;>
    simp only [present, ensureDevice, RO_CHECKED_bind, RO_CHECKED_apply, contentVisual_put_Brush,
      contentVisual_put_Size, unchecked, M.bind_assoc, M.pure_bind, M.ite_bind, M.ite_apply,
      M.pure_apply, getLayer_bind, modifyLayer_bind, modifyLayer_apply, invokeVoid_bind,
      invoke_bind, throwRo_apply, deref_some_bind, deref_none_bind, hI, hC, hd, hs, if_true,
      if_false] at hp <;>
    revert hp <;>
    (repeat' (apply ite_imp <;> intro _)) <;>
    intro hp <;>
    subst hp <;>
    simp
  · by_cases hs : s.width_ ≠ w ∨ s.height_ ≠ ht <;>
    simp only [present, ensureDevice, RO_CHECKED_bind, RO_CHECKED_apply, contentVisual_put_Brush,
      contentVisual_put_Size, unchecked, M.bind_assoc, M.pure_bind, M.ite_bind, M.ite_apply,
      M.pure_apply, getLayer_bind, modifyLayer_bind, modifyLayer_apply, invokeVoid_bind,
      invoke_bind, throwRo_apply, deref_some_bind, deref_none_bind, hd, hs, if_true,
      if_false] at hp <;>
    revert hp <;>
    (repeat' (apply ite_imp <;> intro _)) <;>
    intro hp <;>
    subst hp <;>
    simp

/-- Frame of `setBlurBehind`: whatever the platform does, the call changes at most the blur
flag and the brush bound to the background visual. -/
theorem setBlurBehind_frame (s : CompositionLayer) (os : Platform) (e : Bool) :
    (M.run (setBlurBehind os e) s).layer.backgroundBrush_ = s.backgroundBrush_ ∧
    (M.run (setBlurBehind os e) s).layer.backgroundVisual_.size = s.backgroundVisual_.size ∧
    (M.run (setBlurBehind os e) s).layer.contentVisual_ = s.contentVisual_ ∧
    (M.run (setBlurBehind os e) s).layer.width_ = s.width_ ∧
    (M.run (setBlurBehind os e) s).layer.height_ = s.height_ ∧
    (M.run (setBlurBehind os e) s).layer.device_ = s.device_ ∧
    (M.run (setBlurBehind os e) s).layer.deviceContext_ = s.deviceContext_ ∧
    (M.run (setBlurBehind os e) s).layer.drawingSurfaceInterop_ = s.drawingSurfaceInterop_ := by
  by_cases h : s.blurBehind_ = e
  · rw [setBlurBehind_same s os e h]; simp
  · cases e
    · have hb : s.blurBehind_ = true := by simpa using h
      rw [setBlurBehind_disable s os hb]
      split_ifs <;> simp
    · have hb : s.blurBehind_ = false := by simpa using h
      rw [setBlurBehind_enable s os hb]; simp


/-! ## C11: a call that requests the current state -/

/-- C11: for every layer and every boolean `e`, `setBlurBehind(e)` on a layer whose flag
already equals `e` makes no platform call at all: no brush substitution, no brush
construction, object (and flag) unchanged.  Hence two `setBlurBehind(true)` calls in a row
make at most one substitution, and `setBlurBehind(false)` on a newly constructed layer makes
none. -/
theorem setBlurBehind_same_state_is_noop (s : CompositionLayer) (os os' : Platform) (e : Bool)
    (backgroundBrush : Brush) (backgroundVisual contentVisual : SpriteVisual) :
    (s.blurBehind_ = e →
      M.run (setBlurBehind os e) s = ⟨Outcome.returned, s, []⟩ ∧
      substitutions (M.run (setBlurBehind os e) s).trace = 0 ∧
      brushConstructions (M.run (setBlurBehind os e) s).trace = [] ∧
      (M.run (setBlurBehind os e) s).layer.blurBehind_ = s.blurBehind_) ∧
    substitutions (M.run (setBlurBehind os true) s).trace +
      substitutions (M.run (setBlurBehind os' true)
        (M.run (setBlurBehind os true) s).layer).trace ≤ 1 ∧
    M.run (setBlurBehind os false)
        (CompositionLayer.create backgroundBrush backgroundVisual contentVisual) =
      ⟨Outcome.returned, CompositionLayer.create backgroundBrush backgroundVisual contentVisual,
        []⟩ := by
  refine ⟨fun h => ?_, ?_, setBlurBehind_same _ _ _ rfl⟩
  · rw [setBlurBehind_same s os e h]
    exact ⟨rfl, rfl, rfl, rfl⟩
  · rcases hb : s.blurBehind_ with _ | _
    · rw [setBlurBehind_enable s os hb, setBlurBehind_same _ os' true rfl]
      simp [substitutions, calls, Call.isBackgroundSubstitution]
    · rw [setBlurBehind_same s os true hb, setBlurBehind_same s os' true hb]
      simp [substitutions, calls]

/-- C11 at a concrete input: the blurred layer, asked to blur again. -/
theorem setBlurBehind_same_state_is_noop_witness :
    blurredLayer.blurBehind_ = true ∧
    M.run (setBlurBehind Platform.allOk true) blurredLayer =
      ⟨Outcome.returned, blurredLayer, []⟩ :=
  ⟨by decide,
    ((setBlurBehind_same_state_is_noop blurredLayer Platform.allOk Platform.allOk true
      Brush.backdrop ⟨none, none⟩ ⟨none, none⟩).1 (by decide)).1⟩

/-! ## C12: enable, disable, enable -/

/-- C12: for every layer, when every platform call of the three calls `setBlurBehind(true)`,
`setBlurBehind(false)`, `setBlurBehind(true)` succeeds, all three return, and the layer ends
with its background visual bound to the brush held in `backgroundBrush_` (the shared backdrop
brush handed to the constructor, still the one the layer started with), and with the flag
true. -/
theorem setBlurBehind_round_trip (s : CompositionLayer) (os1 os2 os3 : Platform)
    (_h1 : allSucceeded (M.run (setBlurBehind os1 true) s).trace = true)
    (h2 : allSucceeded (M.run (setBlurBehind os2 false)
      (M.run (setBlurBehind os1 true) s).layer).trace = true)
    (h3 : allSucceeded (M.run (setBlurBehind os3 true)
      (M.run (setBlurBehind os2 false) (M.run (setBlurBehind os1 true) s).layer).layer).trace
        = true) :
    (M.run (setBlurBehind os1 true) s).outcome = Outcome.returned ∧
    (M.run (setBlurBehind os2 false) (M.run (setBlurBehind os1 true) s).layer).outcome =
      Outcome.returned ∧
    (M.run (setBlurBehind os3 true)
      (M.run (setBlurBehind os2 false) (M.run (setBlurBehind os1 true) s).layer).layer).outcome =
      Outcome.returned ∧
    (M.run (setBlurBehind os3 true)
      (M.run (setBlurBehind os2 false)
        (M.run (setBlurBehind os1 true) s).layer).layer).layer.backgroundVisual_.brush =
      some s.backgroundBrush_ ∧
    (M.run (setBlurBehind os3 true)
      (M.run (setBlurBehind os2 false)
        (M.run (setBlurBehind os1 true) s).layer).layer).layer.backgroundBrush_ =
      s.backgroundBrush_ ∧
    (M.run (setBlurBehind os3 true)
      (M.run (setBlurBehind os2 false)
        (M.run (setBlurBehind os1 true) s).layer).layer).layer.blurBehind_ = true := by
  have key : ∀ t : CompositionLayer, t.blurBehind_ = true →
      allSucceeded (M.run (setBlurBehind os2 false) t).trace = true →
      allSucceeded (M.run (setBlurBehind os3 true)
        (M.run (setBlurBehind os2 false) t).layer).trace = true →
      (M.run (setBlurBehind os2 false) t).outcome = Outcome.returned ∧
      (M.run (setBlurBehind os3 true) (M.run (setBlurBehind os2 false) t).layer).outcome =
        Outcome.returned ∧
      (M.run (setBlurBehind os3 true)
        (M.run (setBlurBehind os2 false) t).layer).layer.backgroundVisual_.brush =
        some t.backgroundBrush_ ∧
      (M.run (setBlurBehind os3 true)
        (M.run (setBlurBehind os2 false) t).layer).layer.backgroundBrush_ = t.backgroundBrush_ ∧
      (M.run (setBlurBehind os3 true)
        (M.run (setBlurBehind os2 false) t).layer).layer.blurBehind_ = true := by
    intro t ht
    rw [setBlurBehind_disable t os2 ht]
    by_cases c1 : FAILED (os2 (Call.CreateColorBrushWithColor 255 255 255 255)) = true
    · simp [c1, allSucceeded]
    · by_cases c2 : FAILED (os2 Call.ColorBrush_QueryInterface_ICompositionBrush) = true
      · simp [c1, c2, allSucceeded]
      · rw [if_neg c1, if_neg c2]
        rw [setBlurBehind_enable _ os3 rfl]
        simp only [allSucceeded, List.all_cons, List.all_nil, Bool.and_true, Bool.and_eq_true,
          Bool.not_eq_true']
        intro _ hz
        simp [hz]
  rcases hb : s.blurBehind_ with _ | _
  · rw [setBlurBehind_enable s os1 hb] at h2 h3 ⊢
    have k := key _ rfl h2 h3
    exact ⟨rfl, k.1, k.2.1, k.2.2.1, k.2.2.2.1, k.2.2.2.2⟩
  · rw [setBlurBehind_same s os1 true hb] at h2 h3 ⊢
    have k := key _ hb h2 h3
    exact ⟨rfl, k.1, k.2.1, k.2.2.1, k.2.2.2.1, k.2.2.2.2⟩

/-- C12 at a concrete input: the round trip on a newly created layer, nothing failing. -/
theorem setBlurBehind_round_trip_witness :
    (M.run (setBlurBehind Platform.allOk true)
      (M.run (setBlurBehind Platform.allOk false)
        (M.run (setBlurBehind Platform.allOk true)
          CompositionLayer.fresh).layer).layer).layer.backgroundVisual_.brush =
      some Brush.backdrop :=
  (setBlurBehind_round_trip CompositionLayer.fresh Platform.allOk Platform.allOk Platform.allOk
    (by decide) (by decide) (by decide)).2.2.2.1

namespace Compositor

set_option maxRecDepth 4000 in
set_option maxHeartbeats 4000000 in
/-- The checks of `createCompositionLayer`: a failed checked call is the last call made,
no layer is returned and the exception carries its name and status; when no check fails the
call returns unless `get_Children` failed, in which case the null collection is
dereferenced; a layer is returned exactly when the call returns; every logged status is the
one the platform gave. -/
theorem createCompositionLayer_checks (this : Compositor) (os : CompositorPlatform)
    (hwnd : HWND) (c : Composition) :
    (∀ e ∈ (MC.run (createCompositionLayer this os hwnd) c).trace, e.failedCheck = true →
      (MC.run (createCompositionLayer this os hwnd) c).trace.getLast? = some e ∧
      (MC.run (createCompositionLayer this os hwnd) c).value = none ∧
      (∃ hr, e.status = some hr ∧
        (MC.run (createCompositionLayer this os hwnd) c).outcome = Outcome.threw ⟨e.call.name, hr⟩)) ∧
    ((∀ e ∈ (MC.run (createCompositionLayer this os hwnd) c).trace, e.failedCheck = false) →
      (FAILED (os (CompositorCall.get_Children (c.visualCount + 1))) = false →
        (MC.run (createCompositionLayer this os hwnd) c).outcome = Outcome.returned) ∧
      (FAILED (os (CompositorCall.get_Children (c.visualCount + 1))) = true →
        (MC.run (createCompositionLayer this os hwnd) c).outcome = Outcome.nullDeref ∧
        (MC.run (createCompositionLayer this os hwnd) c).trace.getLast? =
          some ⟨CompositorCall.get_Children (c.visualCount + 1),
            some (os (CompositorCall.get_Children (c.visualCount + 1))), false⟩)) ∧
    ((MC.run (createCompositionLayer this os hwnd) c).outcome = Outcome.returned ↔
      (MC.run (createCompositionLayer this os hwnd) c).value.isSome = true) ∧
    (∀ e ∈ (MC.run (createCompositionLayer this os hwnd) c).trace,
      e.status = some (os e.call)) := by
  unfold MC.run
  generalize hp : createCompositionLayer this os hwnd ⟨c, []⟩ = p
  simp only [createCompositionLayer, put_Brush, put_RelativeSizeAdjustment, get_Children,
    InsertAtTop, InsertAtBottom, put_Root, mc_RO_CHECKED_bind, mc_RO_CHECKED_apply, mc_bind_assoc,
    mc_pure_bind, mc_ite_bind, mc_ite_apply, mc_pure_apply, mc_getComposition_bind,
    mc_modifyComposition_bind, mc_modifyComposition_apply, mc_invoke_bind, mc_throwRo_apply,
    mc_deref_some_bind, mc_deref_none_bind, Composition.addVisual, Composition.updateVisual] at hp
  revert hp
  (repeat' (apply ite_imp <;> intro _)) <;>
  intro hp <;>
  subst hp <;>
  (simp [CompositorEvent.failedCheck, exitOutcomeOf, exitValue, CompositorCall.name, *] <;> simp_all)

set_option maxRecDepth 4000 in
set_option maxHeartbeats 4000000 in
/-- The normal path of `createCompositionLayer`: the platform calls made, in order, the
returned layer, and what the calls leave of the three visuals and of the target. -/
theorem createCompositionLayer_returned (this : Compositor) (os : CompositorPlatform)
    (hwnd : HWND) (c : Composition)
    (h : (MC.run (createCompositionLayer this os hwnd) c).outcome = Outcome.returned) :
    compositorCalls (MC.run (createCompositionLayer this os hwnd) c).trace =
      [CompositorCall.Compositor_QueryInterface_ICompositorDesktopInterop,
       CompositorCall.CreateDesktopWindowTarget hwnd,
       CompositorCall.DesktopWindowTarget_QueryInterface_ICompositionTarget,
       CompositorCall.CreateSpriteVisual c.visualCount,
       CompositorCall.SpriteVisual_QueryInterface_IVisual c.visualCount,
       CompositorCall.SpriteVisual_QueryInterface_IVisual2 c.visualCount,
       CompositorCall.CreateContainerVisual (c.visualCount + 1),
       CompositorCall.ContainerVisual_QueryInterface_IVisual (c.visualCount + 1),
       CompositorCall.ContainerVisual_QueryInterface_IVisual2 (c.visualCount + 1),
       CompositorCall.CreateSpriteVisual (c.visualCount + 2),
       CompositorCall.SpriteVisual_QueryInterface_IVisual (c.visualCount + 2),
       CompositorCall.SpriteVisual_QueryInterface_IVisual2 (c.visualCount + 2),
       CompositorCall.CreateColorBrushWithColor 255 255 255 255,
       CompositorCall.ColorBrush_QueryInterface_ICompositionBrush,
       CompositorCall.put_Brush (c.visualCount + 2) (Brush.color 255 255 255 255),
       CompositorCall.put_RelativeSizeAdjustment (c.visualCount + 2) 1 1,
       CompositorCall.put_RelativeSizeAdjustment (c.visualCount + 1) 1 1,
       CompositorCall.get_Children (c.visualCount + 1),
       CompositorCall.InsertAtTop (c.visualCount + 1) c.visualCount,
       CompositorCall.InsertAtBottom (c.visualCount + 1) (c.visualCount + 2),
       CompositorCall.put_Root hwnd (c.visualCount + 1)] ∧
    (∀ e ∈ (MC.run (createCompositionLayer this os hwnd) c).trace, e.failedCheck = false) ∧
    (MC.run (createCompositionLayer this os hwnd) c).value =
      some (Make_CompositionLayer (MC.run (createCompositionLayer this os hwnd) c).composition
        hwnd this.backgroundBrush_ (c.visualCount + 2) c.visualCount) ∧
    (MC.run (createCompositionLayer this os hwnd) c).composition.visuals c.visualCount =
      some ⟨false, none, none, []⟩ ∧
    (MC.run (createCompositionLayer this os hwnd) c).composition.visuals (c.visualCount + 1) =
      some ⟨true, none,
        bif FAILED (os (CompositorCall.put_RelativeSizeAdjustment (c.visualCount + 1) 1 1))
          then none else some (1, 1),
        bif FAILED (os (CompositorCall.InsertAtBottom (c.visualCount + 1) (c.visualCount + 2)))
          then (bif FAILED (os (CompositorCall.InsertAtTop (c.visualCount + 1) c.visualCount))
            then [] else [c.visualCount])
          else (bif FAILED (os (CompositorCall.InsertAtTop (c.visualCount + 1) c.visualCount))
            then [] else [c.visualCount]) ++ [c.visualCount + 2]⟩ ∧
    (MC.run (createCompositionLayer this os hwnd) c).composition.visuals (c.visualCount + 2) =
      some ⟨false,
        bif FAILED (os (CompositorCall.put_Brush (c.visualCount + 2) (Brush.color 255 255 255 255)))
          then none else some (Brush.color 255 255 255 255),
        bif FAILED (os (CompositorCall.put_RelativeSizeAdjustment (c.visualCount + 2) 1 1))
          then none else some (1, 1), []⟩ ∧
    (MC.run (createCompositionLayer this os hwnd) c).composition.root hwnd =
      (bif FAILED (os (CompositorCall.put_Root hwnd (c.visualCount + 1)))
        then c.root hwnd else some (c.visualCount + 1)) ∧
    (MC.run (createCompositionLayer this os hwnd) c).composition.hasTarget hwnd = true := by
  have e2 : ∀ n : Nat, n + 1 + 1 = n + 2 := fun _ => rfl
  have n1 : ∀ n : Nat, (n = n + 1) = False := fun n => by simp
  have n2 : ∀ n : Nat, (n = n + 2) = False := fun n => by simp
  have n3 : ∀ n : Nat, (n + 1 = n) = False := fun n => by simp
  have n4 : ∀ n : Nat, (n + 2 = n) = False := fun n => by simp
  have n5 : ∀ n : Nat, (n + 1 = n + 2) = False := fun n => by simp
  have n6 : ∀ n : Nat, (n + 2 = n + 1) = False := fun n => by simp
  revert h
  unfold MC.run
  generalize hp : createCompositionLayer this os hwnd ⟨c, []⟩ = p
  simp only [createCompositionLayer, put_Brush, put_RelativeSizeAdjustment, get_Children,
    InsertAtTop, InsertAtBottom, put_Root, mc_RO_CHECKED_bind, mc_RO_CHECKED_apply, mc_bind_assoc,
    mc_pure_bind, mc_ite_bind, mc_ite_apply, mc_pure_apply, mc_getComposition_bind,
    mc_modifyComposition_bind, mc_modifyComposition_apply, mc_invoke_bind, mc_throwRo_apply,
    mc_deref_some_bind, mc_deref_none_bind, Composition.addVisual, Composition.updateVisual] at hp
  revert hp
  (repeat' (apply ite_imp <;> intro _)) <;>
  intro hp <;>
  subst hp <;>
  simp [CompositorEvent.failedCheck, exitOutcomeOf, exitValue, compositorCalls, e2, n1, n2, n3,
    n4, n5, n6, *]
  all_goals simp only [e2, Bool.not_eq_true] at *
  all_goals simp [*]

end Compositor

/-- In a log whose statuses are the ones the platform gave and are all successes, the
platform succeeded on every call made. -/
theorem compositor_succeeded_of_mem (t : List CompositorEvent) (os : CompositorPlatform)
    (hst : ∀ e ∈ t, e.status = some (os e.call)) (hok : compositorAllSucceeded t = true)
    (x : CompositorCall) (hx : x ∈ compositorCalls t) : FAILED (os x) = false := by
  unfold compositorCalls at hx
  rcases List.mem_map.1 hx with ⟨e, he, rfl⟩
  have h1 := List.all_eq_true.1 hok e he
  rw [hst e he] at h1
  simpa using h1

/-- What a call of `createCompositionLayer` leaves when it returns and every platform call
succeeded: the returned layer and the three visuals. -/
theorem createCompositionLayer_succeeded (this : Compositor) (os : CompositorPlatform)
    (hwnd : HWND) (c : Composition)
    (h : (MC.run (Compositor.createCompositionLayer this os hwnd) c).outcome = Outcome.returned)
    (hok : compositorAllSucceeded
      (MC.run (Compositor.createCompositionLayer this os hwnd) c).trace = true) :
    (MC.run (Compositor.createCompositionLayer this os hwnd) c).value =
      some (Make_CompositionLayer
        (MC.run (Compositor.createCompositionLayer this os hwnd) c).composition
        hwnd this.backgroundBrush_ (c.visualCount + 2) c.visualCount) ∧
    (MC.run (Compositor.createCompositionLayer this os hwnd) c).composition.visuals
      c.visualCount = some ⟨false, none, none, []⟩ ∧
    (MC.run (Compositor.createCompositionLayer this os hwnd) c).composition.visuals
      (c.visualCount + 1) = some ⟨true, none, some (1, 1), [c.visualCount, c.visualCount + 2]⟩ ∧
    (MC.run (Compositor.createCompositionLayer this os hwnd) c).composition.visuals
      (c.visualCount + 2) = some ⟨false, some (Brush.color 255 255 255 255), some (1, 1), []⟩ ∧
    (MC.run (Compositor.createCompositionLayer this os hwnd) c).composition.root hwnd =
      some (c.visualCount + 1) ∧
    (MC.run (Compositor.createCompositionLayer this os hwnd) c).composition.hasTarget hwnd =
      true := by
  have r := Compositor.createCompositionLayer_returned this os hwnd c h
  have hst := (Compositor.createCompositionLayer_checks this os hwnd c).2.2.2
  have ok := compositor_succeeded_of_mem _ os hst hok
  rw [r.1] at ok
  have o1 := ok (CompositorCall.put_Brush (c.visualCount + 2) (Brush.color 255 255 255 255))
    (by simp)
  have o2 := ok (CompositorCall.put_RelativeSizeAdjustment (c.visualCount + 2) 1 1) (by simp)
  have o3 := ok (CompositorCall.put_RelativeSizeAdjustment (c.visualCount + 1) 1 1) (by simp)
  have o4 := ok (CompositorCall.InsertAtTop (c.visualCount + 1) c.visualCount) (by simp)
  have o5 := ok (CompositorCall.InsertAtBottom (c.visualCount + 1) (c.visualCount + 2)) (by simp)
  have o6 := ok (CompositorCall.put_Root hwnd (c.visualCount + 1)) (by simp)
  refine ⟨r.2.2.1, r.2.2.2.1, ?_, ?_, ?_, r.2.2.2.2.2.2.2⟩
  · rw [r.2.2.2.2.1, o3, o4, o5]; rfl
  · rw [r.2.2.2.2.2.1, o1, o2]; rfl
  · rw [r.2.2.2.2.2.2.1, o6]; rfl


/-! ## C13: the two transitions of setBlurBehind -/

/-- C13: a `setBlurBehind(e)` call that changes the state and on which every platform call
succeeds returns with the flag equal to `e`.  For `e = true` its only platform call is the
`put_Brush` of the shared backdrop brush: no brush is constructed, and the background visual
is bound to that brush.  For `e = false` it constructs exactly one colour brush, of colour
(255, 255, 255, 255), and binds it to the background visual; this is the colour of the
brush that `createCompositionLayer` puts on the background visual of a new layer.  Whatever
the platform does, `setBlurBehind` constructs a brush only when the flag was true and `e` is
false. -/
theorem setBlurBehind_transition (s : CompositionLayer) (os : Platform) (e : Bool)
    (this : Compositor) (osC : CompositorPlatform) (hwnd : HWND) (c : Composition) :
    (s.blurBehind_ ≠ e → allSucceeded (M.run (setBlurBehind os e) s).trace = true →
      (M.run (setBlurBehind os e) s).outcome = Outcome.returned ∧
      (M.run (setBlurBehind os e) s).layer.blurBehind_ = e ∧
      (e = true →
        calls (M.run (setBlurBehind os e) s).trace =
          [Call.backgroundVisual_put_Brush s.backgroundBrush_] ∧
        brushConstructions (M.run (setBlurBehind os e) s).trace = [] ∧
        (M.run (setBlurBehind os e) s).layer.backgroundVisual_.brush =
          some s.backgroundBrush_) ∧
      (e = false →
        calls (M.run (setBlurBehind os e) s).trace =
          [Call.CreateColorBrushWithColor 255 255 255 255,
           Call.ColorBrush_QueryInterface_ICompositionBrush,
           Call.backgroundVisual_put_Brush (Brush.color 255 255 255 255)] ∧
        brushConstructions (M.run (setBlurBehind os e) s).trace =
          [Call.CreateColorBrushWithColor 255 255 255 255] ∧
        (M.run (setBlurBehind os e) s).layer.backgroundVisual_.brush =
          some (Brush.color 255 255 255 255))) ∧
    (brushConstructions (M.run (setBlurBehind os e) s).trace ≠ [] →
      s.blurBehind_ = true ∧ e = false) ∧
    ((MC.run (Compositor.createCompositionLayer this osC hwnd) c).outcome = Outcome.returned →
      compositorAllSucceeded
        (MC.run (Compositor.createCompositionLayer this osC hwnd) c).trace = true →
      ∃ L, (MC.run (Compositor.createCompositionLayer this osC hwnd) c).value = some L ∧
        L.members.backgroundVisual_.brush = some (Brush.color 255 255 255 255)) := by
  refine ⟨?_, ?_, ?_⟩
  · intro hne
    cases e
    · have hb : s.blurBehind_ = true := by simpa using hne
      rw [setBlurBehind_disable s os hb]
      by_cases c1 : FAILED (os (Call.CreateColorBrushWithColor 255 255 255 255)) = true
      · simp [c1, allSucceeded]
      · by_cases c2 : FAILED (os Call.ColorBrush_QueryInterface_ICompositionBrush) = true
        · simp [c1, c2, allSucceeded]
        · rw [if_neg c1, if_neg c2]
          simp only [allSucceeded, List.all_cons, List.all_nil, Bool.and_true, Bool.and_eq_true,
            Bool.not_eq_true']
          intro hz
          simp [hz.2.2, calls, brushConstructions, Call.isBrushConstruction]
    · have hb : s.blurBehind_ = false := by simpa using hne
      rw [setBlurBehind_enable s os hb]
      simp only [allSucceeded, List.all_cons, List.all_nil, Bool.and_true, Bool.not_eq_true']
      intro hz
      simp [hz, calls, brushConstructions, Call.isBrushConstruction]
  · intro hc
    by_cases h : s.blurBehind_ = e
    · rw [setBlurBehind_same s os e h] at hc
      exact absurd rfl hc
    · cases e
      · exact ⟨by simpa using h, rfl⟩
      · have hb : s.blurBehind_ = false := by simpa using h
        rw [setBlurBehind_enable s os hb] at hc
        simp [calls, brushConstructions, Call.isBrushConstruction] at hc
  · intro h hok
    have r := createCompositionLayer_succeeded this osC hwnd c h hok
    refine ⟨_, r.1, ?_⟩
    simp [Make_CompositionLayer, CompositionLayer.create, Composition.spriteVisual, r.2.2.2.1]

/-- C13 at a concrete input: disabling the blur of the blurred layer, nothing failing. -/
theorem setBlurBehind_transition_witness :
    blurredLayer.blurBehind_ ≠ false ∧
    (M.run (setBlurBehind Platform.allOk false) blurredLayer).layer.backgroundVisual_.brush =
      some (Brush.color 255 255 255 255) :=
  ⟨by decide,
    (((setBlurBehind_transition blurredLayer Platform.allOk false compositorA
      CompositorPlatform.allOk hwndA Composition.empty).1 (by decide) (by decide)).2.2.2
        rfl).2.2⟩


/-! ## C14: which visuals fill their parent -/

/-- C14, as stated, fails: on a platform where every call succeeds, the layer created for a
window has as content visual the visual 0, and that visual has no relative size adjustment:
the two `put_RelativeSizeAdjustment` calls are made on the background visual (2) and on the
container visual (1). -/
theorem createCompositionLayer_content_visual_not_adjusted :
    (MC.run (Compositor.createCompositionLayer compositorA CompositorPlatform.allOk hwndA)
      Composition.empty).outcome = Outcome.returned ∧
    compositorAllSucceeded (MC.run (Compositor.createCompositionLayer compositorA
      CompositorPlatform.allOk hwndA) Composition.empty).trace = true ∧
    (MC.run (Compositor.createCompositionLayer compositorA CompositorPlatform.allOk hwndA)
      Composition.empty).value.map LayerObject.contentVisual = some 0 ∧
    (MC.run (Compositor.createCompositionLayer compositorA CompositorPlatform.allOk hwndA)
      Composition.empty).value.map LayerObject.backgroundVisual = some 2 ∧
    ((MC.run (Compositor.createCompositionLayer compositorA CompositorPlatform.allOk hwndA)
      Composition.empty).composition.visuals 0).map Visual.relativeSizeAdjustment =
        some none ∧
    sizeAdjusted (MC.run (Compositor.createCompositionLayer compositorA
      CompositorPlatform.allOk hwndA) Composition.empty).trace = [2, 1] := by
  decide

/-- C14, amended: a `createCompositionLayer(hwnd)` call that returns makes exactly two
`put_RelativeSizeAdjustment` calls, on the background visual and on the container visual,
and when every platform call succeeded these two visuals have the relative size adjustment
(1, 1) while the content visual has none. -/
theorem createCompositionLayer_size_adjustments (this : Compositor) (os : CompositorPlatform)
    (hwnd : HWND) (c : Composition)
    (h : (MC.run (Compositor.createCompositionLayer this os hwnd) c).outcome = Outcome.returned)
    (hok : compositorAllSucceeded
      (MC.run (Compositor.createCompositionLayer this os hwnd) c).trace = true) :
    ∃ L, (MC.run (Compositor.createCompositionLayer this os hwnd) c).value = some L ∧
      sizeAdjusted (MC.run (Compositor.createCompositionLayer this os hwnd) c).trace =
        [L.backgroundVisual, c.visualCount + 1] ∧
      ((MC.run (Compositor.createCompositionLayer this os hwnd) c).composition.visuals
        L.backgroundVisual).map Visual.relativeSizeAdjustment = some (some (1, 1)) ∧
      (MC.run (Compositor.createCompositionLayer this os hwnd) c).composition.visuals
        (c.visualCount + 1) =
          some ⟨true, none, some (1, 1), [L.contentVisual, L.backgroundVisual]⟩ ∧
      ((MC.run (Compositor.createCompositionLayer this os hwnd) c).composition.visuals
        L.contentVisual).map Visual.relativeSizeAdjustment = some none := by
  have r := createCompositionLayer_succeeded this os hwnd c h hok
  have q := Compositor.createCompositionLayer_returned this os hwnd c h
  refine ⟨_, r.1, ?_, ?_, ?_, ?_⟩
  · simp [sizeAdjusted, q.1, Make_CompositionLayer]
  · simp [Make_CompositionLayer, r.2.2.2.1]
  · simp [Make_CompositionLayer, r.2.2.1]
  · simp [Make_CompositionLayer, r.2.1]

/-- C14, amended, at a concrete input: the first layer of a compositor, nothing failing. -/
theorem createCompositionLayer_size_adjustments_witness :
    ∃ L, (MC.run (Compositor.createCompositionLayer compositorA CompositorPlatform.allOk hwndA)
        Composition.empty).value = some L ∧
      sizeAdjusted (MC.run (Compositor.createCompositionLayer compositorA
        CompositorPlatform.allOk hwndA) Composition.empty).trace =
        [L.backgroundVisual, Composition.empty.visualCount + 1] ∧
      ((MC.run (Compositor.createCompositionLayer compositorA CompositorPlatform.allOk hwndA)
        Composition.empty).composition.visuals
        L.backgroundVisual).map Visual.relativeSizeAdjustment = some (some (1, 1)) ∧
      (MC.run (Compositor.createCompositionLayer compositorA CompositorPlatform.allOk hwndA)
        Composition.empty).composition.visuals (Composition.empty.visualCount + 1) =
          some ⟨true, none, some (1, 1), [L.contentVisual, L.backgroundVisual]⟩ ∧
      ((MC.run (Compositor.createCompositionLayer compositorA CompositorPlatform.allOk hwndA)
        Composition.empty).composition.visuals
        L.contentVisual).map Visual.relativeSizeAdjustment = some none :=
  createCompositionLayer_size_adjustments compositorA CompositorPlatform.allOk hwndA
    Composition.empty (by decide) (by decide)

/-! ## C15: the visual tree of a new layer -/

/-- C15: a `createCompositionLayer(hwnd)` call that returns has, as its last three platform
calls, inserted the content visual at the top and the background visual at the bottom of the
child collection of one container visual (calls 19 and 20 of 21) and made that container the root of the window's
composition target; the returned layer is constructed on that window with exactly these two
visuals as its background and content visual.  When every platform call succeeded, the
container's children are, topmost first, the content visual and the background visual, and
the container is the root of the target of `hwnd`. -/
theorem createCompositionLayer_visual_tree (this : Compositor) (os : CompositorPlatform)
    (hwnd : HWND) (c : Composition)
    (h : (MC.run (Compositor.createCompositionLayer this os hwnd) c).outcome =
      Outcome.returned) :
    ∃ L, (MC.run (Compositor.createCompositionLayer this os hwnd) c).value = some L ∧
      L.window = hwnd ∧
      L.contentVisual ≠ L.backgroundVisual ∧
      L.members.backgroundVisual_ =
        (MC.run (Compositor.createCompositionLayer this os hwnd) c).composition.spriteVisual
          L.backgroundVisual ∧
      L.members.contentVisual_ =
        (MC.run (Compositor.createCompositionLayer this os hwnd) c).composition.spriteVisual
          L.contentVisual ∧
      (compositorCalls
        (MC.run (Compositor.createCompositionLayer this os hwnd) c).trace).drop 18 =
        [CompositorCall.InsertAtTop (c.visualCount + 1) L.contentVisual,
         CompositorCall.InsertAtBottom (c.visualCount + 1) L.backgroundVisual,
         CompositorCall.put_Root hwnd (c.visualCount + 1)] ∧
      (MC.run (Compositor.createCompositionLayer this os hwnd) c).composition.hasTarget hwnd =
        true ∧
      (compositorAllSucceeded
          (MC.run (Compositor.createCompositionLayer this os hwnd) c).trace = true →
        (MC.run (Compositor.createCompositionLayer this os hwnd) c).composition.root hwnd =
          some (c.visualCount + 1) ∧
        ((MC.run (Compositor.createCompositionLayer this os hwnd) c).composition.visuals
          (c.visualCount + 1)).map Visual.children =
            some [L.contentVisual, L.backgroundVisual]) := by
  have q := Compositor.createCompositionLayer_returned this os hwnd c h
  refine ⟨_, q.2.2.1, rfl, ?_, rfl, rfl, ?_, q.2.2.2.2.2.2.2, ?_⟩
  · simp [Make_CompositionLayer]
  · rw [q.1]
    rfl
  · intro hok
    have r := createCompositionLayer_succeeded this os hwnd c h hok
    refine ⟨r.2.2.2.2.1, ?_⟩
    simp [Make_CompositionLayer, r.2.2.1]

/-- C15 at a concrete input: the first layer of a compositor, nothing failing. -/
theorem createCompositionLayer_visual_tree_witness :
    ∃ L, (MC.run (Compositor.createCompositionLayer compositorA CompositorPlatform.allOk hwndA)
        Composition.empty).value = some L ∧ L.window = hwndA ∧
      L.contentVisual ≠ L.backgroundVisual :=
  let ⟨L, h1, h2, h3, _⟩ := createCompositionLayer_visual_tree compositorA
    CompositorPlatform.allOk hwndA Composition.empty (by decide)
  ⟨L, h1, h2, h3⟩


/-- A layer returned by `createCompositionLayer` holds the brush that the compositor holds
in `backgroundBrush_`. -/
theorem createCompositionLayer_brush (this : Compositor) (os : CompositorPlatform) (hwnd : HWND)
    (c : Composition) (L : LayerObject)
    (h : (MC.run (Compositor.createCompositionLayer this os hwnd) c).value = some L) :
    L.members.backgroundBrush_ = this.backgroundBrush_ := by
  have hr : (MC.run (Compositor.createCompositionLayer this os hwnd) c).outcome =
      Outcome.returned :=
    (Compositor.createCompositionLayer_checks this os hwnd c).2.2.1.2 (by rw [h]; rfl)
  have q := (Compositor.createCompositionLayer_returned this os hwnd c hr).2.2.1
  rw [h] at q
  rw [Option.some.inj q]
  rfl

/-! ## C16: the shared backdrop brush -/

/-- C16: any two layers that one compositor returns from `createCompositionLayer`, for any
windows and on any platform behaviour, hold the same brush in `backgroundBrush_`, the one
the compositor holds.  No `present` call and no `setBlurBehind` call, whether it returns or
throws, changes the layer's `backgroundBrush_`; `present` leaves the background visual as
it is, and `setBlurBehind` changes nothing of the layer but the flag and the brush bound to
the background visual. -/
theorem backdrop_brush_shared_and_kept (this : Compositor) (os1 os2 : CompositorPlatform)
    (hwnd1 hwnd2 : HWND) (c1 c2 : Composition) (L1 L2 : LayerObject) (s : CompositionLayer)
    (os : Platform) (d : Device) (h : HANDLE) (w ht : Int) (e : Bool) :
    ((MC.run (Compositor.createCompositionLayer this os1 hwnd1) c1).value = some L1 →
      (MC.run (Compositor.createCompositionLayer this os2 hwnd2) c2).value = some L2 →
      L1.members.backgroundBrush_ = this.backgroundBrush_ ∧
      L2.members.backgroundBrush_ = L1.members.backgroundBrush_) ∧
    (M.run (present os d h w ht) s).layer.backgroundBrush_ = s.backgroundBrush_ ∧
    (M.run (present os d h w ht) s).layer.backgroundVisual_ = s.backgroundVisual_ ∧
    (M.run (setBlurBehind os e) s).layer.backgroundBrush_ = s.backgroundBrush_ ∧
    (M.run (setBlurBehind os e) s).layer.backgroundVisual_.size = s.backgroundVisual_.size ∧
    (M.run (setBlurBehind os e) s).layer.contentVisual_ = s.contentVisual_ ∧
    (M.run (setBlurBehind os e) s).layer.width_ = s.width_ ∧
    (M.run (setBlurBehind os e) s).layer.height_ = s.height_ ∧
    (M.run (setBlurBehind os e) s).layer.device_ = s.device_ ∧
    (M.run (setBlurBehind os e) s).layer.deviceContext_ = s.deviceContext_ ∧
    (M.run (setBlurBehind os e) s).layer.drawingSurfaceInterop_ = s.drawingSurfaceInterop_ := by
  refine ⟨fun h1 h2 => ?_, (present_frame s os d h w ht).1, (present_frame s os d h w ht).2.1,
    setBlurBehind_frame s os e⟩
  have b1 := createCompositionLayer_brush this os1 hwnd1 c1 L1 h1
  have b2 := createCompositionLayer_brush this os2 hwnd2 c2 L2 h2
  exact ⟨b1, b2.trans b1.symm⟩

/-- C16 at a concrete input: two layers of one compositor, the second made after the
first, for the same window handle value. -/
theorem backdrop_brush_shared_and_kept_witness :
    ∃ L1 L2 : LayerObject,
      L1.members.backgroundBrush_ = compositorA.backgroundBrush_ ∧
      L2.members.backgroundBrush_ = L1.members.backgroundBrush_ :=
  ⟨Make_CompositionLayer (MC.run (Compositor.createCompositionLayer compositorA
      CompositorPlatform.allOk hwndA) Composition.empty).composition hwndA Brush.backdrop 2 0,
   Make_CompositionLayer (MC.run (Compositor.createCompositionLayer compositorA
      CompositorPlatform.allOk hwndA) (MC.run (Compositor.createCompositionLayer compositorA
        CompositorPlatform.allOk hwndA) Composition.empty).composition).composition hwndA
      Brush.backdrop 5 3,
   (backdrop_brush_shared_and_kept compositorA CompositorPlatform.allOk
      CompositorPlatform.allOk hwndA hwndA Composition.empty
      (MC.run (Compositor.createCompositionLayer compositorA CompositorPlatform.allOk hwndA)
        Composition.empty).composition _ _ CompositionLayer.fresh Platform.allOk deviceA texA
      1 1 true).1 rfl rfl⟩

/-! ## C17: failures of createCompositionLayer -/

/-- C17: in every `createCompositionLayer(hwnd)` call a failed checked step (a resource
creation or an interface query) is the last call made; the call throws an exception that
carries the name and the status of that step and returns no layer, and the JNI entry point
returns 0 with a pending `RuntimeException` whose message is that name.  Whenever the entry
point returns, the handle is non-zero exactly when no checked step failed, and it does
return a non-zero handle when the platform succeeds on every call.  But the status of
`get_Children` is not checked: when all checked steps succeed and `get_Children` fails,
the null child collection is dereferenced, and the entry point neither returns a handle nor
raises an exception. -/
theorem createCompositionLayer_entry_point (os : CompositorPlatform) (this : Compositor)
    (c : Composition) (hwnd : HWND) :
    (∀ e ∈ (MC.run (Compositor.createCompositionLayer this os hwnd) c).trace,
      e.failedCheck = true →
      (MC.run (Compositor.createCompositionLayer this os hwnd) c).trace.getLast? = some e ∧
      (MC.run (Compositor.createCompositionLayer this os hwnd) c).value = none ∧
      ∃ hr, e.status = some hr ∧
        (MC.run (Compositor.createCompositionLayer this os hwnd) c).outcome =
          Outcome.threw ⟨e.call.name, hr⟩ ∧
        (Java_com_sun_glass_ui_win_WinCompositor__1createCompositionLayer os this c
          hwnd).outcome = Outcome.returned ∧
        (Java_com_sun_glass_ui_win_WinCompositor__1createCompositionLayer os this c
          hwnd).handle = none ∧
        (Java_com_sun_glass_ui_win_WinCompositor__1createCompositionLayer os this c
          hwnd).pending = some ⟨"java/lang/RuntimeException", e.call.name⟩) ∧
    ((Java_com_sun_glass_ui_win_WinCompositor__1createCompositionLayer os this c
        hwnd).outcome = Outcome.returned →
      ((Java_com_sun_glass_ui_win_WinCompositor__1createCompositionLayer os this c
        hwnd).handle.isSome = true ↔
       ∀ e ∈ (Java_com_sun_glass_ui_win_WinCompositor__1createCompositionLayer os this c
        hwnd).trace, e.failedCheck = false)) ∧
    ((∀ x, FAILED (os x) = false) →
      (Java_com_sun_glass_ui_win_WinCompositor__1createCompositionLayer os this c
        hwnd).outcome = Outcome.returned ∧
      (Java_com_sun_glass_ui_win_WinCompositor__1createCompositionLayer os this c
        hwnd).handle.isSome = true ∧
      (Java_com_sun_glass_ui_win_WinCompositor__1createCompositionLayer os this c
        hwnd).pending = none) ∧
    ((∀ e ∈ (MC.run (Compositor.createCompositionLayer this os hwnd) c).trace,
        e.failedCheck = false) →
      FAILED (os (CompositorCall.get_Children (c.visualCount + 1))) = true →
      (Java_com_sun_glass_ui_win_WinCompositor__1createCompositionLayer os this c
        hwnd).outcome = Outcome.nullDeref ∧
      (Java_com_sun_glass_ui_win_WinCompositor__1createCompositionLayer os this c
        hwnd).handle = none ∧
      (Java_com_sun_glass_ui_win_WinCompositor__1createCompositionLayer os this c
        hwnd).pending = none) := by
  have ck := Compositor.createCompositionLayer_checks this os hwnd c
  unfold Java_com_sun_glass_ui_win_WinCompositor__1createCompositionLayer
  generalize MC.run (Compositor.createCompositionLayer this os hwnd) c = r at ck ⊢
  rcases r with ⟨o, v, comp, t⟩
  obtain ⟨k1, k2, k3, k4⟩ := ck
  simp only at k1 k2 k3 k4
  refine ⟨?_, ?_, ?_, ?_⟩
  · intro e he hf
    obtain ⟨a, b, hr, hs, ho⟩ := k1 e he hf
    subst ho
    exact ⟨a, b, hr, hs, rfl, rfl, rfl, rfl⟩
  · rcases o with _ | ex | _
    · intro _
      constructor
      · intro _ e he
        by_contra hf
        have hf' : e.failedCheck = true := by simpa using hf
        obtain ⟨_, _, hr, _, ho⟩ := k1 e he hf'
        simp at ho
      · intro _
        exact k3.1 rfl
    · intro _
      constructor
      · intro hsome
        simp at hsome
      · intro hall
        exfalso
        rcases hg : FAILED (os (CompositorCall.get_Children (c.visualCount + 1))) with _ | _
        · have := (k2 hall).1 hg
          simp at this
        · have := ((k2 hall).2 hg).1
          simp at this
    · intro hret
      simp at hret
  · intro hall
    have hnf : ∀ e ∈ t, e.failedCheck = false := by
      intro e he
      have hs := k4 e he
      simp [CompositorEvent.failedCheck, hs, hall]
    have ho := (k2 hnf).1 (hall _)
    subst ho
    exact ⟨rfl, k3.1 rfl, rfl⟩
  · intro hnf hg
    have ho := ((k2 hnf).2 hg).1
    subst ho
    refine ⟨rfl, ?_, rfl⟩
    rcases hv : v with _ | L
    · rfl
    · have := k3.2 (by rw [hv]; rfl)
      simp at this

/-- C17 at a concrete input: `get_Children` of the container visual fails, everything else
succeeds; no checked step fails, and the entry point ends in a null dereference with no
handle and no Java exception. -/
theorem createCompositionLayer_entry_point_witness :
    (∀ e ∈ (MC.run (Compositor.createCompositionLayer compositorA osGetChildrenFails hwndA)
        Composition.empty).trace, e.failedCheck = false) ∧
    FAILED (osGetChildrenFails
      (CompositorCall.get_Children (Composition.empty.visualCount + 1))) = true ∧
    (Java_com_sun_glass_ui_win_WinCompositor__1createCompositionLayer osGetChildrenFails
        compositorA Composition.empty hwndA).outcome = Outcome.nullDeref ∧
    (Java_com_sun_glass_ui_win_WinCompositor__1createCompositionLayer osGetChildrenFails
        compositorA Composition.empty hwndA).handle = none ∧
    (Java_com_sun_glass_ui_win_WinCompositor__1createCompositionLayer osGetChildrenFails
        compositorA Composition.empty hwndA).pending = none :=
  ⟨by decide, by decide,
    (createCompositionLayer_entry_point osGetChildrenFails compositorA Composition.empty
      hwndA).2.2.2 (by decide) (by decide)⟩


/-! ## One call of tick -/

namespace Compositor

/-- The paths of `tick` when shutdown has not been requested: a failed checked call is the
last call made and is thrown, and `onTick` is not invoked; when no check fails the calls
are the interface query, the commit request, `put_Completed` and then `onTick`. -/
theorem tick_paths (this : Compositor) (os : CompositorPlatform) (c : Composition)
    (h : this.shutdownRequested_ = false) :
    (∀ e ∈ (MC.run (tick this os) c).trace, e.failedCheck = true →
      (MC.run (tick this os) c).trace.getLast? = some e ∧
      CompositorCall.CallVoidMethod_onTick ∉ compositorCalls (MC.run (tick this os) c).trace ∧
      ∃ hr, e.status = some hr ∧
        (MC.run (tick this os) c).outcome = Outcome.threw ⟨e.call.name, hr⟩) ∧
    ((∀ e ∈ (MC.run (tick this os) c).trace, e.failedCheck = false) →
      (MC.run (tick this os) c).outcome = Outcome.returned ∧
      compositorCalls (MC.run (tick this os) c).trace =
        [CompositorCall.Compositor_QueryInterface_ICompositor5,
         CompositorCall.RequestCommitAsync,
         CompositorCall.put_Completed,
         CompositorCall.CallVoidMethod_onTick]) := by
  unfold MC.run
  generalize hp : tick this os ⟨c, []⟩ = p
  simp only [tick, put_Completed, mc_RO_CHECKED_bind, mc_RO_CHECKED_apply, mc_bind_assoc,
    mc_pure_bind, mc_ite_bind, mc_ite_apply, mc_pure_apply, mc_getComposition_bind,
    mc_modifyComposition_bind, mc_modifyComposition_apply, mc_invoke_bind, mc_invokeVoid_bind,
    mc_invokeVoid_apply, mc_throwRo_apply, h, Bool.false_eq_true, if_false] at hp
  revert hp
  (repeat' (apply ite_imp <;> intro _)) <;>
  intro hp <;>
  subst hp <;>
  (simp [CompositorEvent.failedCheck, exitOutcomeOf, compositorCalls, CompositorCall.name, *]
    <;> simp_all)

/-- A `tick` call requests at most one commit, and leaves at most one more commit pending
than it found. -/
theorem tick_pending (this : Compositor) (os : CompositorPlatform) (c : Composition) :
    (compositorCalls (MC.run (tick this os) c).trace).count CompositorCall.RequestCommitAsync
      ≤ 1 ∧
    (MC.run (tick this os) c).composition.pendingCommits.length ≤
      c.pendingCommits.length + 1 := by
  unfold MC.run
  generalize hp : tick this os ⟨c, []⟩ = p
  rcases hsd : this.shutdownRequested_ with _ | _ <;>
  simp only [tick, put_Completed, mc_RO_CHECKED_bind, mc_RO_CHECKED_apply, mc_bind_assoc,
    mc_pure_bind, mc_ite_bind, mc_ite_apply, mc_pure_apply, mc_getComposition_bind,
    mc_modifyComposition_bind, mc_modifyComposition_apply, mc_invoke_bind, mc_invokeVoid_bind,
    mc_invokeVoid_apply, mc_throwRo_apply, hsd, Bool.false_eq_true, if_false, if_true] at hp <;>
  revert hp <;>
  (repeat' (apply ite_imp <;> intro _)) <;>
  intro hp <;>
  subst hp <;>
  simp [compositorCalls]
  all_goals (cases FAILED (os CompositorCall.put_Completed) <;> simp)

/-- The prologue of `run` requests at most one commit, and leaves at most one more commit
pending than it found. -/
theorem run_pending (os : CompositorPlatform) (observe : Nat → Bool)
    (getMessage : Nat → Option (Int × MSG)) (fuel : Nat) (c : Composition) :
    (compositorCalls (MC.run (run os observe getMessage fuel) c).trace).count
      CompositorCall.RequestCommitAsync ≤ 1 ∧
    (MC.run (run os observe getMessage fuel) c).composition.pendingCommits.length ≤
      c.pendingCommits.length + 1 ∧
    ((MC.run (run os observe getMessage fuel) c).outcome = Outcome.returned →
      (MC.run (run os observe getMessage fuel) c).value =
        some (messageLoop observe getMessage fuel 0 [])) := by
  unfold MC.run
  generalize hp : run os observe getMessage fuel ⟨c, []⟩ = p
  simp only [run, put_Completed, mc_RO_CHECKED_bind, mc_RO_CHECKED_apply, mc_bind_assoc,
    mc_pure_bind, mc_ite_bind, mc_ite_apply, mc_pure_apply, mc_getComposition_bind,
    mc_modifyComposition_bind, mc_modifyComposition_apply, mc_invoke_bind, mc_invokeVoid_bind,
    mc_invokeVoid_apply, mc_throwRo_apply] at hp
  revert hp
  (repeat' (apply ite_imp <;> intro _)) <;>
  intro hp <;>
  subst hp <;>
  simp [compositorCalls, exitOutcomeOf, exitValue]
  all_goals (cases FAILED (os CompositorCall.put_Completed) <;> simp)

end Compositor

/-- The completion of a pending commit leaves no more commits pending than before. -/
theorem complete_pending (c : Composition) (this : Compositor) (os : CompositorPlatform)
    (i : Nat) (h : i < c.pendingCommits.length) :
    (c.complete this os i).pendingCommits.length ≤ c.pendingCommits.length := by
  unfold Composition.complete
  have he : (c.pendingCommits.eraseIdx i).length + 1 = c.pendingCommits.length := by
    rw [List.length_eraseIdx, if_pos h]
    omega
  split
  · have t := (Compositor.tick_pending this os
      { c with pendingCommits := c.pendingCommits.eraseIdx i }).2
    simp only at t
    omega
  · simp only
    omega


/-! ## The message loop of run -/

namespace Compositor

/-- When the loop returns, the flag was read as set at some test, after it was read as
clear at every earlier test and a message was retrieved and dispatched after each of
those. -/
theorem messageLoop_returned (observe : Nat → Bool) (getMessage : Nat → Option (Int × MSG)) :
    ∀ (fuel i : Nat) (acc : List MSG),
      (messageLoop observe getMessage fuel i acc).exit = LoopExit.returned →
      ∃ n, n < fuel ∧ observe (i + n) = true ∧
        (∀ k, k < n → observe (i + k) = false ∧ (getMessage (i + k)).isSome = true) ∧
        (messageLoop observe getMessage fuel i acc).dispatched =
          acc ++ (List.range n).filterMap fun k => (getMessage (i + k)).map Prod.snd := by
  intro fuel
  induction fuel with
  | zero => intro i acc h; simp [messageLoop] at h
  | succ fuel ih =>
    intro i acc h
    unfold messageLoop at h ⊢
    by_cases ho : observe i = true
    · refine ⟨0, Nat.succ_pos _, by simpa using ho, fun k hk => absurd hk (Nat.not_lt_zero k), ?_⟩
      simp [ho]
    · rw [if_neg ho] at h ⊢
      rcases hg : getMessage i with _ | ⟨r, m⟩
      · rw [hg] at h; simp at h
      · rw [hg] at h
        simp only at h ⊢
        obtain ⟨n, hn, hon, hall, hd⟩ := ih (i + 1) (acc ++ [m]) h
        refine ⟨n + 1, Nat.succ_lt_succ hn, ?_, ?_, ?_⟩
        · rw [← hon]; congr 1; omega
        · intro k hk
          rcases k with _ | k
          · exact ⟨by simpa using ho, by simp [hg]⟩
          · have := hall k (by omega)
            have e : i + (k + 1) = i + 1 + k := by omega
            rw [e]; exact this
        · rw [hd, List.range_succ_eq_map, List.filterMap_cons, List.filterMap_map]
          have e : ((fun k => (getMessage (i + k)).map Prod.snd) ∘ Nat.succ) =
              fun k => (getMessage (i + 1 + k)).map Prod.snd := by
            funext k
            show (getMessage (i + (k + 1))).map Prod.snd = _
            rw [show i + (k + 1) = i + 1 + k by omega]
          simp [hg, e]

/-- When the flag is read as set at test `n`, as clear before, every earlier `GetMessage`
call retrieves a message and the loop may run for more than `n` iterations, the loop
returns, after dispatching `n` messages. -/
theorem messageLoop_returns (observe : Nat → Bool) (getMessage : Nat → Option (Int × MSG)) :
    ∀ (n fuel i : Nat) (acc : List MSG), n < fuel → observe (i + n) = true →
      (∀ k, k < n → observe (i + k) = false ∧ (getMessage (i + k)).isSome = true) →
      (messageLoop observe getMessage fuel i acc).exit = LoopExit.returned ∧
      (messageLoop observe getMessage fuel i acc).dispatched.length = acc.length + n := by
  intro n
  induction n with
  | zero =>
    intro fuel i acc hf ho _
    rcases fuel with _ | fuel
    · omega
    · unfold messageLoop
      simp only [Nat.add_zero] at ho
      simp [ho]
  | succ n ih =>
    intro fuel i acc hf ho hall
    rcases fuel with _ | fuel
    · omega
    · unfold messageLoop
      have h0 := hall 0 (Nat.succ_pos n)
      simp only [Nat.add_zero] at h0
      rcases hg : getMessage i with _ | ⟨r, m⟩
      · rw [hg] at h0; simp at h0
      · have hi := ih fuel (i + 1) (acc ++ [m]) (by omega)
          (by rw [← ho]; congr 1; omega)
          (fun k hk => by
            have := hall (k + 1) (by omega)
            rw [show i + 1 + k = i + (k + 1) by omega]
            exact this)
        simp only [h0.1, Bool.false_eq_true, if_false]
        refine ⟨hi.1, ?_⟩
        rw [hi.2, List.length_append, List.length_singleton]
        omega

/-- The result codes of `GetMessage` have no influence on the loop. -/
theorem messageLoop_ignores_codes (observe : Nat → Bool)
    (getMessage : Nat → Option (Int × MSG)) (code : Nat → Int → Int) :
    ∀ (fuel i : Nat) (acc : List MSG),
      messageLoop observe (fun j => (getMessage j).map fun p => (code j p.1, p.2)) fuel i acc =
        messageLoop observe getMessage fuel i acc := by
  intro fuel
  induction fuel with
  | zero => intro i acc; rfl
  | succ fuel ih =>
    intro i acc
    unfold messageLoop
    by_cases ho : observe i = true
    · simp [ho]
    · rw [if_neg ho, if_neg ho]
      rcases hg : getMessage i with _ | ⟨r, m⟩
      · simp
      · simp only [Option.map_some']
        exact ih (i + 1) (acc ++ [m])

end Compositor


/-! ## C18: the order of the calls of tick -/

/-- C18, as stated, fails: on a platform where every call succeeds, a `tick` call made
while shutdown has not been requested requests the next commit and puts the completion
handler on it before it invokes `onTick`; and on a platform where the commit request
fails, `onTick` is not invoked at all. -/
theorem tick_requests_commit_before_onTick :
    compositorA.shutdownRequested_ = false ∧
    compositorCalls (MC.run (Compositor.tick compositorA CompositorPlatform.allOk)
      Composition.empty).trace =
      [CompositorCall.Compositor_QueryInterface_ICompositor5,
       CompositorCall.RequestCommitAsync,
       CompositorCall.put_Completed,
       CompositorCall.CallVoidMethod_onTick] ∧
    compositorCalls (MC.run (Compositor.tick compositorA osCommitFails)
      Composition.empty).trace =
      [CompositorCall.Compositor_QueryInterface_ICompositor5,
       CompositorCall.RequestCommitAsync] := by
  decide

/-- C18, amended: a `tick` call made while shutdown has not been requested and in which no
checked call fails returns after exactly these calls, in this order: the interface query,
the request of the next commit, `put_Completed`, and one invocation of `onTick`.  When a
checked call fails, `tick` throws the exception of that call and does not invoke `onTick`.
When shutdown has been requested, `tick` makes no call. -/
theorem tick_call_order (this : Compositor) (os : CompositorPlatform) (c : Composition) :
    (this.shutdownRequested_ = false →
      ((∀ e ∈ (MC.run (Compositor.tick this os) c).trace, e.failedCheck = false) →
        (MC.run (Compositor.tick this os) c).outcome = Outcome.returned ∧
        compositorCalls (MC.run (Compositor.tick this os) c).trace =
          [CompositorCall.Compositor_QueryInterface_ICompositor5,
           CompositorCall.RequestCommitAsync,
           CompositorCall.put_Completed,
           CompositorCall.CallVoidMethod_onTick]) ∧
      (∀ e ∈ (MC.run (Compositor.tick this os) c).trace, e.failedCheck = true →
        CompositorCall.CallVoidMethod_onTick ∉
          compositorCalls (MC.run (Compositor.tick this os) c).trace ∧
        ∃ hr, e.status = some hr ∧
          (MC.run (Compositor.tick this os) c).outcome = Outcome.threw ⟨e.call.name, hr⟩)) ∧
    (this.shutdownRequested_ = true →
      (MC.run (Compositor.tick this os) c).trace = [] ∧
      (MC.run (Compositor.tick this os) c).outcome = Outcome.returned) := by
  constructor
  · intro h
    have p := Compositor.tick_paths this os c h
    exact ⟨p.2, fun e he hf => ⟨(p.1 e he hf).2.1, (p.1 e he hf).2.2⟩⟩
  · intro h
    unfold MC.run Compositor.tick
    rw [if_pos h]
    exact ⟨rfl, rfl⟩

/-- C18, amended, at a concrete input: shutdown not requested, nothing failing. -/
theorem tick_call_order_witness :
    compositorA.shutdownRequested_ = false ∧
    (MC.run (Compositor.tick compositorA CompositorPlatform.allOk)
      Composition.empty).outcome = Outcome.returned :=
  ⟨rfl, (((tick_call_order compositorA CompositorPlatform.allOk Composition.empty).1 rfl).1
    (by decide)).1⟩

/-! ## C19: at most one commit is pending -/

/-- C19: `run`, started when no commit is pending, requests at most one commit, and every
`tick` requests at most one; in every state reached from the one `run` enters its loop
with, by any sequence of shutdown requests and of commit completions (each of which runs
`tick`, on any platform behaviour, when the handler is on the commit), at most one
requested commit is pending. -/
theorem at_most_one_commit_pending (this : Compositor) (os : CompositorPlatform)
    (observe : Nat → Bool) (getMessage : Nat → Option (Int × Compositor.MSG)) (fuel : Nat)
    (c0 : Composition) (st : Compositor × Composition)
    (h0 : c0.pendingCommits = [])
    (hr : CompositorReach
      (this, (MC.run (Compositor.run os observe getMessage fuel) c0).composition) st) :
    st.2.pendingCommits.length ≤ 1 ∧
    (compositorCalls (MC.run (Compositor.run os observe getMessage fuel) c0).trace).count
      CompositorCall.RequestCommitAsync ≤ 1 ∧
    (∀ (t : Compositor) (p : CompositorPlatform) (c : Composition),
      (compositorCalls (MC.run (Compositor.tick t p) c).trace).count
        CompositorCall.RequestCommitAsync ≤ 1) := by
  have rp := Compositor.run_pending os observe getMessage fuel c0
  refine ⟨?_, rp.1, fun t p c => (Compositor.tick_pending t p c).1⟩
  induction hr with
  | start =>
    have := rp.2.1
    rw [h0] at this
    simpa using this
  | step _ hs ih =>
    cases hs with
    | shutdown t c => exact ih
    | completed t c p i hi =>
      exact le_trans (complete_pending c t p i hi) ih

/-- C19 at a concrete input: `run` on a platform where nothing fails, then the completion
of the requested commit. -/
theorem at_most_one_commit_pending_witness :
    (Composition.complete (MC.run (Compositor.run CompositorPlatform.allOk (fun _ => false)
      queueA 0) Composition.empty).composition compositorA CompositorPlatform.allOk
        0).pendingCommits.length ≤ 1 :=
  (at_most_one_commit_pending compositorA CompositorPlatform.allOk (fun _ => false) queueA 0
    Composition.empty
    (compositorA, Composition.complete (MC.run (Compositor.run CompositorPlatform.allOk
      (fun _ => false) queueA 0) Composition.empty).composition compositorA
        CompositorPlatform.allOk 0)
    rfl
    (CompositorReach.step CompositorReach.start
      (CompositorStep.completed compositorA _ CompositorPlatform.allOk 0 (by decide)))).1

/-! ## C20: how the message loop of run ends -/

/-- C20: a `run` call that returns has returned what its message loop returned.  When the
loop returns, the shutdown flag was read as set at one of its tests, after it was read as
clear at every earlier test and after each earlier `GetMessage` call retrieved a message
that was dispatched; the messages dispatched are exactly those.  The result codes of
`GetMessage` (a quit message, an error) change nothing.  When the first test reads the flag
as set, no message is dispatched.  Conversely the loop does return once a test reads the
flag as set, provided every `GetMessage` call before it retrieves a message. -/
theorem run_loop_ends_on_shutdown_flag (os : CompositorPlatform) (observe : Nat → Bool)
    (getMessage : Nat → Option (Int × Compositor.MSG)) (fuel : Nat) (c : Composition)
    (code : Nat → Int → Int) :
    ((MC.run (Compositor.run os observe getMessage fuel) c).outcome = Outcome.returned →
      (MC.run (Compositor.run os observe getMessage fuel) c).value =
        some (Compositor.messageLoop observe getMessage fuel 0 [])) ∧
    ((Compositor.messageLoop observe getMessage fuel 0 []).exit =
        Compositor.LoopExit.returned →
      ∃ n, n < fuel ∧ observe n = true ∧
        (∀ k, k < n → observe k = false ∧ (getMessage k).isSome = true) ∧
        (Compositor.messageLoop observe getMessage fuel 0 []).dispatched =
          (List.range n).filterMap fun k => (getMessage k).map Prod.snd) ∧
    Compositor.messageLoop observe
        (fun j => (getMessage j).map fun p => (code j p.1, p.2)) fuel 0 [] =
      Compositor.messageLoop observe getMessage fuel 0 [] ∧
    (observe 0 = true →
      Compositor.messageLoop observe getMessage (fuel + 1) 0 [] =
        ⟨Compositor.LoopExit.returned, []⟩) ∧
    (∀ n, n < fuel → observe n = true →
      (∀ k, k < n → observe k = false ∧ (getMessage k).isSome = true) →
      (Compositor.messageLoop observe getMessage fuel 0 []).exit =
        Compositor.LoopExit.returned ∧
      (Compositor.messageLoop observe getMessage fuel 0 []).dispatched.length = n) := by
  refine ⟨(Compositor.run_pending os observe getMessage fuel c).2.2, ?_,
    Compositor.messageLoop_ignores_codes observe getMessage code fuel 0 [], ?_, ?_⟩
  · intro h
    obtain ⟨n, hn, ho, hall, hd⟩ := Compositor.messageLoop_returned observe getMessage fuel 0 [] h
    refine ⟨n, hn, by simpa using ho, fun k hk => by simpa using hall k hk, ?_⟩
    simpa using hd
  · intro h
    unfold Compositor.messageLoop
    rw [if_pos h]
  · intro n hn ho hall
    have := Compositor.messageLoop_returns observe getMessage n fuel 0 [] hn
      (by simpa using ho) (fun k hk => by simpa using hall k hk)
    simpa using this

/-- C20 at a concrete input: the flag is read as set from the third test on; the two
messages retrieved before, the second with the result code of a quit message, are
dispatched, and then the loop returns. -/
theorem run_loop_ends_on_shutdown_flag_witness :
    (Compositor.messageLoop (fun i => decide (2 ≤ i)) queueA 5 0 []).exit =
        Compositor.LoopExit.returned ∧
      (Compositor.messageLoop (fun i => decide (2 ≤ i)) queueA 5 0 []).dispatched.length = 2 :=
  (run_loop_ends_on_shutdown_flag CompositorPlatform.allOk (fun i => decide (2 ≤ i)) queueA 5
    Composition.empty (fun _ r => r)).2.2.2.2 2 (by decide) (by decide)
    (fun k hk => by
      have hk' : k = 0 ∨ k = 1 := by omega
      rcases hk' with rfl | rfl <;> exact ⟨by decide, by decide⟩)


/-! ## C21: shutdown requested while the loop runs -/

/-- C21, as stated, fails: when the flag is set after the first test has read it as clear
and no message arrives any more, the loop does not return: run for 1000 passes, it is
still in its first `GetMessage` call, having dispatched nothing (the amended statement
shows this for any number of passes). -/
theorem run_blocks_when_no_message_arrives :
    Compositor.messageLoop (flagSetAfter 1) (fun _ => none) 1000 0 [] =
      ⟨Compositor.LoopExit.blocked, []⟩ := by
  rfl

/-- C21, amended: let the flag be set after `j` tests have read it as clear.  When each of
the `j` `GetMessage` calls made before the next test retrieves a message, the loop returns
at that test, having dispatched `j` messages, of which only the last one can have been
dispatched after the flag was set (every earlier one was followed by a test that read the
flag as clear).  When one of these `GetMessage` calls never retrieves a message, the loop
never returns. -/
theorem run_returns_after_next_message (j : Nat)
    (getMessage : Nat → Option (Int × Compositor.MSG)) :
    ((∀ k, k < j → (getMessage k).isSome = true) → ∀ fuel, j < fuel →
      (Compositor.messageLoop (flagSetAfter j) getMessage fuel 0 []).exit =
        Compositor.LoopExit.returned ∧
      (Compositor.messageLoop (flagSetAfter j) getMessage fuel 0 []).dispatched.length = j ∧
      (∀ k, k < j → flagSetAfter j k = false)) ∧
    (∀ k, k < j → getMessage k = none → ∀ fuel,
      (Compositor.messageLoop (flagSetAfter j) getMessage fuel 0 []).exit ≠
        Compositor.LoopExit.returned) := by
  have hclear : ∀ k, k < j → flagSetAfter j k = false := by
    intro k hk
    simp [flagSetAfter, hk]
  constructor
  · intro hall fuel hf
    have := Compositor.messageLoop_returns (flagSetAfter j) getMessage j fuel 0 [] hf
      (by simp [flagSetAfter])
      (fun k hk => by
        rw [Nat.zero_add]
        exact ⟨hclear k hk, hall k hk⟩)
    exact ⟨this.1, by simpa using this.2, hclear⟩
  · intro k hk hnone fuel hret
    obtain ⟨n, _, hn, hall, _⟩ :=
      Compositor.messageLoop_returned (flagSetAfter j) getMessage fuel 0 [] hret
    have hjn : j ≤ n := by simpa [flagSetAfter] using hn
    have := (hall k (lt_of_lt_of_le hk hjn)).2
    rw [Nat.zero_add, hnone] at this
    simp at this

/-- C21, amended, at a concrete input: the flag is set after two tests, and the two
messages waited for arrive. -/
theorem run_returns_after_next_message_witness :
    (Compositor.messageLoop (flagSetAfter 2) queueA 5 0 []).exit =
        Compositor.LoopExit.returned ∧
    (Compositor.messageLoop (flagSetAfter 2) queueA 5 0 []).dispatched.length = 2 :=
  ⟨((run_returns_after_next_message 2 queueA).1 (fun _ _ => rfl) 5 (by decide)).1,
   ((run_returns_after_next_message 2 queueA).1 (fun _ _ => rfl) 5 (by decide)).2.1⟩

/-! ## C22: completions after shutdown -/

/-- C22: a `tick` call that finds the shutdown flag set returns without any platform call
(so it neither invokes `onTick` nor requests a commit) and leaves the composition as it is.
Hence, from any state in which the flag is set, whatever shutdown requests and commit
completions follow, on any platform behaviour, the flag stays set, the log of platform
calls stays empty, and no commit is added to the pending ones. -/
theorem tick_after_shutdown_is_silent (this : Compositor) (os : CompositorPlatform)
    (c : Composition) (st : Compositor × Composition) (log : List CompositorEvent)
    (h : this.shutdownRequested_ = true) (hh : CompositorHistory (this, c) st log) :
    (MC.run (Compositor.tick this os) c).trace = [] ∧
    (MC.run (Compositor.tick this os) c).outcome = Outcome.returned ∧
    (MC.run (Compositor.tick this os) c).composition = c ∧
    st.1.shutdownRequested_ = true ∧
    log = [] ∧
    (compositorCalls log).count CompositorCall.CallVoidMethod_onTick = 0 ∧
    (compositorCalls log).count CompositorCall.RequestCommitAsync = 0 ∧
    st.2.pendingCommits.length ≤ c.pendingCommits.length := by
  have quiet : ∀ (t : Compositor) (p : CompositorPlatform) (d : Composition),
      t.shutdownRequested_ = true →
      (MC.run (Compositor.tick t p) d).trace = [] ∧
      (MC.run (Compositor.tick t p) d).outcome = Outcome.returned ∧
      (MC.run (Compositor.tick t p) d).composition = d := by
    intro t p d ht
    unfold MC.run Compositor.tick
    rw [if_pos ht]
    exact ⟨rfl, rfl, rfl⟩
  have key : st.1.shutdownRequested_ = true ∧ log = [] ∧
      st.2.pendingCommits.length ≤ c.pendingCommits.length := by
    induction hh with
    | start => exact ⟨h, rfl, le_refl _⟩
    | shutdown _ ih => exact ⟨rfl, ih.2.1, ih.2.2⟩
    | @completed t d l p i hi _ ih =>
      have ht : t.shutdownRequested_ = true := ih.1
      refine ⟨ht, ?_, le_trans (complete_pending d t p i hi) ih.2.2⟩
      rw [ih.2.1, List.nil_append]
      unfold Composition.completeLog
      split
      · exact (quiet t p _ ht).1
      · rfl
  obtain ⟨k1, k2, k3⟩ := key
  refine ⟨(quiet this os c h).1, (quiet this os c h).2.1, (quiet this os c h).2.2, k1, k2, ?_,
    ?_, k3⟩
  · rw [k2]; rfl
  · rw [k2]; rfl

/-- C22 at a concrete input: `run` on a platform where nothing fails, then a shutdown
request, then the completion of the pending commit. -/
theorem tick_after_shutdown_is_silent_witness :
    (compositorCalls (Composition.completeLog
      (MC.run (Compositor.run CompositorPlatform.allOk (fun _ => false) queueA 0)
        Composition.empty).composition
      { compositorA with shutdownRequested_ := true } CompositorPlatform.allOk 0)).count
        CompositorCall.CallVoidMethod_onTick = 0 :=
  (tick_after_shutdown_is_silent { compositorA with shutdownRequested_ := true }
    CompositorPlatform.allOk
    (MC.run (Compositor.run CompositorPlatform.allOk (fun _ => false) queueA 0)
      Composition.empty).composition
    _ _ rfl
    (CompositorHistory.completed CompositorPlatform.allOk 0 (by decide)
      CompositorHistory.start)).2.2.2.2.2.1

/-! ## C23: a present call after a failed one -/

/-- C23 fails on two inputs.  (1) On a new layer, `present(deviceA, texA, 800, 600)` with
`CreateGraphicsDevice` failing throws; the same call repeated on a platform where every
call succeeds finds `device_` already equal to the device, makes no rebuild call and
dereferences the null `drawingSurfaceInterop_`.  (2) With `Resize` failing instead, the
repeated call finds the cached size already 800x600, makes no resizing call and returns
with the surface still 0x0.  A first call with every platform call succeeding returns with
the surface of device A at 800x600. -/
theorem present_retry_skips_rebuild_and_resize :
    (M.run (present osGraphicsDeviceFails deviceA texA 800 600) CompositionLayer.fresh).outcome
      = Outcome.threw ⟨"ICompositorInterop::CreateGraphicsDevice", E_FAIL⟩ ∧
    rebuildCalls (M.run (present Platform.allOk deviceA texA 800 600)
      (M.run (present osGraphicsDeviceFails deviceA texA 800 600)
        CompositionLayer.fresh).layer).trace = [] ∧
    (M.run (present Platform.allOk deviceA texA 800 600)
      (M.run (present osGraphicsDeviceFails deviceA texA 800 600)
        CompositionLayer.fresh).layer).outcome = Outcome.nullDeref ∧
    (M.run (present Platform.allOk deviceA texA 800 600)
      (M.run (present osGraphicsDeviceFails deviceA texA 800 600)
        CompositionLayer.fresh).layer).layer.drawingSurfaceInterop_ = none ∧
    (M.run (present osResizeFails deviceA texA 800 600) CompositionLayer.fresh).outcome
      = Outcome.threw ⟨"ICompositionDrawingSurfaceInterop::Resize", E_FAIL⟩ ∧
    resizeCalls (M.run (present Platform.allOk deviceA texA 800 600)
      (M.run (present osResizeFails deviceA texA 800 600)
        CompositionLayer.fresh).layer).trace = [] ∧
    (M.run (present Platform.allOk deviceA texA 800 600)
      (M.run (present osResizeFails deviceA texA 800 600)
        CompositionLayer.fresh).layer).outcome = Outcome.returned ∧
    (M.run (present Platform.allOk deviceA texA 800 600)
      (M.run (present osResizeFails deviceA texA 800 600)
        CompositionLayer.fresh).layer).layer.drawingSurfaceInterop_ = some ⟨deviceA, 0, 0⟩ ∧
    (M.run (present Platform.allOk deviceA texA 800 600) CompositionLayer.fresh).outcome
      = Outcome.returned ∧
    (M.run (present Platform.allOk deviceA texA 800 600)
      CompositionLayer.fresh).layer.drawingSurfaceInterop_ = some ⟨deviceA, 800, 600⟩ := by
  decide

/-! ## C7: the draw session of a present call in which all platform steps succeed -/

/-- C7 (fails on the code): on the layer left by a `present(deviceA, texA, 800, 600)` whose
`CreateGraphicsDevice` failed, a `present(deviceA, texA, 800, 600)` on a platform where no
call fails makes two platform calls, the interface query and the `put_Size` of the content
visual, which both succeed, and then dereferences the null `drawingSurfaceInterop_` at
`Resize`: it makes none of `BeginDraw`, `OpenSharedResource`, `CopySubresourceRegion`,
`EndDraw`.  On a new layer the two calls of the scenario, on the same platform, return and
make the four calls in order, the second without rebuild call and without resizing
call. -/
theorem present_all_steps_succeed_without_draw :
    (∀ c, FAILED (Platform.allOk c) = false) ∧
    (M.run (present osGraphicsDeviceFails deviceA texA 800 600) CompositionLayer.fresh).outcome
      = Outcome.threw ⟨"ICompositorInterop::CreateGraphicsDevice", E_FAIL⟩ ∧
    (M.run (present Platform.allOk deviceA texA 800 600)
      (M.run (present osGraphicsDeviceFails deviceA texA 800 600)
        CompositionLayer.fresh).layer).trace =
      [⟨Call.contentVisual_QueryInterface_IVisual, some S_OK, true⟩,
        ⟨Call.put_Size 800 600, some S_OK, false⟩] ∧
    allSucceeded (M.run (present Platform.allOk deviceA texA 800 600)
      (M.run (present osGraphicsDeviceFails deviceA texA 800 600)
        CompositionLayer.fresh).layer).trace = true ∧
    (M.run (present Platform.allOk deviceA texA 800 600)
      (M.run (present osGraphicsDeviceFails deviceA texA 800 600)
        CompositionLayer.fresh).layer).outcome = Outcome.nullDeref ∧
    drawCalls (M.run (present Platform.allOk deviceA texA 800 600)
      (M.run (present osGraphicsDeviceFails deviceA texA 800 600)
        CompositionLayer.fresh).layer).trace = [] ∧
    (M.run (present Platform.allOk deviceA texA 800 600) CompositionLayer.fresh).outcome
      = Outcome.returned ∧
    drawCalls (M.run (present Platform.allOk deviceA texA 800 600)
      CompositionLayer.fresh).trace =
        [Call.BeginDraw, Call.OpenSharedResource deviceA texA, Call.CopySubresourceRegion,
          Call.EndDraw] ∧
    (M.run (present Platform.allOk deviceA texA 800 600)
      (M.run (present Platform.allOk deviceA texA 800 600)
        CompositionLayer.fresh).layer).outcome = Outcome.returned ∧
    rebuildCalls (M.run (present Platform.allOk deviceA texA 800 600)
      (M.run (present Platform.allOk deviceA texA 800 600)
        CompositionLayer.fresh).layer).trace = [] ∧
    resizeCalls (M.run (present Platform.allOk deviceA texA 800 600)
      (M.run (present Platform.allOk deviceA texA 800 600)
        CompositionLayer.fresh).layer).trace = [] ∧
    drawCalls (M.run (present Platform.allOk deviceA texA 800 600)
      (M.run (present Platform.allOk deviceA texA 800 600)
        CompositionLayer.fresh).layer).trace =
        [Call.BeginDraw, Call.OpenSharedResource deviceA texA, Call.CopySubresourceRegion,
          Call.EndDraw] :=
  ⟨fun _ => rfl, by decide⟩

/-! ## C26: the blur flag and the brush last put on the background visual -/

/-- C26 fails for the brush bound to the background visual when `put_Brush` fails.  On a
new layer (flag false, white colour brush bound), `setBlurBehind(true)` with `put_Brush`
failing returns normally with the flag true and the white colour brush still bound, not
the shared brush.  On the blurred layer (flag true, shared brush bound),
`setBlurBehind(false)` with `put_Brush` failing returns normally with the flag false and
the shared brush still bound. -/
theorem blur_flag_differs_from_bound_brush :
    CompositionLayer.fresh.blurBehind_ = false ∧
    CompositionLayer.fresh.backgroundVisual_.brush = some (Brush.color 255 255 255 255) ∧
    CompositionLayer.fresh.backgroundBrush_ = Brush.backdrop ∧
    (M.run (setBlurBehind osPutBrushFails true) CompositionLayer.fresh).outcome =
      Outcome.returned ∧
    (M.run (setBlurBehind osPutBrushFails true) CompositionLayer.fresh).layer.blurBehind_ =
      true ∧
    (M.run (setBlurBehind osPutBrushFails true)
      CompositionLayer.fresh).layer.backgroundVisual_.brush =
        some (Brush.color 255 255 255 255) ∧
    (M.run (setBlurBehind osPutBrushFails true)
      CompositionLayer.fresh).layer.backgroundBrush_ = Brush.backdrop ∧
    ¬ ((M.run (setBlurBehind osPutBrushFails true) CompositionLayer.fresh).layer.blurBehind_ =
        true ↔
      (M.run (setBlurBehind osPutBrushFails true)
        CompositionLayer.fresh).layer.backgroundVisual_.brush =
        some (M.run (setBlurBehind osPutBrushFails true)
          CompositionLayer.fresh).layer.backgroundBrush_) ∧
    blurredLayer.blurBehind_ = true ∧
    blurredLayer.backgroundVisual_.brush = some blurredLayer.backgroundBrush_ ∧
    (M.run (setBlurBehind osWhiteBrushPutFails false) blurredLayer).outcome =
      Outcome.returned ∧
    (M.run (setBlurBehind osWhiteBrushPutFails false) blurredLayer).layer.blurBehind_ =
      false ∧
    (M.run (setBlurBehind osWhiteBrushPutFails false)
      blurredLayer).layer.backgroundVisual_.brush =
        some (M.run (setBlurBehind osWhiteBrushPutFails false)
          blurredLayer).layer.backgroundBrush_ := by
  decide

/-- C26 (amended): let `recent` be the brush most recently passed to `put_Brush` on the
background visual of a layer whose shared brush is not the white colour brush, and let the
blur flag be true exactly when `recent` is the shared brush.  After any `setBlurBehind(e)`
call, on any platform behaviour, the flag is again true exactly when the brush most
recently passed to `put_Brush` (the last one of the call, or `recent` when the call made
no `put_Brush`) is the shared brush.  A call that throws has made no `put_Brush` and leaves
the whole layer, flag included, as it was.  A layer returned by `createCompositionLayer`
has the flag false, and the one brush put on its background visual is the white colour
brush.  When every platform call of the `setBlurBehind` call succeeds, the same holds of
the brush bound to the visual.  When the flag differs from `e` and the `put_Brush` of the
call fails, a call that returns has set the flag to `e` and left the bound brush as it
was. -/
theorem blur_flag_matches_last_put (s : CompositionLayer) (os : Platform) (e : Bool)
    (recent : Brush) (this : Compositor) (osC : CompositorPlatform) (hwnd : HWND)
    (c : Composition)
    (hd : s.backgroundBrush_ ≠ Brush.color 255 255 255 255) :
    ((s.blurBehind_ = true ↔ recent = s.backgroundBrush_) →
      ((M.run (setBlurBehind os e) s).layer.blurBehind_ = true ↔
        (lastPut (M.run (setBlurBehind os e) s).trace).getD recent =
          (M.run (setBlurBehind os e) s).layer.backgroundBrush_)) ∧
    (∀ ex, (M.run (setBlurBehind os e) s).outcome = Outcome.threw ex →
      (M.run (setBlurBehind os e) s).layer = s ∧
      lastPut (M.run (setBlurBehind os e) s).trace = none) ∧
    ((MC.run (Compositor.createCompositionLayer this osC hwnd) c).outcome = Outcome.returned →
      ∃ L, (MC.run (Compositor.createCompositionLayer this osC hwnd) c).value = some L ∧
        L.members.blurBehind_ = false ∧
        brushesPut L.backgroundVisual
          (MC.run (Compositor.createCompositionLayer this osC hwnd) c).trace =
            [Brush.color 255 255 255 255]) ∧
    (allSucceeded (M.run (setBlurBehind os e) s).trace = true →
      (s.blurBehind_ = true ↔ s.backgroundVisual_.brush = some s.backgroundBrush_) →
      ((M.run (setBlurBehind os e) s).layer.blurBehind_ = true ↔
        (M.run (setBlurBehind os e) s).layer.backgroundVisual_.brush =
          some (M.run (setBlurBehind os e) s).layer.backgroundBrush_)) ∧
    (s.blurBehind_ ≠ e →
      FAILED (os (Call.backgroundVisual_put_Brush
        (bif e then s.backgroundBrush_ else Brush.color 255 255 255 255))) = true →
      (M.run (setBlurBehind os e) s).outcome = Outcome.returned →
      (M.run (setBlurBehind os e) s).layer.blurBehind_ = e ∧
      (M.run (setBlurBehind os e) s).layer.backgroundVisual_.brush =
        s.backgroundVisual_.brush ∧
      (M.run (setBlurBehind os e) s).layer.backgroundBrush_ = s.backgroundBrush_) := by
  have hd' : Brush.color 255 255 255 255 ≠ s.backgroundBrush_ := fun h => hd h.symm
  refine ⟨?_, ?_, ?_, ?_, ?_⟩
  · intro hinv
    by_cases h : s.blurBehind_ = e
    · rw [setBlurBehind_same s os e h]
      simpa [lastPut] using hinv
    · cases e
      · have hb : s.blurBehind_ = true := by simpa using h
        rw [setBlurBehind_disable s os hb]
        have hr : recent = s.backgroundBrush_ := hinv.1 hb
        by_cases c1 : FAILED (os (Call.CreateColorBrushWithColor 255 255 255 255)) = true
        · simp [c1, lastPut, hb, hr]
        · by_cases c2 : FAILED (os Call.ColorBrush_QueryInterface_ICompositionBrush) = true
          · simp [c1, c2, lastPut, hb, hr]
          · simp [c1, c2, lastPut, hd']
      · have hb : s.blurBehind_ = false := by simpa using h
        rw [setBlurBehind_enable s os hb]
        simp [lastPut]
  · intro ex hex
    by_cases h : s.blurBehind_ = e
    · rw [setBlurBehind_same s os e h] at hex
      simp at hex
    · cases e
      · have hb : s.blurBehind_ = true := by simpa using h
        rw [setBlurBehind_disable s os hb] at hex ⊢
        by_cases c1 : FAILED (os (Call.CreateColorBrushWithColor 255 255 255 255)) = true
        · simp [c1, lastPut]
        · by_cases c2 : FAILED (os Call.ColorBrush_QueryInterface_ICompositionBrush) = true
          · simp [c1, c2, lastPut]
          · simp [c1, c2] at hex
      · have hb : s.blurBehind_ = false := by simpa using h
        rw [setBlurBehind_enable s os hb] at hex
        simp at hex
  · intro hret
    have q := Compositor.createCompositionLayer_returned this osC hwnd c hret
    refine ⟨_, q.2.2.1, rfl, ?_⟩
    simp [brushesPut, q.1, Make_CompositionLayer]
  · intro hok hinv
    by_cases h : s.blurBehind_ = e
    · rw [setBlurBehind_same s os e h]
      exact hinv
    · cases e
      · have hb : s.blurBehind_ = true := by simpa using h
        rw [setBlurBehind_disable s os hb] at hok ⊢
        by_cases c1 : FAILED (os (Call.CreateColorBrushWithColor 255 255 255 255)) = true
        · simp [c1, allSucceeded] at hok
        · by_cases c2 : FAILED (os Call.ColorBrush_QueryInterface_ICompositionBrush) = true
          · simp [c1, c2, allSucceeded] at hok
          · rw [if_neg c1, if_neg c2] at hok ⊢
            simp only [allSucceeded, List.all_cons, List.all_nil, Bool.and_true,
              Bool.and_eq_true, Bool.not_eq_true'] at hok
            simp [hok.2.2, hd']
      · have hb : s.blurBehind_ = false := by simpa using h
        rw [setBlurBehind_enable s os hb] at hok ⊢
        simp only [allSucceeded, List.all_cons, List.all_nil, Bool.and_true,
          Bool.not_eq_true'] at hok
        simp [hok]
  · intro h hfail hret
    cases e
    · have hb : s.blurBehind_ = true := by simpa using h
      simp only [cond_false] at hfail
      rw [setBlurBehind_disable s os hb] at hret ⊢
      by_cases c1 : FAILED (os (Call.CreateColorBrushWithColor 255 255 255 255)) = true
      · simp [c1] at hret
      · by_cases c2 : FAILED (os Call.ColorBrush_QueryInterface_ICompositionBrush) = true
        · simp [c1, c2] at hret
        · rw [if_neg c1, if_neg c2]
          simp [hfail]
    · have hb : s.blurBehind_ = false := by simpa using h
      simp only [cond_true] at hfail
      rw [setBlurBehind_enable s os hb]
      simp [hfail]


/-- C26 (amended) at concrete inputs: enabling the blur of a new layer, whose last brush
put is the white colour brush, on a platform where no call fails, and on the platform
where `put_Brush` of the shared brush fails. -/
theorem blur_flag_matches_last_put_witness :
    CompositionLayer.fresh.backgroundBrush_ ≠ Brush.color 255 255 255 255 ∧
    (CompositionLayer.fresh.blurBehind_ = true ↔
      Brush.color 255 255 255 255 = CompositionLayer.fresh.backgroundBrush_) ∧
    ((M.run (setBlurBehind Platform.allOk true) CompositionLayer.fresh).layer.blurBehind_ = true ↔
      (lastPut (M.run (setBlurBehind Platform.allOk true) CompositionLayer.fresh).trace).getD
        (Brush.color 255 255 255 255) =
        (M.run (setBlurBehind Platform.allOk true)
          CompositionLayer.fresh).layer.backgroundBrush_) ∧
    ((M.run (setBlurBehind osPutBrushFails true) CompositionLayer.fresh).layer.blurBehind_ =
        true ∧
      (M.run (setBlurBehind osPutBrushFails true)
        CompositionLayer.fresh).layer.backgroundVisual_.brush =
          CompositionLayer.fresh.backgroundVisual_.brush ∧
      (M.run (setBlurBehind osPutBrushFails true)
        CompositionLayer.fresh).layer.backgroundBrush_ =
          CompositionLayer.fresh.backgroundBrush_) :=
  ⟨by decide, by decide,
    (blur_flag_matches_last_put CompositionLayer.fresh Platform.allOk true
      (Brush.color 255 255 255 255) compositorA CompositorPlatform.allOk hwndA
      Composition.empty (by decide)).1 (by decide),
    (blur_flag_matches_last_put CompositionLayer.fresh osPutBrushFails true
      (Brush.color 255 255 255 255) compositorA CompositorPlatform.allOk hwndA
      Composition.empty (by decide)).2.2.2.2 (by decide) (by decide) (by decide)⟩

/-! ## C27: the index checks of the two effects -/

/-- C27: for both effect classes and every index `i`, `GetProperty(i)` returns `S_OK` if
`i` is less than the count stored by `GetPropertyCount` (3 for the blur, 1 for the
saturation effect) and `E_INVALIDARG` otherwise, and `GetSource(i)` returns `S_OK` if `i`
is less than the count stored by `GetSourceCount` (1 for both) and `E_INVALIDARG`
otherwise, whether or not the output pointer of `GetSource` is null. -/
theorem effect_index_checks (b : GaussianBlurEffect) (s : SaturationEffect) (i : Nat)
    (p : Bool) :
    b.GetPropertyCount true = (S_OK, some 3) ∧
    ((b.GetProperty i).1 = S_OK ↔ i < 3) ∧
    (¬ i < 3 → (b.GetProperty i).1 = E_INVALIDARG) ∧
    b.GetSourceCount true = (S_OK, some 1) ∧
    ((b.GetSource i p).1 = S_OK ↔ i < 1) ∧
    (¬ i < 1 → (b.GetSource i p).1 = E_INVALIDARG) ∧
    s.GetPropertyCount true = (S_OK, some 1) ∧
    ((s.GetProperty i).1 = S_OK ↔ i < 1) ∧
    (¬ i < 1 → (s.GetProperty i).1 = E_INVALIDARG) ∧
    s.GetSourceCount true = (S_OK, some 1) ∧
    ((s.GetSource i p).1 = S_OK ↔ i < 1) ∧
    (¬ i < 1 → (s.GetSource i p).1 = E_INVALIDARG) := by
  have hne : E_INVALIDARG ≠ S_OK := by decide
  refine ⟨rfl, ?_, ?_, rfl, ?_, ?_, rfl, ?_, ?_, rfl, ?_, ?_⟩
  · rcases i with _ | _ | _ | i
    · simp [GaussianBlurEffect.GetProperty, D2D1_GAUSSIANBLUR_PROP_STANDARD_DEVIATION]
    · simp [GaussianBlurEffect.GetProperty, D2D1_GAUSSIANBLUR_PROP_STANDARD_DEVIATION,
        D2D1_GAUSSIANBLUR_PROP_OPTIMIZATION]
    · simp [GaussianBlurEffect.GetProperty, D2D1_GAUSSIANBLUR_PROP_STANDARD_DEVIATION,
        D2D1_GAUSSIANBLUR_PROP_OPTIMIZATION, D2D1_GAUSSIANBLUR_PROP_BORDER_MODE]
    · simp [GaussianBlurEffect.GetProperty, D2D1_GAUSSIANBLUR_PROP_STANDARD_DEVIATION,
        D2D1_GAUSSIANBLUR_PROP_OPTIMIZATION, D2D1_GAUSSIANBLUR_PROP_BORDER_MODE, hne]
  · intro h
    have h3 : 3 ≤ i := Nat.le_of_not_lt h
    have e0 : i ≠ 0 := by omega
    have e1 : i ≠ 1 := by omega
    have e2 : i ≠ 2 := by omega
    simp [GaussianBlurEffect.GetProperty, D2D1_GAUSSIANBLUR_PROP_STANDARD_DEVIATION,
      D2D1_GAUSSIANBLUR_PROP_OPTIMIZATION, D2D1_GAUSSIANBLUR_PROP_BORDER_MODE, e0, e1, e2]
  · rcases i with _ | i
    · simp [GaussianBlurEffect.GetSource]
    · simp [GaussianBlurEffect.GetSource, hne]
  · intro h
    have h1 : 1 ≤ i := Nat.le_of_not_lt h
    simp [GaussianBlurEffect.GetSource, h1]
  · rcases i with _ | i
    · simp [SaturationEffect.GetProperty, D2D1_SATURATION_PROP_SATURATION]
    · simp [SaturationEffect.GetProperty, D2D1_SATURATION_PROP_SATURATION, hne]
  · intro h
    have e0 : i ≠ 0 := by omega
    simp [SaturationEffect.GetProperty, D2D1_SATURATION_PROP_SATURATION, e0]
  · rcases i with _ | i
    · simp [SaturationEffect.GetSource]
    · simp [SaturationEffect.GetSource, hne]
  · intro h
    have h1 : 1 ≤ i := Nat.le_of_not_lt h
    simp [SaturationEffect.GetSource, h1]

/-- C27 at a concrete input: index 3 of the blur effect is rejected. -/
theorem effect_index_checks_witness :
    (GaussianBlurEffect.GetProperty ⟨IGraphicsEffectSource.parameter "backdrop"⟩ 3).1 =
      E_INVALIDARG :=
  (effect_index_checks ⟨IGraphicsEffectSource.parameter "backdrop"⟩
    ⟨IGraphicsEffectSource.parameter "backdrop"⟩ 3 true).2.2.1 (by decide)

/-! ## C24: the effect graph made by the constructor -/

/-- A checked call of the constructor followed by the rest of the constructor. -/
theorem createChecked_bind {α : Type} (os : ConstructorPlatform) (n : String)
    (c : ConstructorCall) (f : Unit → Except RoException α) :
    (Compositor.createChecked os n c >>= f) =
      if FAILED (os c) = true then Except.error ⟨n, os c⟩ else f () := by
  unfold Compositor.createChecked
  split <;> rfl

/-- The constructor returns only by its last statement: the objects it leaves are fixed. -/
theorem create_ok (os : ConstructorPlatform) (r : ConstructedCompositor)
    (h : Compositor.create os = Except.ok r) :
    r = ⟨⟨false, Brush.backdrop⟩, ⟨IGraphicsEffectSource.parameter "backdrop"⟩,
      ⟨IGraphicsEffectSource.gaussianBlur (IGraphicsEffectSource.parameter "backdrop")⟩,
      ⟨IGraphicsEffectSource.saturation
        (IGraphicsEffectSource.gaussianBlur (IGraphicsEffectSource.parameter "backdrop")),
       [("backdrop", CompositionBackdropBrush.mk)]⟩⟩ := by
  unfold Compositor.create at h
  simp only [createChecked_bind] at h
  revert h
  repeat' (apply ite_imp <;> intro _)
  all_goals intro h
  all_goals first
    | (cases h; rfl)
    | (exact absurd h (by simp))

/-- C24: whenever the constructor returns, the effects it has made answer the platform as a
two-stage chain: the saturation effect reports one source, and `GetSource(0)` gives the
blur effect; the blur effect reports one source, and `GetSource(0)` gives the effect source
parameter named "backdrop"; any other source index is refused; property 0 of the blur
effect (the standard deviation) is the `FLOAT` 30 on every query.  The brush kept in
`backgroundBrush_` is the one made by the factory of the saturation effect, with the
parameter "backdrop" bound to the brush made by `CreateBackdropBrush`.  On a platform where
every call succeeds the constructor does return. -/
theorem constructor_effect_graph (os : ConstructorPlatform) (r : ConstructedCompositor)
    (i : Nat) (h : Compositor.create os = Except.ok r) :
    r.saturationEffect.GetSourceCount true = (S_OK, some 1) ∧
    r.saturationEffect.GetSource 0 true = (S_OK, some r.blurEffect.asSource) ∧
    r.blurEffect.GetSourceCount true = (S_OK, some 1) ∧
    r.blurEffect.GetSource 0 true = (S_OK, some (IGraphicsEffectSource.parameter "backdrop")) ∧
    (0 < i → r.saturationEffect.GetSource i true = (E_INVALIDARG, none) ∧
      r.blurEffect.GetSource i true = (E_INVALIDARG, none)) ∧
    r.blurEffect.GetProperty D2D1_GAUSSIANBLUR_PROP_STANDARD_DEVIATION =
      (S_OK, some (PropertyValueImpl.single 30)) ∧
    D2D1_GAUSSIANBLUR_PROP_STANDARD_DEVIATION = 0 ∧
    r.backgroundBrush =
      ⟨r.saturationEffect.asSource, [("backdrop", CompositionBackdropBrush.mk)]⟩ ∧
    r.object = ⟨false, Brush.backdrop⟩ ∧
    (∃ r0, Compositor.create ConstructorPlatform.allOk = Except.ok r0) := by
  have hr := create_ok os r h
  subst hr
  refine ⟨rfl, rfl, rfl, rfl, ?_, rfl, rfl, rfl, rfl, ⟨_, rfl⟩⟩
  intro hi
  have h1 : i ≥ 1 := hi
  simp [SaturationEffect.GetSource, GaussianBlurEffect.GetSource, h1]

/-- C24 at a concrete input: the constructor on a platform where every call succeeds. -/
theorem constructor_effect_graph_witness :
    Compositor.create ConstructorPlatform.allOk =
      Except.ok ⟨⟨false, Brush.backdrop⟩, ⟨IGraphicsEffectSource.parameter "backdrop"⟩,
        ⟨IGraphicsEffectSource.gaussianBlur (IGraphicsEffectSource.parameter "backdrop")⟩,
        ⟨IGraphicsEffectSource.saturation
          (IGraphicsEffectSource.gaussianBlur (IGraphicsEffectSource.parameter "backdrop")),
         [("backdrop", CompositionBackdropBrush.mk)]⟩⟩ ∧
    SaturationEffect.GetSource
        ⟨IGraphicsEffectSource.gaussianBlur (IGraphicsEffectSource.parameter "backdrop")⟩ 0
        true =
      (S_OK, some (GaussianBlurEffect.asSource ⟨IGraphicsEffectSource.parameter "backdrop"⟩)) :=
  ⟨rfl, (constructor_effect_graph ConstructorPlatform.allOk
    ⟨⟨false, Brush.backdrop⟩, ⟨IGraphicsEffectSource.parameter "backdrop"⟩,
      ⟨IGraphicsEffectSource.gaussianBlur (IGraphicsEffectSource.parameter "backdrop")⟩,
      ⟨IGraphicsEffectSource.saturation
        (IGraphicsEffectSource.gaussianBlur (IGraphicsEffectSource.parameter "backdrop")),
       [("backdrop", CompositionBackdropBrush.mk)]⟩⟩ 0 rfl).2.1⟩

end Glass

namespace Libxml

/-! ## Stores and memory -/

/-- The loop of `xmlSerializeHexCharRef` stores the hexadecimal digits of `val`, the least
significant first, at descending positions; the bound `val` is never reached. -/
theorem hexDigitStores_eq (fuel : Nat) : ∀ (ptr n : Nat), n ≤ fuel →
    hexDigitStores fuel ptr n = storesDown ptr (Nat.digits 16 n) := by
  induction fuel with
  | zero =>
    intro ptr n hn
    have : n = 0 := by omega
    subst this
    simp [hexDigitStores, storesDown]
  | succ fuel ih =>
    intro ptr n hn
    unfold hexDigitStores
    by_cases h0 : n > 0
    · rw [if_pos h0, Nat.digits_def' (by norm_num) h0]
      simp only [storesDown]
      rw [ih (ptr - 1) (n / 16) (by omega)]
    · have : n = 0 := by omega
      subst this
      simp [storesDown]

/-- The source's digit table gives the uppercase hexadecimal digit. -/
theorem hexDigit_eq_upper (d : Nat) (h : d < 16) : hexDigit d = upperHexSpec d := by
  interval_cases d <;> rfl

/-- The number of hexadecimal digits of a value, by the ranges tested in the source. -/
theorem digits_length_ranges (n : Nat) (h1 : 1 ≤ n) (h2 : n ≤ 0x10FFFF) :
    (Nat.digits 16 n).length =
      if n < 0x10 then 1 else if n < 0x100 then 2 else if n < 0x1000 then 3
      else if n < 0x10000 then 4 else if n < 0x100000 then 5 else 6 := by
  have hA : n < 16 ^ (Nat.digits 16 n).length := Nat.lt_base_pow_length_digits (by norm_num)
  have hB : 16 ^ (Nat.digits 16 n).length ≤ 16 * n :=
    Nat.base_pow_length_digits_le 16 n (by norm_num) (by omega)
  generalize (Nat.digits 16 n).length = L at hA hB ⊢
  rcases L with _ | _ | _ | _ | _ | _ | _ | L
  · norm_num at hA hB
    omega
  · norm_num at hA hB
    rw [if_pos hA]
  · norm_num at hA hB
    split_ifs <;> omega
  · norm_num at hA hB
    split_ifs <;> omega
  · norm_num at hA hB
    split_ifs <;> omega
  · norm_num at hA hB
    split_ifs <;> omega
  · norm_num at hA hB
    split_ifs <;> omega
  · have h7 : 16 ^ 7 ≤ 16 ^ (L + 1 + 1 + 1 + 1 + 1 + 1 + 1) :=
      Nat.pow_le_pow_right (by norm_num) (by omega)
    norm_num at h7
    omega

/-- The bytes left by the stores of `xmlSerializeHexCharRef` for a value with the digits
`ds` (least significant first, at most six): "&#x", the digits from the most significant
one, ";" and a zero byte; no other position is stored to. -/
theorem hexCharRef_memory (out : Nat) (ds : List Nat) (hd : ∀ d ∈ ds, d < 16)
    (hl1 : 1 ≤ ds.length) (hl6 : ds.length ≤ 6) :
    (List.range (ds.length + 5)).map
        (fun k => memory ([(out, 38), (out + 1, 35), (out + 2, 120)] ++
          storesDown (out + 3 + (ds.length - 1)) ds ++
          [(out + 3 + (ds.length - 1) + 1, 59), (out + 3 + (ds.length - 1) + 1 + 1, 0)])
          (out + k)) =
      ([38, 35, 120] ++ ds.reverse.map upperHexSpec ++ [59, 0]).map some ∧
    ([(out, 38), (out + 1, 35), (out + 2, 120)] ++
      storesDown (out + 3 + (ds.length - 1)) ds ++
      [(out + 3 + (ds.length - 1) + 1, 59),
       (out + 3 + (ds.length - 1) + 1 + 1, 0)]).length = ds.length + 5 ∧
    (∀ w ∈ [(out, 38), (out + 1, 35), (out + 2, 120)] ++
      storesDown (out + 3 + (ds.length - 1)) ds ++
      [(out + 3 + (ds.length - 1) + 1, 59), (out + 3 + (ds.length - 1) + 1 + 1, 0)],
      out ≤ w.1 ∧ w.1 ≤ out + 4 + ds.length) := by
  rcases ds with _ | ⟨d0, _ | ⟨d1, _ | ⟨d2, _ | ⟨d3, _ | ⟨d4, _ | ⟨d5, _ | ⟨d6, ds⟩⟩⟩⟩⟩⟩⟩
  · simp at hl1
  all_goals first
    | (exfalso; simp only [List.length_cons] at hl6; omega)
    | (simp only [List.mem_cons, List.mem_singleton, forall_eq_or_imp, forall_eq,
         List.not_mem_nil, IsEmpty.forall_iff, implies_true, and_true] at hd
       simp [storesDown, memory, List.range_succ, hexDigit_eq_upper, hd, Nat.add_assoc])


/-- The content after more stores: the last store to a position wins. -/
theorem memory_append (st new : Stores) (p : Nat) :
    memory (st ++ new) p =
      match memory new p with
      | some v => some v
      | none => memory st p := by
  induction st with
  | nil =>
    simp only [List.nil_append, memory]
    cases memory new p <;> rfl
  | cons w st ih =>
    obtain ⟨q, b⟩ := w
    show (match memory (st ++ new) p with
      | some v => some v
      | none => if q = p then some b else none) =
      match memory new p with
      | some v => some v
      | none =>
        match memory st p with
        | some v => some v
        | none => if q = p then some b else none
    rw [ih]
    cases memory new p <;> rfl

/-- Stores at the positions from `out` on leave the bytes below `out` as they are and put
the new content after them. -/
theorem memory_extend (st new : Stores) (out len : Nat) (old content : List Nat)
    (hlow : ∀ p, p < out → memory new p = none)
    (hnew : (List.range len).map (fun k => memory new (out + k)) = content.map some)
    (hold : (List.range out).map (memory st) = old.map some) :
    (List.range (out + len)).map (memory (st ++ new)) = (old ++ content).map some := by
  rw [List.range_add, List.map_append, List.map_append, List.map_map]
  congr 1
  · rw [← hold]
    apply List.map_congr_left
    intro p hp
    rw [memory_append, hlow p (List.mem_range.1 hp)]
  · rw [← hnew]
    apply List.map_congr_left
    intro k hk
    have hk' : k < len := List.mem_range.1 hk
    have hsome : ∃ v, memory new (out + k) = some v := by
      have h1 : ((List.range len).map (fun k => memory new (out + k)))[k]? =
          (content.map some)[k]? := by rw [hnew]
      rw [List.getElem?_map, List.getElem?_range hk', List.getElem?_map] at h1
      simp only [Option.map_some'] at h1
      rcases hc : content[k]? with _ | v
      · rw [hc] at h1; simp at h1
      · rw [hc] at h1; exact ⟨v, by simpa using h1⟩
    obtain ⟨v, hv⟩ := hsome
    simp only [Function.comp, memory_append, hv]

/-- The stores of `xmlSerializeHexCharRef` for the replacement character U+FFFD. -/
theorem hexCharRef_FFFD (out : Nat) :
    xmlSerializeHexCharRef out 0xFFFD =
      ([(out, 38), (out + 1, 35), (out + 2, 120), (out + 6, 68), (out + 5, 70), (out + 4, 70),
        (out + 3, 70), (out + 7, 59), (out + 8, 0)], out + 8) := by
  rfl

/-- The invariant after a pass that stores `content`, the escape of the byte consumed,
from the output position on, and possibly a zero byte after it. -/
theorem escape_step (outend : Nat) (pre : List xmlChar) (s : EscapeState) (b : xmlChar)
    (rest : List xmlChar) (new : Stores) (content : List Nat)
    (hinv : EscapeInv outend pre s) (hspec : escapeSpec b = content)
    (hroom : s.out + content.length ≤ outend)
    (hlow : ∀ p, p < s.out → memory new p = none)
    (hnew : (List.range content.length).map (fun k => memory new (s.out + k)) =
      content.map some) :
    EscapeInv outend (pre ++ [b])
      ⟨rest, s.consumed + 1, s.out + content.length, s.stores ++ new⟩ := by
  obtain ⟨hc, ho, _, hm⟩ := hinv
  refine ⟨by simp [hc], ?_, hroom, ?_⟩
  · simp [ho, hspec]
  · have := memory_extend s.stores new s.out content.length _ content hlow hnew hm
    simpa [hspec] using this

/-- One pass of the loop on a byte below 0x80: either it leaves the loop, because the room
left is less than the length of the escape of the byte, or it consumes the byte and has
stored its escape. -/
theorem body_ascii (ext : Callees) (outend : Nat) (pre : List xmlChar) (s : EscapeState)
    (b : Nat) (rest : List Nat) (hb : b < 0x80) (hlt : s.out < outend)
    (hinv : EscapeInv outend pre s) :
    (xmlEscapeEntities.body ext outend s b rest = none ∧
      outend - s.out < (escapeSpec b).length) ∨
    ∃ s', xmlEscapeEntities.body ext outend s b rest = some s' ∧ s'.input = rest ∧
      EscapeInv outend (pre ++ [b]) s' := by
  have low : ∀ (bytes : List Nat) (p : Nat), p < s.out →
      memory (storesFrom s.out bytes) p = none := by
    intro bytes
    generalize s.out = o
    induction bytes generalizing o with
    | nil => intro p _; rfl
    | cons x xs ih =>
      intro p hp
      have hne : ¬ o = p := by omega
      simp [storesFrom, memory, ih (o + 1) p (by omega), hne]
  unfold xmlEscapeEntities.body
  by_cases h1 : b = 60
  · rw [if_pos h1]
    by_cases r : outend - s.out < 4
    · rw [if_pos r]
      exact Or.inl ⟨rfl, by simpa [escapeSpec, h1] using r⟩
    · rw [if_neg r]
      refine Or.inr ⟨_, rfl, rfl, ?_⟩
      exact escape_step outend pre s b rest _ [38, 108, 116, 59] hinv
        (by simp [escapeSpec, h1]) (by simp only [List.length_cons, List.length_nil]; omega)
        (low _) (by simp [storesFrom, memory, List.range_succ, Nat.add_assoc])
  rw [if_neg h1]
  by_cases h2 : b = 62
  · rw [if_pos h2]
    by_cases r : outend - s.out < 4
    · rw [if_pos r]
      exact Or.inl ⟨rfl, by simpa [escapeSpec, h2] using r⟩
    · rw [if_neg r]
      refine Or.inr ⟨_, rfl, rfl, ?_⟩
      exact escape_step outend pre s b rest _ [38, 103, 116, 59] hinv
        (by simp [escapeSpec, h2]) (by simp only [List.length_cons, List.length_nil]; omega)
        (low _) (by simp [storesFrom, memory, List.range_succ, Nat.add_assoc])
  rw [if_neg h2]
  by_cases h3 : b = 38
  · rw [if_pos h3]
    by_cases r : outend - s.out < 5
    · rw [if_pos r]
      exact Or.inl ⟨rfl, by simpa [escapeSpec, h3] using r⟩
    · rw [if_neg r]
      refine Or.inr ⟨_, rfl, rfl, ?_⟩
      exact escape_step outend pre s b rest _ [38, 97, 109, 112, 59] hinv
        (by simp [escapeSpec, h3]) (by simp only [List.length_cons, List.length_nil]; omega)
        (low _) (by simp [storesFrom, memory, List.range_succ, Nat.add_assoc])
  rw [if_neg h3]
  by_cases h4 : b = 0xD
  · rw [if_pos h4]
    by_cases r : outend - s.out < 5
    · rw [if_pos r]
      exact Or.inl ⟨rfl, by simpa [escapeSpec, h4] using r⟩
    · rw [if_neg r]
      refine Or.inr ⟨_, rfl, rfl, ?_⟩
      exact escape_step outend pre s b rest _ [38, 35, 120, 68, 59] hinv
        (by simp [escapeSpec, h4]) (by simp only [List.length_cons, List.length_nil]; omega)
        (low _) (by simp [storesFrom, memory, List.range_succ, Nat.add_assoc])
  rw [if_neg h4]
  by_cases h5 : (b ≥ 0x20 ∧ b < 0x80) ∨ b = 0xA ∨ b = 0x9
  · rw [if_pos h5]
    refine Or.inr ⟨_, rfl, rfl, ?_⟩
    have hs : escapeSpec b = [b] := by
      have : b = 9 ∨ b = 10 ∨ (32 ≤ b ∧ b ≤ 127) := by omega
      simp only [escapeSpec, if_neg h1, if_neg h2, if_neg h3]
      rw [if_neg (by simpa using h4), if_pos this]
    exact escape_step outend pre s b rest _ [b] hinv hs
      (by simp only [List.length_cons, List.length_nil]; omega)
      (low _) (by simp [storesFrom, memory, List.range_succ])
  rw [if_neg h5, if_pos hb]
  have hs : escapeSpec b = [38, 35, 120, 70, 70, 70, 68, 59] := by
    have : ¬ (b = 9 ∨ b = 10 ∨ (32 ≤ b ∧ b ≤ 127)) := by omega
    simp only [escapeSpec, if_neg h1, if_neg h2, if_neg h3]
    rw [if_neg (by simpa using h4), if_neg this]
  by_cases r : outend - s.out < 8
  · rw [if_pos r]
    exact Or.inl ⟨rfl, by rw [hs]; simpa using r⟩
  · rw [if_neg r]
    refine Or.inr ⟨_, rfl, rfl, ?_⟩
    rw [hexCharRef_FFFD]
    exact escape_step outend pre s b rest _ [38, 35, 120, 70, 70, 70, 68, 59] hinv hs
      (by simp only [List.length_cons, List.length_nil]; omega)
      (by
        intro p hp
        have hne : ∀ k, ¬ s.out + k = p := fun k => by omega
        have hne0 : ¬ s.out = p := by omega
        simp [memory, hne, hne0])
      (by simp [memory, List.range_succ, Nat.add_assoc])

/-- The escape of a byte has at least one byte. -/
theorem escapeSpec_length_pos (b : Nat) : 1 ≤ (escapeSpec b).length := by
  unfold escapeSpec
  split_ifs <;> simp

/-- The loop of `xmlEscapeEntities` on bytes below 0x80, with a bound of at least the
number of bytes left: it ends, with the invariant, on a split of the bytes, and it ends
only when no byte is left or the room left is less than the escape of the next byte. -/
theorem loop_ascii (ext : Callees) (outend : Nat) : ∀ (fuel : Nat) (s : EscapeState)
    (pre : List xmlChar), (∀ b ∈ s.input, b < 0x80) → s.input.length ≤ fuel →
    EscapeInv outend pre s →
    ∃ s' pre', xmlEscapeEntities.loop ext outend fuel s = some s' ∧
      EscapeInv outend pre' s' ∧ pre' ++ s'.input = pre ++ s.input ∧
      (s'.input = [] ∨
        ∃ b, s'.input.head? = some b ∧ outend - s'.out < (escapeSpec b).length) := by
  intro fuel
  induction fuel with
  | zero =>
    intro s pre _ hlen hinv
    have hnil : s.input = [] := List.length_eq_zero.1 (Nat.le_zero.1 hlen)
    refine ⟨s, pre, ?_, hinv, rfl, Or.inl hnil⟩
    unfold xmlEscapeEntities.loop
    simp [hnil]
  | succ fuel ih =>
    intro s pre hb hlen hinv
    unfold xmlEscapeEntities.loop
    rcases hin : s.input with _ | ⟨b, rest⟩
    · exact ⟨s, pre, rfl, hinv, by rw [hin], Or.inl hin⟩
    · simp only
      by_cases hlt : s.out < outend
      · rw [if_pos hlt]
        have hb0 : b < 0x80 := hb b (by rw [hin]; exact List.mem_cons_self _ _)
        rcases body_ascii ext outend pre s b rest hb0 hlt hinv with
          ⟨hn, hroom⟩ | ⟨s1, hs1, hi1, hinv1⟩
        · rw [hn]
          exact ⟨s, pre, rfl, hinv, by rw [hin], Or.inr ⟨b, by rw [hin]; rfl, hroom⟩⟩
        · rw [hs1]
          have hb1 : ∀ x ∈ s1.input, x < 0x80 := by
            intro x hx
            rw [hi1] at hx
            exact hb x (by rw [hin]; exact List.mem_cons_of_mem _ hx)
          have hl1 : s1.input.length ≤ fuel := by
            rw [hi1]
            rw [hin] at hlen
            simpa using hlen
          obtain ⟨s2, pre2, h2, hinv2, hsplit, hstop⟩ := ih s1 (pre ++ [b]) hb1 hl1 hinv1
          refine ⟨s2, pre2, h2, hinv2, ?_, hstop⟩
          rw [hsplit, hi1]
          simp
      · rw [if_neg hlt]
        have hpos := escapeSpec_length_pos b
        exact ⟨s, pre, rfl, hinv, by rw [hin],
          Or.inr ⟨b, by rw [hin]; rfl, by omega⟩⟩

/-- The pointer returned by `xmlSerializeHexCharRef` is between 5 and 10 bytes after `out`,
whatever the value. -/
theorem hexCharRef_bound (out : Nat) (val : Int) :
    out + 5 ≤ (xmlSerializeHexCharRef out val).2 ∧
    (xmlSerializeHexCharRef out val).2 ≤ out + 10 := by
  unfold xmlSerializeHexCharRef
  simp only
  split_ifs <;> omega

/-- One pass of the loop on any byte, when `xmlGetUTF8Char`, each time it returns a value
that is not negative, reports a number of bytes between one and the number available:
either the pass leaves the loop, with room for less than 11 bytes, or it consumes at least
one byte and at most the bytes available, and the output position stays within the
capacity. -/
theorem body_general (ext : Callees) (outend : Nat) (s : EscapeState) (b : Nat)
    (rest : List Nat)
    (hext : ∀ l : List Nat, l ≠ [] → 0 ≤ (ext.xmlGetUTF8Char l).1 →
      1 ≤ (ext.xmlGetUTF8Char l).2 ∧ (ext.xmlGetUTF8Char l).2 ≤ l.length)
    (hlt : s.out < outend) :
    (xmlEscapeEntities.body ext outend s b rest = none ∧ outend - s.out < 11) ∨
    ∃ s', xmlEscapeEntities.body ext outend s b rest = some s' ∧ s'.out ≤ outend ∧
      s'.input.length < (b :: rest).length ∧
      s'.consumed + s'.input.length = s.consumed + (b :: rest).length := by
  have hF : (xmlSerializeHexCharRef s.out 0xFFFD).2 = s.out + 8 := by rw [hexCharRef_FFFD]
  have hV := hexCharRef_bound s.out
    (if ext.IS_CHAR (ext.xmlGetUTF8Char (b :: rest)).1 = true
      then (ext.xmlGetUTF8Char (b :: rest)).1 else 0xFFFD)
  have hg := hext (b :: rest) (List.cons_ne_nil b rest)
  have hlen : (b :: rest).length = rest.length + 1 := rfl
  unfold xmlEscapeEntities.body
  simp only
  by_cases h1 : b = 60
  · rw [if_pos h1]
    by_cases r : outend - s.out < 4
    · rw [if_pos r]; exact Or.inl ⟨rfl, by omega⟩
    · rw [if_neg r]
      refine Or.inr ⟨_, rfl, ?_, ?_, ?_⟩
      all_goals simp only [EscapeState.emit, List.length_cons, List.length_nil,
        List.length_drop]
      all_goals omega
  rw [if_neg h1]
  by_cases h2 : b = 62
  · rw [if_pos h2]
    by_cases r : outend - s.out < 4
    · rw [if_pos r]; exact Or.inl ⟨rfl, by omega⟩
    · rw [if_neg r]
      refine Or.inr ⟨_, rfl, ?_, ?_, ?_⟩
      all_goals simp only [EscapeState.emit, List.length_cons, List.length_nil,
        List.length_drop]
      all_goals omega
  rw [if_neg h2]
  by_cases h3 : b = 38
  · rw [if_pos h3]
    by_cases r : outend - s.out < 5
    · rw [if_pos r]; exact Or.inl ⟨rfl, by omega⟩
    · rw [if_neg r]
      refine Or.inr ⟨_, rfl, ?_, ?_, ?_⟩
      all_goals simp only [EscapeState.emit, List.length_cons, List.length_nil,
        List.length_drop]
      all_goals omega
  rw [if_neg h3]
  by_cases h4 : b = 0xD
  · rw [if_pos h4]
    by_cases r : outend - s.out < 5
    · rw [if_pos r]; exact Or.inl ⟨rfl, by omega⟩
    · rw [if_neg r]
      refine Or.inr ⟨_, rfl, ?_, ?_, ?_⟩
      all_goals simp only [EscapeState.emit, List.length_cons, List.length_nil,
        List.length_drop]
      all_goals omega
  rw [if_neg h4]
  by_cases h5 : (b ≥ 0x20 ∧ b < 0x80) ∨ b = 0xA ∨ b = 0x9
  · rw [if_pos h5]
    refine Or.inr ⟨_, rfl, ?_, ?_, ?_⟩
    all_goals simp only [EscapeState.emit, List.length_cons, List.length_nil,
      List.length_drop]
    all_goals omega
  rw [if_neg h5]
  by_cases h6 : b < 0x80
  · rw [if_pos h6]
    by_cases r : outend - s.out < 8
    · rw [if_pos r]; exact Or.inl ⟨rfl, by omega⟩
    · rw [if_neg r]
      refine Or.inr ⟨_, rfl, ?_, ?_, ?_⟩
      all_goals simp only [EscapeState.emit, List.length_cons, List.length_nil,
        List.length_drop]
      all_goals omega
  rw [if_neg h6]
  by_cases r : outend - s.out < 11
  · rw [if_pos r]; exact Or.inl ⟨rfl, by omega⟩
  rw [if_neg r]
  by_cases h7 : (ext.xmlGetUTF8Char (b :: rest)).1 < 0
  · rw [if_pos h7]
    refine Or.inr ⟨_, rfl, ?_, ?_, ?_⟩
    all_goals simp only [EscapeState.emit, List.length_cons, List.length_nil,
      List.length_drop]
    all_goals omega
  · rw [if_neg h7]
    have hg' := hg (by omega)
    refine Or.inr ⟨_, rfl, ?_, ?_, ?_⟩
    all_goals simp only [EscapeState.emit, List.length_cons, List.length_nil,
      List.length_drop]
    all_goals omega

/-- The loop of `xmlEscapeEntities` on any bytes, with a bound of at least the number of
bytes left and `xmlGetUTF8Char` as in `body_general`: it ends, within the input and within
the capacity, and it ends only when no byte is left or there is room for less than 11
bytes. -/
theorem loop_general (ext : Callees) (outend : Nat)
    (hext : ∀ l : List Nat, l ≠ [] → 0 ≤ (ext.xmlGetUTF8Char l).1 →
      1 ≤ (ext.xmlGetUTF8Char l).2 ∧ (ext.xmlGetUTF8Char l).2 ≤ l.length) :
    ∀ (fuel : Nat) (s : EscapeState), s.input.length ≤ fuel → s.out ≤ outend →
    ∃ s', xmlEscapeEntities.loop ext outend fuel s = some s' ∧ s'.out ≤ outend ∧
      s'.consumed + s'.input.length = s.consumed + s.input.length ∧
      (s'.input = [] ∨ outend - s'.out < 11) := by
  intro fuel
  induction fuel with
  | zero =>
    intro s hlen hle
    have hnil : s.input = [] := List.length_eq_zero.1 (Nat.le_zero.1 hlen)
    refine ⟨s, ?_, hle, rfl, Or.inl hnil⟩
    unfold xmlEscapeEntities.loop
    simp [hnil]
  | succ fuel ih =>
    intro s hlen hle
    unfold xmlEscapeEntities.loop
    rcases hin : s.input with _ | ⟨b, rest⟩
    · exact ⟨s, rfl, hle, by rw [hin], Or.inl hin⟩
    · simp only
      by_cases hlt : s.out < outend
      · rw [if_pos hlt]
        rcases body_general ext outend s b rest hext hlt with
          ⟨hn, hroom⟩ | ⟨s1, hs1, ho1, hl1, hc1⟩
        · rw [hn]
          exact ⟨s, rfl, hle, by rw [hin], Or.inr hroom⟩
        · rw [hs1]
          rw [hin] at hlen
          obtain ⟨s2, h2, ho2, hc2, hstop⟩ := ih s1 (by omega) ho1
          exact ⟨s2, h2, ho2, by omega, hstop⟩
      · rw [if_neg hlt]
        exact ⟨s, rfl, hle, by rw [hin], Or.inr (by omega)⟩

/-- The decoder `calleesB`, each time it returns a value that is not negative, reports two
bytes used, with at least two bytes available. -/
theorem calleesB_reports (l : List Nat) (_hl : l ≠ [])
    (h : 0 ≤ (calleesB.xmlGetUTF8Char l).1) :
    1 ≤ (calleesB.xmlGetUTF8Char l).2 ∧ (calleesB.xmlGetUTF8Char l).2 ≤ l.length := by
  rcases l with _ | ⟨a, _ | ⟨b, rest⟩⟩
  · simp [calleesB] at h
  · simp [calleesB] at h
  · simp only [calleesB] at h ⊢
    split_ifs at h ⊢
    · simp
    · simp at h

/-! ## C25: what xmlEscapeEntities produces -/

/-- C25: for every block of input bytes and every output capacity, `xmlEscapeEntities`
returns 0, stores in `*inlen` the number of bytes consumed, at most the number given, and in
`*outlen` the number of bytes produced, at most the capacity, and it stops only when all
bytes are consumed or there is room for less than 11 bytes (for bytes of 0x80 or more this
supposes that `xmlGetUTF8Char`, each time it returns a value that is not negative, reports a
number of bytes between one and the number available).  When all input bytes are below
0x80, the bytes of the output array below the new `*outlen` are the escapes of the consumed
bytes, in order: "&lt;" for '<', "&gt;" for '>', "&amp;" for '&', "&#xD;" for 0x0D, the byte
itself for 0x09, 0x0A and 0x20 to 0x7F, "&#xFFFD;" for any other control byte; and the bytes
consumed are all the bytes, or the escape of the first byte not consumed is longer than the
room left. -/
theorem xmlEscapeEntities_produces (ext : Callees) (outlen : Nat) (input : List Nat) :
    ((∀ l : List Nat, l ≠ [] → 0 ≤ (ext.xmlGetUTF8Char l).1 →
        1 ≤ (ext.xmlGetUTF8Char l).2 ∧ (ext.xmlGetUTF8Char l).2 ≤ l.length) →
      ∃ r, xmlEscapeEntities ext outlen input = some r ∧ r.ret = 0 ∧
        r.inlen ≤ input.length ∧ r.outlen ≤ outlen ∧
        (r.inlen = input.length ∨ outlen - r.outlen < 11)) ∧
    ((∀ b ∈ input, b < 0x80) →
      ∃ r, xmlEscapeEntities ext outlen input = some r ∧ r.ret = 0 ∧
        r.inlen ≤ input.length ∧ r.outlen ≤ outlen ∧
        r.outlen = ((input.take r.inlen).flatMap escapeSpec).length ∧
        r.produced = ((input.take r.inlen).flatMap escapeSpec).map some ∧
        (r.inlen = input.length ∨
          ∃ b, input[r.inlen]? = some b ∧ outlen - r.outlen < (escapeSpec b).length)) := by
  constructor
  · intro hext
    obtain ⟨s', h1, h2, h3, h4⟩ := loop_general ext outlen hext input.length ⟨input, 0, 0, []⟩
      (le_refl _) (Nat.zero_le _)
    refine ⟨⟨0, s'.consumed, s'.out, s'.stores⟩, ?_, rfl, ?_, h2, ?_⟩
    · unfold xmlEscapeEntities
      rw [h1]
      rfl
    · simp only at h3 ⊢
      omega
    · simp only at h3 ⊢
      rcases h4 with h4 | h4
      · left
        rw [h4] at h3
        simpa using h3
      · exact Or.inr h4
  · intro hb
    obtain ⟨s', pre', h1, ⟨hc, ho, hle, hm⟩, hsplit, hstop⟩ :=
      loop_ascii ext outlen input.length ⟨input, 0, 0, []⟩ [] hb (le_refl _)
        ⟨rfl, rfl, Nat.zero_le _, rfl⟩
    simp only [List.nil_append] at hsplit
    have htake : input.take s'.consumed = pre' := by
      rw [← hsplit, hc]
      simp
    refine ⟨⟨0, s'.consumed, s'.out, s'.stores⟩, ?_, rfl, ?_, hle, ?_, ?_, ?_⟩
    · unfold xmlEscapeEntities
      rw [h1]
      rfl
    · simp only
      rw [← hsplit, hc]
      simp
    · simp only
      rw [htake, ho]
    · unfold EscapeResult.produced
      simp only
      rw [htake, hm]
    · simp only
      rcases hstop with hnil | ⟨b, hhead, hroom⟩
      · left
        rw [← hsplit, hc, hnil]
        simp
      · right
        refine ⟨b, ?_, hroom⟩
        rw [← hsplit, hc, List.getElem?_append_right (le_refl _), Nat.sub_self,
          ← List.head?_eq_getElem?]
        exact hhead

/-- C25 at concrete inputs.  The seven bytes '<', 'A', 0x0D, 0x0A, 0x01, '&', '>' with room
for 100 bytes: the call returns 0 with all 7 bytes consumed and the 28 bytes
"&lt;A&#xD;", 0x0A, "&#xFFFD;&amp;&gt;" produced.  The bytes '<', 'A', '&' with room for 6
bytes: two bytes consumed, the five bytes "&lt;A" produced, since "&amp;" needs five more.
The bytes 0xC3, 0xA9, 0x80, '<' with room for 100 bytes and a decoder of two-byte
sequences that reports no byte used on an error: all four bytes consumed, "&#xE9;",
"&#xFFFD;" and "&lt;" produced. -/
theorem xmlEscapeEntities_produces_witness :
    xmlEscapeEntities calleesA 100 [60, 65, 13, 10, 1, 38, 62] =
      some ⟨0, 7, 28,
        storesFrom 0 [38, 108, 116, 59, 65, 38, 35, 120, 68, 59, 10] ++
        [(11, 38), (12, 35), (13, 120), (17, 68), (16, 70), (15, 70), (14, 70), (18, 59),
          (19, 0)] ++
        storesFrom 19 [38, 97, 109, 112, 59, 38, 103, 116, 59]⟩ ∧
    (∃ r, xmlEscapeEntities calleesA 100 [60, 65, 13, 10, 1, 38, 62] = some r ∧
      r.produced =
        [38, 108, 116, 59, 65, 38, 35, 120, 68, 59, 10, 38, 35, 120, 70, 70, 70, 68, 59,
          38, 97, 109, 112, 59, 38, 103, 116, 59].map some) ∧
    (∃ r, xmlEscapeEntities calleesA 6 [60, 65, 38] = some r ∧ r.ret = 0 ∧ r.inlen = 2 ∧
      r.outlen = 5 ∧ r.produced = [38, 108, 116, 59, 65].map some) ∧
    (∃ r, xmlEscapeEntities calleesB 100 [0xC3, 0xA9, 0x80, 60] = some r ∧ r.ret = 0 ∧
      r.inlen = 4 ∧ r.outlen = 18 ∧
      r.produced = [38, 35, 120, 69, 57, 59, 38, 35, 120, 70, 70, 70, 68, 59,
        38, 108, 116, 59].map some) ∧
    (∃ r, xmlEscapeEntities calleesB 100 [0xC3, 0xA9, 0x80, 60] = some r ∧ r.ret = 0 ∧
      r.inlen ≤ [0xC3, 0xA9, 0x80, 60].length ∧ r.outlen ≤ 100 ∧
      (r.inlen = [0xC3, 0xA9, 0x80, 60].length ∨ 100 - r.outlen < 11)) ∧
    (∃ r, xmlEscapeEntities calleesA 6 [60, 65, 38] = some r ∧ r.ret = 0 ∧
      r.inlen ≤ [60, 65, 38].length ∧ r.outlen ≤ 6 ∧
      r.outlen = (([60, 65, 38].take r.inlen).flatMap escapeSpec).length ∧
      r.produced = (([60, 65, 38].take r.inlen).flatMap escapeSpec).map some ∧
      (r.inlen = [60, 65, 38].length ∨
        ∃ b, [60, 65, 38][r.inlen]? = some b ∧ 6 - r.outlen < (escapeSpec b).length)) :=
  ⟨by rfl, ⟨_, rfl, by decide⟩, ⟨_, rfl, rfl, rfl, rfl, by decide⟩,
   ⟨_, rfl, rfl, rfl, rfl, by decide⟩,
   (xmlEscapeEntities_produces calleesB 100 [0xC3, 0xA9, 0x80, 60]).1 calleesB_reports,
   (xmlEscapeEntities_produces calleesA 6 [60, 65, 38]).2 (by decide)⟩

/-! ## C28: the stores of xmlEscapeEntities and the capacity -/

/-- C28 fails: for the single input byte 0x01 and an output array of 8 bytes, whatever the
functions of other files do, `xmlEscapeEntities` passes the test `outend - out < 8`, and
`xmlSerializeHexCharRef` then stores "&#xFFFD;" at the positions 0 to 7 and a zero byte at
position 8, one past the end of the array; the call returns 0 with `*outlen` equal to 8. -/
theorem xmlEscapeEntities_stores_past_capacity (ext : Callees) :
    ∃ r, xmlEscapeEntities ext 8 [1] = some r ∧ r.ret = 0 ∧ r.inlen = 1 ∧ r.outlen = 8 ∧
      (8, 0) ∈ r.stores ∧ r.stores.map Prod.fst = [0, 1, 2, 6, 5, 4, 3, 7, 8] :=
  ⟨⟨0, 1, 8, [(0, 38), (1, 35), (2, 120), (6, 68), (5, 70), (4, 70), (3, 70), (7, 59),
      (8, 0)]⟩, rfl, rfl, rfl, rfl, by decide, rfl⟩

/-! ## C30: what xmlSerializeHexCharRef stores -/

/-- C30: for every code point `val` from 1 to 0x10FFFF, `xmlSerializeHexCharRef(out, val)`
returns `out + 4 + n`, where `n` is the number of hexadecimal digits of `val`; after the
call the `n + 5` bytes from `out` on are "&#x", the uppercase hexadecimal digits of `val`,
most significant first and without a leading zero, ";" and a zero byte; it makes exactly
`n + 5` stores, and none outside these positions. -/
theorem xmlSerializeHexCharRef_writes (out : Nat) (val : Int) (h1 : 1 ≤ val)
    (h2 : val ≤ 0x10FFFF) :
    (xmlSerializeHexCharRef out val).2 = out + 4 + (Nat.digits 16 val.toNat).length ∧
    (List.range ((Nat.digits 16 val.toNat).length + 5)).map
        (fun k => memory (xmlSerializeHexCharRef out val).1 (out + k)) =
      ([38, 35, 120] ++ (Nat.digits 16 val.toNat).reverse.map upperHexSpec ++ [59, 0]).map
        some ∧
    (Nat.digits 16 val.toNat).reverse.head? ≠ some 0 ∧
    (xmlSerializeHexCharRef out val).1.length = (Nat.digits 16 val.toNat).length + 5 ∧
    (∀ w ∈ (xmlSerializeHexCharRef out val).1,
      out ≤ w.1 ∧ w.1 ≤ out + 4 + (Nat.digits 16 val.toNat).length) := by
  obtain ⟨n, rfl⟩ : ∃ n : Nat, val = n := ⟨val.toNat, by omega⟩
  have hn1 : 1 ≤ n := by omega
  have hn2 : n ≤ 0x10FFFF := by omega
  have hlen := digits_length_ranges n hn1 hn2
  have hdig : ∀ d ∈ Nat.digits 16 n, d < 16 := fun d hd => Nat.digits_lt_base (by norm_num) hd
  have hlast : (Nat.digits 16 n).reverse.head? ≠ some 0 := by
    have hne : Nat.digits 16 n ≠ [] := Nat.digits_ne_nil_iff_ne_zero.mpr (by omega)
    have := Nat.getLast_digit_ne_zero 16 (m := n) (by omega)
    rw [List.head?_reverse, List.getLast?_eq_getLast _ hne]
    simpa using this
  have key : ∀ ptr, hexDigitStores n ptr n = storesDown ptr (Nat.digits 16 n) :=
    fun ptr => hexDigitStores_eq n ptr n (le_refl n)
  have hl1 : 1 ≤ (Nat.digits 16 n).length := by
    rw [hlen]; split_ifs <;> omega
  have hl6 : (Nat.digits 16 n).length ≤ 6 := by
    rw [hlen]; split_ifs <;> omega
  have hx : xmlSerializeHexCharRef out (n : Int) =
      ([(out, 38), (out + 1, 35), (out + 2, 120)] ++
        storesDown (out + 3 + ((Nat.digits 16 n).length - 1)) (Nat.digits 16 n) ++
        [(out + 3 + ((Nat.digits 16 n).length - 1) + 1, 59),
         (out + 3 + ((Nat.digits 16 n).length - 1) + 1 + 1, 0)],
       out + 3 + ((Nat.digits 16 n).length - 1) + 1 + 1) := by
    unfold xmlSerializeHexCharRef
    simp only [Int.toNat_ofNat, key]
    rw [hlen]
    split_ifs <;> first | rfl | (exfalso; omega)
  have hm := hexCharRef_memory out (Nat.digits 16 n) hdig hl1 hl6
  simp only [Int.toNat_ofNat]
  rw [hx]
  refine ⟨by simp only; omega, hm.1, hlast, hm.2.1, hm.2.2⟩



/-- C30 at a concrete input: the replacement character U+FFFD at position 0. -/
theorem xmlSerializeHexCharRef_writes_witness :
    (xmlSerializeHexCharRef 0 0xFFFD).2 = 0 + 4 + (Nat.digits 16 (0xFFFD : Int).toNat).length :=
  (xmlSerializeHexCharRef_writes 0 0xFFFD (by decide) (by decide)).1


/-! ## C29: the indentation loop -/

/-- With `indent_nr` equal to 0 and a positive number of levels, the loop of
`xmlOutputBufferWriteWSNonSig` is still going after any number of passes. -/
theorem indent_loop_never_ends (ctxt : xmlSaveCtxt) (extra : Int)
    (hnr : ctxt.indent_nr = 0) (hpos : 0 < ctxt.level + extra) :
    ∀ (fuel : Nat) (buf : List WriteCall),
      xmlOutputBufferWriteWSNonSig.loop ctxt extra fuel 0 buf = none := by
  intro fuel
  induction fuel with
  | zero =>
    intro buf
    unfold xmlOutputBufferWriteWSNonSig.loop
    rw [if_pos hpos]
  | succ fuel ih =>
    intro buf
    unfold xmlOutputBufferWriteWSNonSig.loop
    rw [if_pos hpos, hnr, Int.zero_add]
    exact ih _

/-- With `indent_nr` at least 1, the loop ends within as many passes as there are levels
left, and the calls it makes ask for `indent_size` bytes for each level left. -/
theorem indent_loop_ends (ctxt : xmlSaveCtxt) (extra : Int) (hnr : 1 ≤ ctxt.indent_nr) :
    ∀ (fuel : Nat) (i : Int) (buf : List WriteCall),
      (ctxt.level + extra - i).toNat ≤ fuel →
      ∃ out, xmlOutputBufferWriteWSNonSig.loop ctxt extra fuel i buf = some out ∧
        written out = written buf + ctxt.indent_size * max 0 (ctxt.level + extra - i) := by
  intro fuel
  induction fuel with
  | zero =>
    intro i buf hf
    have hle : ¬ i < ctxt.level + extra := by omega
    refine ⟨buf, ?_, ?_⟩
    · unfold xmlOutputBufferWriteWSNonSig.loop
      rw [if_neg hle]
    · have : max 0 (ctxt.level + extra - i) = 0 := by omega
      rw [this]
      simp
  | succ fuel ih =>
    intro i buf hf
    unfold xmlOutputBufferWriteWSNonSig.loop
    by_cases hlt : i < ctxt.level + extra
    · rw [if_pos hlt]
      obtain ⟨out, h1, h2⟩ := ih (i + ctxt.indent_nr)
        (buf ++ [⟨ctxt.indent_size *
          (if ctxt.level + extra - i > ctxt.indent_nr then ctxt.indent_nr
           else ctxt.level + extra - i), ctxt.indent⟩]) (by omega)
      refine ⟨out, h1, ?_⟩
      rw [h2]
      have hm : (if ctxt.level + extra - i > ctxt.indent_nr then ctxt.indent_nr
            else ctxt.level + extra - i) +
          max 0 (ctxt.level + extra - (i + ctxt.indent_nr)) =
          max 0 (ctxt.level + extra - i) := by
        split_ifs <;> omega
      rw [← hm, mul_add]
      simp only [written, List.map_append, List.map_cons, List.map_nil, List.sum_append,
        List.sum_cons, List.sum_nil]
      ring
    · rw [if_neg hlt]
      refine ⟨buf, rfl, ?_⟩
      have : max 0 (ctxt.level + extra - i) = 0 := by omega
      rw [this]
      simp

/-- C29 fails when the indent string is null or empty: `xmlSaveCtxtInit` then leaves
`indent_nr` (and `indent_size`) of a zeroed context at 0, and for every output buffer and
every `level` and `extra` with `level + extra` positive the loop of
`xmlOutputBufferWriteWSNonSig`, which steps by `indent_nr`, is still going after any number
of passes.  For an indent string of 1 to 60 bytes the call does end, after at most
`level + extra` passes, having asked for one newline and `(level + extra) * indent_size`
bytes of indentation. -/
theorem indentation_loop_with_empty_indent (g : Globals) (c0 : xmlSaveCtxt)
    (buf : List WriteCall) (level extra : Int) (fuel : Nat) (hpos : 0 < level + extra) :
    ((g.xmlTreeIndentString = none ∨ g.xmlTreeIndentString = some []) → c0.indent_nr = 0 →
      (xmlSaveCtxtInit g c0).indent_nr = 0 ∧
      xmlOutputBufferWriteWSNonSig
        { xmlSaveCtxtInit g c0 with buf := some buf, level := level } extra fuel = none) ∧
    (∀ str, g.xmlTreeIndentString = some str → 1 ≤ str.length → str.length ≤ 60 →
      (xmlSaveCtxtInit g c0).indent_size = str.length ∧
      ∃ out, xmlOutputBufferWriteWSNonSig
          { xmlSaveCtxtInit g c0 with buf := some buf, level := level } extra
          (level + extra).toNat = some (some out) ∧
        written out = written buf + 1 + (level + extra) * (str.length : Int)) := by
  constructor
  · intro hg h0
    have hnr : (xmlSaveCtxtInit g c0).indent_nr = 0 := by
      unfold xmlSaveCtxtInit
      rcases hg with hg | hg <;> simp [hg, h0] <;> split_ifs <;> simp [h0]
    refine ⟨hnr, ?_⟩
    unfold xmlOutputBufferWriteWSNonSig
    simp only
    rw [indent_loop_never_ends
      { xmlSaveCtxtInit g c0 with buf := some buf, level := level } extra hnr hpos]
    rfl
  · intro str hs h1 h60
    have hlen : ((str.length : Int) = 0) = False := by
      simp only [eq_iff_iff, iff_false]
      omega
    have hsz : (xmlSaveCtxtInit g c0).indent_size = str.length := by
      unfold xmlSaveCtxtInit
      simp [hs, hlen]
      split_ifs <;> rfl
    have hnr : 1 ≤ (xmlSaveCtxtInit g c0).indent_nr := by
      have hq : (1 : Int) ≤ MAX_INDENT / (str.length : Int) := by
        unfold MAX_INDENT
        have hpos' : (0 : Int) < (str.length : Int) := by omega
        rw [Int.le_ediv_iff_mul_le hpos']
        omega
      unfold xmlSaveCtxtInit
      simp [hs, hlen]
      split_ifs <;> exact hq
    refine ⟨hsz, ?_⟩
    obtain ⟨out, ho, hw⟩ := indent_loop_ends
      { xmlSaveCtxtInit g c0 with buf := some buf, level := level } extra hnr
      (level + extra).toNat 0 (buf ++ [⟨1, [10]⟩]) (by simp)
    refine ⟨out, ?_, ?_⟩
    · unfold xmlOutputBufferWriteWSNonSig
      simp only
      rw [ho]
      rfl
    · rw [hw]
      have hmax : max 0 (level + extra - 0) = level + extra := by omega
      simp only [hmax, hsz]
      simp only [written, List.map_append, List.map_cons, List.map_nil, List.sum_append,
        List.sum_cons, List.sum_nil]
      ring

/-- C29 at a concrete input: the empty indent string, one level, and any number of
passes: the loop is still going. -/
theorem indentation_loop_with_empty_indent_witness :
    xmlOutputBufferWriteWSNonSig
      { xmlSaveCtxtInit globalsEmptyIndent xmlSaveCtxt.zeroed with
        buf := some [], level := 1 } 0 1000 = none :=
  ((indentation_loop_with_empty_indent globalsEmptyIndent xmlSaveCtxt.zeroed [] 1 0 1000
    (by decide)).1 (Or.inr rfl) rfl).2

end Libxml
